import Mathlib

/-!
# libsurvive Kalman tracker: a shallow embedding of `survive_kalman_tracker.c`

The embedding works over an arbitrary linearly ordered field `F`, which stands for the C type
`FLT` (double) with exact arithmetic; conversions between numeric C types are the canonical
casts into `F`.  The square root of the C library is a parameter `sqrt : F → F`.

Matrices of the `cnmatrix` library are modelled by their extent and an entry function; bounds
assertions of `cnMatrixGet` / `cnMatrixSet` are proof obligations and not control flow.
The `cnkalman` filter, the generated kinematics code and the host callbacks are outside the
repository sources and enter the model as parameters (`Collaborators`).
-/

namespace Survive

/-! ## Matrices (`cnmatrix`) -/

/-- A dense `rows × cols` matrix of the `cnmatrix` library, addressed by (row, column). -/
structure CnMat (F : Type) where
  rows : Nat
  cols : Nat
  data : Nat → Nat → F

section Defs

variable {F : Type} [LinearOrderedField F]

/-- Entry read `cnMatrixGet(m, i, j)`.  The library asserts `i < rows` and `j < cols`; here an
index outside the extent reads the memory next to the matrix, which `data` carries beyond
`rows` and `cols`.  Statements about entries of a matrix therefore keep to indices inside it. -/
def cnMatrixGet (m : CnMat F) (i j : Nat) : F := m.data i j

/-- Entry write `cnMatrixSet(m, i, j, v)`: overwrite one entry.  The library asserts `i < rows`
and `j < cols`; a write with an index outside the extent lands outside the matrix (in `data`
beyond `rows` and `cols`) and changes no entry of it. -/
def cnMatrixSet (m : CnMat F) (i j : Nat) (v : F) : CnMat F :=
  { m with data := fun a b => if a = i ∧ b = j then v else m.data a b }

/-- A zero-initialised `rows × cols` matrix (`CN_CREATE_STACK_MAT`, `cn_set_zero`). -/
def cn_zero (rows cols : Nat) : CnMat F :=
  { rows := rows, cols := cols, data := fun _ _ => 0 }

/-- Clearing `cn_set_zero(m)`. -/
def cn_set_zero (m : CnMat F) : CnMat F :=
  { m with data := fun _ _ => 0 }

/-- Region copy `cn_copy_in_row_major_roi(dst, src, src_stride, start_i, start_j, end_i, end_j)`: copy the
row-major array `src` into the region of interest of `dst`, clipped to the extent of `dst`. -/
def cn_copy_in_row_major_roi (dst : CnMat F) (src : List F)
    (src_stride start_i start_j end_i end_j : Nat) : CnMat F :=
  { dst with
    data := fun i j =>
      if start_i ≤ i ∧ i < min dst.rows end_i ∧ start_j ≤ j ∧ j < min end_j dst.cols then
        src.getD (j + i * src_stride) 0
      else dst.data i j }

/-- The entries of a column vector, `cn_as_const_vector(x)`. -/
def cn_as_const_vector (x : CnMat F) : Nat → F := fun i => x.data i 0

/-- A column vector over an array, `cnVec(rows, data)`. -/
def cnVec (rows : Nat) (v : Nat → F) : CnMat F :=
  { rows := rows, cols := 1, data := fun i _ => v i }

/-! ## Linear algebra helpers (`linmath`) -/

/-- Modelled from the spec: `quatmagnitude` of linmath (not among the sources), the Euclidean
norm of a quaternion. -/
def quatmagnitude (sqrt : F → F) (q : Fin 4 → F) : F :=
  sqrt (q 0 * q 0 + q 1 * q 1 + q 2 * q 2 + q 3 * q 3)

/-- Modelled from the spec: `quatnormalize` of linmath (not among the sources), "re-normalise
the quaternion": divide by the magnitude, leaving a zero-magnitude quaternion as it is. -/
def quatnormalize (sqrt : F → F) (q : Fin 4 → F) : Fin 4 → F :=
  let norm := quatmagnitude sqrt q
  let division := if norm = 0 then 1 else 1 / norm
  fun i => q i * division

/-- Modelled from the spec: `linmath_enforce_range` of linmath (not among the sources), "clamp
to the range". -/
def linmath_enforce_range (v mn mx : F) : F :=
  if v < mn then mn else if v > mx then mx else v

/-- Modelled from the spec: `normnd2` of linmath (not among the sources), the squared Euclidean
norm of the first `cnt` entries of an array. -/
def normnd2 (v : Nat → F) (cnt : Nat) : F :=
  ((List.range cnt).map (fun i => v i * v i)).sum

/-- Modelled from the spec: `quatiszero` of linmath (not among the sources), whether all four
components are zero. -/
def quatiszero (q : Fin 4 → F) : Bool :=
  decide (q 0 = 0) && decide (q 1 = 0) && decide (q 2 = 0) && decide (q 3 = 0)

/-! ## The state vector -/

/-- The pose `SurvivePose`: position and orientation quaternion (w, x, y, z). -/
structure SurvivePose (F : Type) where
  Pos : Fin 3 → F
  Rot : Fin 4 → F

/-- The velocity `SurviveVelocity`: linear velocity and angular velocity (axis-angle). -/
structure SurviveVelocity (F : Type) where
  Pos : Fin 3 → F
  AxisAngleRot : Fin 3 → F

/-- The nominal state `SurviveKalmanModel`, 27 scalars.  The struct is declared in a header that
is not among the sources; the scalars are laid out in the order `Pose`, `Velocity`, `Acc`,
`AccScale`, `IMUCorrection`, `AccBias`, `GyroBias`, which is the order in which
`survive_kalman_tracker_init` drops trailing groups (3, 3, 4, 1, 3, 3, 3 scalars) and in which
`survive_kalman_tracker_report_state` reads the meta vector that starts at `AccScale`
(`v[0] - 1` for `AccScale`, `v[1] - 1` for `IMUCorrection[0]`). -/
structure SurviveKalmanModel (F : Type) where
  Pose : SurvivePose F
  Velocity : SurviveVelocity F
  Acc : Fin 3 → F
  AccScale : F
  IMUCorrection : Fin 4 → F
  AccBias : Fin 3 → F
  GyroBias : Fin 3 → F

/-- The number of scalars of the state, `sizeof(SurviveKalmanModel) / sizeof(FLT)`. -/
def SURVIVE_MODEL_MAX_STATE_CNT : Nat := 27

/-- The memory image of a `SurviveKalmanModel` as an array of 27 scalars. -/
def SurviveKalmanModel.toFlat (m : SurviveKalmanModel F) : Nat → F := fun i =>
  [m.Pose.Pos 0, m.Pose.Pos 1, m.Pose.Pos 2,
   m.Pose.Rot 0, m.Pose.Rot 1, m.Pose.Rot 2, m.Pose.Rot 3,
   m.Velocity.Pos 0, m.Velocity.Pos 1, m.Velocity.Pos 2,
   m.Velocity.AxisAngleRot 0, m.Velocity.AxisAngleRot 1, m.Velocity.AxisAngleRot 2,
   m.Acc 0, m.Acc 1, m.Acc 2,
   m.AccScale,
   m.IMUCorrection 0, m.IMUCorrection 1, m.IMUCorrection 2, m.IMUCorrection 3,
   m.AccBias 0, m.AccBias 1, m.AccBias 2,
   m.GyroBias 0, m.GyroBias 1, m.GyroBias 2].getD i 0

/-- Reading a `SurviveKalmanModel` back from its memory image. -/
def SurviveKalmanModel.ofFlat (v : Nat → F) : SurviveKalmanModel F :=
  { Pose := { Pos := ![v 0, v 1, v 2], Rot := ![v 3, v 4, v 5, v 6] }
    Velocity := { Pos := ![v 7, v 8, v 9], AxisAngleRot := ![v 10, v 11, v 12] }
    Acc := ![v 13, v 14, v 15]
    AccScale := v 16
    IMUCorrection := ![v 17, v 18, v 19, v 20]
    AccBias := ![v 21, v 22, v 23]
    GyroBias := ![v 24, v 25, v 26] }

/-- The all-zero state (`memset(&state, 0, sizeof(state))`, `{0}`). -/
def SurviveKalmanModel.zero : SurviveKalmanModel F :=
  SurviveKalmanModel.ofFlat (fun _ => 0)

/-- The function `copy_model(src, state_size)`: start from `{ .IMUCorrection = {1.}, .AccScale = 1. }`,
`memcpy` the first `state_size` scalars of `src` over it and normalise the orientation. -/
def copy_model (sqrt : F → F) (src : Nat → F) (state_size : Nat) : SurviveKalmanModel F :=
  let init : SurviveKalmanModel F :=
    { (SurviveKalmanModel.zero : SurviveKalmanModel F) with
      IMUCorrection := ![1, 0, 0, 0], AccScale := 1 }
  let rtn := SurviveKalmanModel.ofFlat (fun i => if i < state_size then src i else init.toFlat i)
  { rtn with Pose := { rtn.Pose with Rot := quatnormalize sqrt rtn.Pose.Rot } }

/-! ## Process noise -/

/-- The tuning weights, `struct SurviveKalmanTracker_Params`. -/
structure SurviveKalmanTracker_Params (F : Type) where
  process_weight_jerk : F
  process_weight_acc : F
  process_weight_ang_velocity : F
  process_weight_vel : F
  process_weight_pos : F
  process_weight_rotation : F
  process_weight_acc_bias : F
  process_weight_gyro_bias : F
  initial_variance_imu_correction : F
  initial_acc_scale_variance : F

/-- Modelled from the spec: the layout of `SurviveKalmanErrorModel` (declared in a generated
header that is not among the sources): the layout of the nominal state with both quaternions
replaced by 3-vectors, so `AccBias` starts at scalar 19. -/
def errorModel_AccBias_offset : Nat := 19

/-- Modelled from the spec: see `errorModel_AccBias_offset`; `GyroBias` starts at scalar 22 of
`SurviveKalmanErrorModel`. -/
def errorModel_GyroBias_offset : Nat := 22

/-- The index `offsetof(SurviveKalmanModel, AccBias) / sizeof(FLT)`. -/
def model_AccBias_offset : Nat := 21

/-- The index `offsetof(SurviveKalmanModel, GyroBias) / sizeof(FLT)`. -/
def model_GyroBias_offset : Nat := 24

/-- The scalars `p_p, p_v, p_a, v_v, v_a, a_a` of `survive_kalman_tracker_process_noise`. -/
structure PosNoise (F : Type) where
  p_p : F
  p_v : F
  p_a : F
  v_v : F
  v_a : F
  a_a : F

/-- The scalar of a `PosNoise` that belongs to row group `r` and column group `c` (0 position,
1 velocity, 2 acceleration): `[p_p p_v p_a; p_v v_v v_a; p_a v_a a_a]`. -/
def PosNoise.entry (n : PosNoise F) (r c : Fin 3) : F :=
  ![![n.p_p, n.p_v, n.p_a], ![n.p_v, n.v_v, n.v_a], ![n.p_a, n.v_a, n.a_a]] r c

/-- The positional part of `survive_kalman_tracker_process_noise`: the arrays `Q_jerk`, `Q_acc`,
`Q_vel` and the six weighted sums. -/
def process_noise_positional (params : SurviveKalmanTracker_Params F) (t : F) : PosNoise F :=
  let t2 := t * t
  let t3 := t2 * t
  let t4 := t3 * t
  let t5 := t4 * t
  let t6 := t5 * t
  let t7 := t6 * t
  let Q_jerk : List F := [t7 / 252, t6 / 72, t5 / 20, t5 / 30, t4 / 8, t3 / 3]
  let Q_acc : List F := [t5 / 20, t4 / 8, t3 / 3, t3 / 6, t2 / 2, t]
  let Q_vel : List F := [t3 / 3, t2 / 2, t]
  { p_p := params.process_weight_jerk * Q_jerk.getD 0 0 + params.process_weight_acc * Q_acc.getD 0 0
             + params.process_weight_vel * Q_vel.getD 0 0 + params.process_weight_pos * t2
    p_v := params.process_weight_jerk * Q_jerk.getD 1 0 + params.process_weight_acc * Q_acc.getD 1 0
             + params.process_weight_vel * Q_vel.getD 1 0
    p_a := params.process_weight_jerk * Q_jerk.getD 3 0 + params.process_weight_acc * Q_acc.getD 3 0
    v_v := params.process_weight_jerk * Q_jerk.getD 2 0 + params.process_weight_acc * Q_acc.getD 2 0
             + params.process_weight_vel * Q_vel.getD 2 0
    v_a := params.process_weight_jerk * Q_jerk.getD 4 0 + params.process_weight_acc * Q_acc.getD 4 0
    a_a := params.process_weight_jerk * Q_jerk.getD 5 0 + params.process_weight_acc * Q_acc.getD 5 0 }

/-- The 16 × 16 array `Q_POSE_BLOCK` of the full-state branch, row major. -/
def Q_POSE_BLOCK_full (n : PosNoise F) (rv s_f s_s s_w t qw qx qy qz : F) : List F :=
  let p_p := n.p_p
  let p_v := n.p_v
  let p_a := n.p_a
  let v_v := n.v_v
  let v_a := n.v_a
  let a_a := n.a_a
  let qws := qw * qw
  let qxs := qx * qx
  let qys := qy * qy
  let qzs := qz * qz
  let qs := qws + qxs + qys + qzs
  [ p_p, 0, 0, 0, 0, 0, 0, p_v, 0, 0, 0, 0, 0, p_a, 0, 0,
    0, p_p, 0, 0, 0, 0, 0, 0, p_v, 0, 0, 0, 0, 0, p_a, 0,
    0, 0, p_p, 0, 0, 0, 0, 0, 0, p_v, 0, 0, 0, 0, 0, p_a,

    0, 0, 0, rv+s_f*(qs-qws), s_f*(-qw*qx), s_f*(-qw*qy), s_f*(-qw*qz), 0, 0, 0, -s_s*qx, -s_s*qy, -s_s*qz, 0, 0, 0,
    0, 0, 0, s_f*(-qw*qx), rv+s_f*(qs-qxs), s_f*(-qx*qy), s_f*(-qx*qz), 0, 0, 0, s_s*qw, -s_s*qz, s_s*qy, 0, 0, 0,
    0, 0, 0, s_f*(-qw*qy), s_f*(-qx*qy), rv+s_f*(qs-qys), s_f*(-qy*qz), 0, 0, 0, s_s*qz, s_s*qw, -s_s*qx, 0, 0, 0,
    0, 0, 0, s_f*(-qw*qz), s_f*(-qx*qz), s_f*(-qy*qz), rv+s_f*(qs-qzs), 0, 0, 0, -s_s*qy, s_s*qx, s_s*qw, 0, 0, 0,

    p_v, 0, 0, 0, 0, 0, 0, v_v, 0, 0, 0, 0, 0, v_a, 0, 0,
    0, p_v, 0, 0, 0, 0, 0, 0, v_v, 0, 0, 0, 0, 0, v_a, 0,
    0, 0, p_v, 0, 0, 0, 0, 0, 0, v_v, 0, 0, 0, 0, 0, v_a,

    0, 0, 0, -s_s*qx, s_s*qw, s_s*qz, -s_s*qy, 0, 0, 0, s_w * t, 0, 0, 0, 0, 0,
    0, 0, 0, -s_s*qy, -s_s*qz, s_s*qw, s_s*qx, 0, 0, 0, 0, s_w * t, 0, 0, 0, 0,
    0, 0, 0, -s_s*qz, s_s*qy, -s_s*qx, s_s*qw, 0, 0, 0, 0, 0, s_w * t, 0, 0, 0,

    p_a, 0, 0, 0, 0, 0, 0, v_a, 0, 0, 0, 0, 0, a_a, 0, 0,
    0, p_a, 0, 0, 0, 0, 0, 0, v_a, 0, 0, 0, 0, 0, a_a, 0,
    0, 0, p_a, 0, 0, 0, 0, 0, 0, v_a, 0, 0, 0, 0, 0, a_a ]

/-- The 15 × 15 array `Q_POSE_BLOCK` of the error-state branch, row major. -/
def Q_POSE_BLOCK_error (n : PosNoise F) (rv r_av s_w t : F) : List F :=
  let p_p := n.p_p
  let p_v := n.p_v
  let p_a := n.p_a
  let v_v := n.v_v
  let v_a := n.v_a
  let a_a := n.a_a
  [ p_p, 0, 0, 0, 0, 0, p_v, 0, 0, 0, 0, 0, p_a, 0, 0,
    0, p_p, 0, 0, 0, 0, 0, p_v, 0, 0, 0, 0, 0, p_a, 0,
    0, 0, p_p, 0, 0, 0, 0, 0, p_v, 0, 0, 0, 0, 0, p_a,

    0, 0, 0, rv, 0, 0, 0, 0, 0, r_av, 0, 0, 0, 0, 0,
    0, 0, 0, 0, rv, 0, 0, 0, 0, 0, r_av, 0, 0, 0, 0,
    0, 0, 0, 0, 0, rv, 0, 0, 0, 0, 0, r_av, 0, 0, 0,

    p_v, 0, 0, 0, 0, 0, v_v, 0, 0, 0, 0, 0, v_a, 0, 0,
    0, p_v, 0, 0, 0, 0, 0, v_v, 0, 0, 0, 0, 0, v_a, 0,
    0, 0, p_v, 0, 0, 0, 0, 0, v_v, 0, 0, 0, 0, 0, v_a,

    0, 0, 0, r_av, 0, 0, 0, 0, 0, s_w * t, 0, 0, 0, 0, 0,
    0, 0, 0, 0, r_av, 0, 0, 0, 0, 0, s_w * t, 0, 0, 0, 0,
    0, 0, 0, 0, 0, r_av, 0, 0, 0, 0, 0, s_w * t, 0, 0, 0,

    p_a, 0, 0, 0, 0, 0, v_a, 0, 0, 0, 0, 0, a_a, 0, 0,
    0, p_a, 0, 0, 0, 0, 0, v_a, 0, 0, 0, 0, 0, a_a, 0,
    0, 0, p_a, 0, 0, 0, 0, 0, v_a, 0, 0, 0, 0, 0, a_a ]

/-- One pass of the closing loop of `survive_kalman_tracker_process_noise`: the bias random
walks `ga`, `gb` on the diagonal, each guarded by the extent of `q_out`. -/
def process_noise_bias_step (errorState : Bool) (ga gb : F) (q_out : CnMat F) (i : Nat) :
    CnMat F :=
  let accBiasIdx := (if errorState then errorModel_AccBias_offset else model_AccBias_offset) + i
  let q1 := if accBiasIdx < q_out.rows then cnMatrixSet q_out accBiasIdx accBiasIdx ga else q_out
  let gyroBiasIdx := (if errorState then errorModel_GyroBias_offset else model_GyroBias_offset) + i
  if gyroBiasIdx < q1.rows then cnMatrixSet q1 gyroBiasIdx gyroBiasIdx gb else q1

/-- The function `survive_kalman_tracker_process_noise(params, errorState, t, x, q_out)`; the result is the
matrix left in `q_out`. -/
def survive_kalman_tracker_process_noise (sqrt : F → F) (params : SurviveKalmanTracker_Params F)
    (errorState : Bool) (t : F) (x : CnMat F) (q_out : CnMat F) : CnMat F :=
  let t2 := t * t
  let t3 := t2 * t
  let Q_vel : List F := [t3 / 3, t2 / 2, t]
  let n := process_noise_positional params t
  let s_w := params.process_weight_ang_velocity
  let rv := params.process_weight_ang_velocity * Q_vel.getD 0 0 + params.process_weight_rotation * t
  let r_av := params.process_weight_ang_velocity * Q_vel.getD 1 0
  let ga := params.process_weight_acc_bias * t
  let gb := params.process_weight_gyro_bias * t
  let q1 :=
    if !errorState then
      let s_f := s_w / 12 * t3
      let s_s := s_w / 4 * t2
      let state_cnt := x.rows
      let state := copy_model sqrt (cn_as_const_vector x) state_cnt
      let qw := state.Pose.Rot 0
      let qx := state.Pose.Rot 1
      let qy := state.Pose.Rot 2
      let qz := state.Pose.Rot 3
      cn_copy_in_row_major_roi q_out (Q_POSE_BLOCK_full n rv s_f s_s s_w t qw qx qy qz) 16 0 0 16 16
    else
      cn_copy_in_row_major_roi q_out (Q_POSE_BLOCK_error n rv r_av s_w t) 15 0 0 15 15
  (List.range 3).foldl (process_noise_bias_step errorState ga gb) q1

/-- The first row and column of the per-axis groups inside `Q_POSE_BLOCK` (group 0 is the
position, 1 the linear velocity, 2 the acceleration), as laid out by the column headers
`x y z qw qx qy qz vx vy vz avx avy avz ax ay az` (full state) and
`x y z qx qy qz vx vy vz avx avy avz ax ay az` (error state). -/
def pos_group_offset (errorState : Bool) (g : Fin 3) : Nat :=
  if errorState then ![0, 6, 12] g else ![0, 7, 13] g

/-- Spec, section 4.2, jerk (third-order) block over (pos, vel, acc), filled in symmetrically. -/
def spec_Q_jerk (t : F) : Fin 3 → Fin 3 → F :=
  ![![t ^ 7 / 252, t ^ 6 / 72, t ^ 5 / 30],
    ![t ^ 6 / 72, t ^ 5 / 20, t ^ 4 / 8],
    ![t ^ 5 / 30, t ^ 4 / 8, t ^ 3 / 3]]

/-- Spec, section 4.2, accel (second-order) block over (pos, vel, acc), filled in symmetrically. -/
def spec_Q_acc (t : F) : Fin 3 → Fin 3 → F :=
  ![![t ^ 5 / 20, t ^ 4 / 8, t ^ 3 / 6],
    ![t ^ 4 / 8, t ^ 3 / 3, t ^ 2 / 2],
    ![t ^ 3 / 6, t ^ 2 / 2, t]]

/-- Spec, section 4.2, velocity (first-order) block over (pos, vel); it contributes nothing to
the entries that involve the acceleration. -/
def spec_Q_vel (t : F) : Fin 3 → Fin 3 → F :=
  ![![t ^ 3 / 3, t ^ 2 / 2, 0],
    ![t ^ 2 / 2, t, 0],
    ![0, 0, 0]]

/-! ## The tracker and its surroundings

The declarations of the structures below are in headers that are not among the sources; each
structure lists the members that `survive_kalman_tracker.c` reads or writes.  Unsigned counters
are natural numbers.  Console logging, the data log, the recording sink and the online variance
trackers (`variance_tracker_*`) are write-only for the tracker and are left out. -/

/-- The statistics block `tracker->stats`. -/
structure SurviveKalmanTracker_Stats (F : Type) where
  late_imu_dropped : Nat
  late_light_dropped : Nat
  obs_count : Nat
  obs_total_error : F
  lightcap_count : Nat
  lightcap_total_error : F
  imu_count : Nat
  imu_total_error : F
  acc_norm : F
  stationary_acc_norm : F
  stationary_imu_count : Nat
  reported_poses : Nat
  dropped_poses : Nat
  reported_var : Nat → F
  dropped_var : Nat → F

/-- The statistics block after `memset(&tracker->stats, 0, sizeof(tracker->stats))`. -/
def SurviveKalmanTracker_Stats.zero : SurviveKalmanTracker_Stats F :=
  { late_imu_dropped := 0, late_light_dropped := 0, obs_count := 0, obs_total_error := 0,
    lightcap_count := 0, lightcap_total_error := 0, imu_count := 0, imu_total_error := 0,
    acc_norm := 0, stationary_acc_norm := 0, stationary_imu_count := 0, reported_poses := 0,
    dropped_poses := 0, reported_var := fun _ => 0, dropped_var := fun _ => 0 }

/-- The filter object `cnkalman_state_t` (`tracker->model`) of the `cnkalman` library: filter
time, covariance and the two dimensions.  Its state vector is the storage handed over at
initialisation, `tracker->state`. -/
structure cnkalman_state_t (F : Type) where
  t : F
  P : CnMat F
  state_cnt : Nat
  error_state_size : Nat

/-- The per-measurement configuration `cnkalman_meas_model_t`. -/
structure cnkalman_meas_model_t where
  adaptive : Bool
  error_state_model : Bool
  max_iterations : Int

/-- The four measurement models of the tracker. -/
inductive MeasModel where
  | imu
  | lightcap
  | obs
  | zvu
  deriving DecidableEq

/-- One buffered light sample, `LightInfo`. -/
structure LightInfo (F : Type) where
  lh : Nat
  sensor_idx : Nat
  axis : Nat
  value : F
  timecode : Nat

/-- The packet kinds `PoserType` that the tracker tells apart. -/
inductive PoserType where
  | POSERDATA_IMU
  | POSERDATA_LIGHT
  | POSERDATA_LIGHT_GEN2
  | POSERDATA_SYNC
  | POSERDATA_SYNC_GEN2
  | POSERDATA_POSE
  deriving DecidableEq

/-- The packet header `PoserData`. -/
structure PoserData where
  pt : PoserType
  timecode : Nat

/-- A light packet `PoserDataLight`; `axis` is the value of `PoserDataLight_axis(data)`. -/
structure PoserDataLight (F : Type) where
  hdr : PoserData
  lh : Nat
  sensor_id : Nat
  angle : F
  axis : Nat

/-- An inertial packet `PoserDataIMU`. -/
structure PoserDataIMU (F : Type) where
  hdr : PoserData
  accel : Fin 3 → F
  gyro : Fin 3 → F

/-- The tracked object `SurviveObject`; `stationary_time` is the value of
`SurviveSensorActivations_stationary_time(&so->activations)` and `conf` says whether `so->conf`
is a non-null pointer. -/
structure SurviveObject (F : Type) where
  timebase_hz : Nat
  stationary_time : Nat
  conf : Bool
  imu_freq : F
  OutPose_timecode : Nat
  OutPoseIMU : SurvivePose F
  OutPose : SurvivePose F
  poseConfidence : F
  acceleration : Fin 3 → F
  head2imu : SurvivePose F

/-- The context `SurviveContext`: `PositionSet lh` is `ctx->bsd[lh].PositionSet`, `objs` are the
addresses `ctx->objs[0 .. objs_ct)` and `report_in_imu` the configuration value of that name. -/
structure SurviveContext where
  PositionSet : Nat → Bool
  activeLighthouses : Nat
  objs : List Nat
  report_in_imu : Bool

/-- The tracker `SurviveKalmanTracker`: the address `so` of its object, the configuration values
(in the order of `STRUCT_CONFIG_SECTION(SurviveKalmanTracker)`), the four measurement models, the
filter and the running values. -/
structure SurviveKalmanTracker (F : Type) where
  so : Nat
  light_error_threshold : F
  min_report_time : F
  report_ignore_start : Int
  report_threshold_var : F
  light_threshold_var : F
  light_required_obs : Int
  lightcap_max_error : F
  light_var : F
  obs_cov_scale : F
  obs_axisangle_model : Bool
  obs_pos_var : F
  obs_rot_var : F
  use_raw_obs : Bool
  show_raw_obs : Bool
  use_error_for_lh_pos : Bool
  light_rampin_length : Int
  params : SurviveKalmanTracker_Params F
  minimize_state_space : Int
  use_error_state : Bool
  zvu_moving_var : F
  zvu_stationary_var : F
  zvu_no_light_var : F
  noise_model : Int
  acc_norm_penalty : F
  acc_var : F
  gyro_var : F
  light_batchsize : Int
  imu_model : cnkalman_meas_model_t
  lightcap_model : cnkalman_meas_model_t
  obs_model : cnkalman_meas_model_t
  zvu_model : cnkalman_meas_model_t
  model : cnkalman_state_t F
  state : SurviveKalmanModel F
  previous_state : SurviveKalmanModel F
  process_variance : Nat → F
  reported_state_variance : Nat → F
  state_variance_count : Nat
  stats : SurviveKalmanTracker_Stats F
  report_ignore_start_cnt : Int
  last_light_time : F
  light_residuals_all : F
  imu_residuals : F
  first_imu_time : F
  last_imu_time : F
  first_report_time : F
  last_report_time : F
  Obs_R : CnMat F
  IMU_R : CnMat F
  savedLight : Nat → LightInfo F
  savedLight_idx : Nat

/-- A call that leaves the tracker: a filter operation of `cnkalman` with its target time and
matrices, or a host hook. -/
inductive Event (F : Type) where
  | meas_model_predict_update (mdl : MeasModel) (time : F) (Z : CnMat F) (R : Option (CnMat F))
  | predict_update_state (time : F) (Z H R : CnMat F)
  | imupose (timecode : Nat) (pose : SurvivePose F)
  | velocity (timecode : Nat) (velocity : SurviveVelocity F)
  | external_pose (pose : SurvivePose F)

/-- The target time of a filter operation; `none` for a host hook. -/
def Event.filter_time : Event F → Option F
  | .meas_model_predict_update _ time _ _ => some time
  | .predict_update_state time _ _ _ => some time
  | .imupose _ _ => none
  | .velocity _ _ => none
  | .external_pose _ => none

/-- The memory the tracker code works on: the tracker, the objects by address, the context, and
the sequence `log` of the calls that left the tracker so far. -/
structure World (F : Type) where
  tracker : SurviveKalmanTracker F
  objmem : Nat → SurviveObject F
  ctx : SurviveContext
  log : List (Event F)

/-- What a filter operation leaves behind: the state vector, the filter object and the returned
residual error. -/
structure FilterResult (F : Type) where
  state : SurviveKalmanModel F
  model : cnkalman_state_t F
  rtn : F

/-- The axis-angle pose `SurviveAxisAnglePose`: position and rotation vector. -/
structure SurviveAxisAnglePose (F : Type) where
  Pos : Fin 3 → F
  AxisAngleRot : Fin 3 → F

/-- The collaborators outside the sources: the C library `sqrt` and `M_PI`, the conversion
`(float)x` of an `FLT` to single precision, the `cnkalman` filter operations (which read the
memory and write the state vector and the filter object), the generated kinematics code and the
pose helpers of `linmath`. -/
structure Collaborators (F : Type) where
  sqrt : F → F
  M_PI : F
  to_float : F → F
  cnkalman_meas_model_predict_update :
    MeasModel → F → World F → CnMat F → Option (CnMat F) → FilterResult F
  cnkalman_predict_update_state : F → World F → CnMat F → CnMat F → CnMat F → FilterResult F
  cnkalman_state_reset : cnkalman_state_t F → cnkalman_state_t F
  cnkalman_extrapolate_state : F → World F → Nat → Nat → F
  SurviveKalmanModelPredict : F → SurviveKalmanModel F → SurviveKalmanModel F
  SurviveKalmanModelPredict_jac_kalman_model : CnMat F → F → SurviveKalmanModel F → CnMat F
  SurviveKalmanModelErrorPredict_jac_error_model : CnMat F → F → SurviveKalmanModel F → CnMat F
  ApplyPoseToPose : SurvivePose F → SurvivePose F → SurvivePose F
  Pose2AAPose : SurvivePose F → Nat → F
  survive_covariance_pose2poseAA : SurvivePose F → CnMat F → CnMat F
  SurviveObsErrorModelNoFlip :
    SurviveKalmanModel F → SurviveAxisAnglePose F → SurviveAxisAnglePose F
  SurviveObsErrorStateErrorModelNoFlip_jac_err :
    CnMat F → SurviveKalmanModel F → SurviveAxisAnglePose F → CnMat F
  SurviveObsErrorStateErrorModelFlip_jac_err :
    CnMat F → SurviveKalmanModel F → SurviveAxisAnglePose F → CnMat F
  SurviveObsErrorModelNoFlip_jac_x0 :
    CnMat F → SurviveKalmanModel F → SurviveAxisAnglePose F → CnMat F
  SurviveObsErrorModelFlip_jac_x0 :
    CnMat F → SurviveKalmanModel F → SurviveAxisAnglePose F → CnMat F

/-- The index `offsetof(SurviveKalmanModel, AccScale) / sizeof(FLT)`, see `SurviveKalmanModel`. -/
def model_AccScale_offset : Nat := 16

/-- The index `offsetof(SurviveKalmanModel, IMUCorrection) / sizeof(FLT)`, see
`SurviveKalmanModel`. -/
def model_IMUCorrection_offset : Nat := 17

/-- Modelled from the spec: `cn_set_diag` of cnmatrix (not among the sources), the "set-diag"
matrix primitive: the diagonal takes the entries of `v` and every other entry is zero. -/
def cn_set_diag (m : CnMat F) (v : Nat → F) : CnMat F :=
  { m with data := fun i j => if i = j then v i else 0 }

/-- Modelled from the spec: `addnd` of linmath (not among the sources), the elementwise sum of
the first `n` entries of `a` and `b` written to `out`. -/
def addnd (out a b : Nat → F) (n : Nat) : Nat → F :=
  fun i => if i < n then a i + b i else out i

/-- The function `survive_kalman_tracker_position_var2(tracker, var_diag, cnt)`: it copies the
first `cnt` diagonal entries of `P` to `var_diag` and returns their squared norm; the result is
the pair of the array and the returned value. -/
def survive_kalman_tracker_position_var2 (tracker : SurviveKalmanTracker F) (var_diag : Nat → F)
    (cnt : Nat) : (Nat → F) × F :=
  let var_diag := fun i => if i < cnt then cnMatrixGet tracker.model.P i i else var_diag i
  (var_diag, normnd2 var_diag cnt)

/-- The function `normalize_model(pTracker)`; the closing assertions on finiteness have no
counterpart over a field. -/
def normalize_model (sqrt : F → F) (pTracker : SurviveKalmanTracker F) : SurviveKalmanTracker F :=
  have state := pTracker.state
  have state := { state with Pose := { state.Pose with Rot := quatnormalize sqrt state.Pose.Rot } }
  have state := { state with IMUCorrection := quatnormalize sqrt state.IMUCorrection }
  have state := { state with AccScale := linmath_enforce_range state.AccScale (95 / 100) (105 / 100) }
  let state :=
    { state with
      GyroBias := fun i => linmath_enforce_range (state.GyroBias i) (-(1 / 10)) (1 / 10)
      AccBias := fun i => linmath_enforce_range (state.AccBias i) (-(1 / 10)) (1 / 10) }
  { pTracker with state := state }

/-- The function `survive_kalman_tracker_reinit(tracker)`. -/
def survive_kalman_tracker_reinit (env : Collaborators F) (tracker : SurviveKalmanTracker F) :
    SurviveKalmanTracker F :=
  have tracker := { tracker with stats := SurviveKalmanTracker_Stats.zero }
  have tracker := { tracker with report_ignore_start_cnt := 0 }
  have tracker := { tracker with last_light_time := 0 }
  have tracker := { tracker with light_residuals_all := 0 }
  have state : SurviveKalmanModel F := SurviveKalmanModel.zero
  have state := { state with Pose := { state.Pose with Rot := Function.update state.Pose.Rot 0 1 } }
  have state := { state with IMUCorrection := Function.update state.IMUCorrection 0 1 }
  have state := { state with AccScale := 1 }
  have tracker := { tracker with state := state }
  have tracker := { tracker with model := env.cnkalman_state_reset tracker.model }
  have P := (List.range 7).foldl (fun P i => cnMatrixSet P i i (cnMatrixGet P i i + 10))
    tracker.model.P
  have P :=
    if tracker.params.initial_variance_imu_correction ≠ 0 then
      (List.range 4).foldl
        (fun P i =>
          have idx := model_IMUCorrection_offset + i
          cnMatrixSet P idx idx tracker.params.initial_variance_imu_correction) P
    else P
  have P :=
    if tracker.params.initial_acc_scale_variance ≠ 0 then
      have idx := model_AccScale_offset
      cnMatrixSet P idx idx tracker.params.initial_acc_scale_variance
    else P
  have tracker := { tracker with model := { tracker.model with P := P } }
  have Rrs := tracker.obs_rot_var
  have Rps := tracker.obs_pos_var
  have Rr : Nat → F := fun i => [Rrs, Rrs, Rrs, Rrs, Rps, Rps, Rps].getD i 0
  have ObsR : CnMat F := { rows := 7, cols := 7, data := tracker.Obs_R.data }
  have tracker := { tracker with Obs_R := cn_set_diag ObsR Rr }
  have Rimu : Nat → F := fun i =>
    [tracker.acc_var, tracker.acc_var, tracker.acc_var,
     tracker.gyro_var, tracker.gyro_var, tracker.gyro_var].getD i 0
  have IMU_R : CnMat F := { rows := 6, cols := 6, data := tracker.IMU_R.data }
  { tracker with IMU_R := cn_set_diag IMU_R Rimu }

/-- The all-zero pose `(SurvivePose){0}`. -/
def SurvivePose.zero : SurvivePose F := { Pos := fun _ => 0, Rot := fun _ => 0 }

/-- The function `survive_kalman_tracker_lost_tracking(tracker, allowLHReset)` for a non-null
`tracker`. -/
def survive_kalman_tracker_lost_tracking (env : Collaborators F) (w : World F)
    (allowLHReset : Bool) : World F :=
  have tracker := { w.tracker with light_residuals_all := 0 }
  let so := tracker.so
  have objmem := Function.update w.objmem so
    { w.objmem so with OutPoseIMU := SurvivePose.zero, poseConfidence := 0 }
  have tracker := survive_kalman_tracker_reinit env tracker
  have objmem := Function.update objmem so { objmem so with OutPoseIMU := SurvivePose.zero }
  have objmem := Function.update objmem so { objmem so with OutPose := SurvivePose.zero }
  have w := { w with tracker := tracker, objmem := objmem }
  if !allowLHReset then w
  else
    let objectsAreValid :=
      w.ctx.objs.foldl
        (fun valid p => if !valid then valid || !quatiszero (w.objmem p).OutPoseIMU.Rot else valid)
        false
    if !objectsAreValid then
      { w with
        ctx := { w.ctx with
          PositionSet := fun lh => if lh < w.ctx.activeLighthouses then false
            else w.ctx.PositionSet lh } }
    else w

/-- The function `survive_kalman_tracker_check_valid(tracker)`: the returned flag and the memory
it leaves.  The test `fabsf((float)x) < 20` is made on the position component narrowed to
single precision, `|to_float x| < 20`. -/
def survive_kalman_tracker_check_valid (env : Collaborators F) (w : World F) : Bool × World F :=
  have tracker := w.tracker
  let so := w.objmem tracker.so
  let isValid : Bool :=
    decide (tracker.light_error_threshold ≤ 0) ||
      decide (tracker.light_residuals_all < tracker.light_error_threshold) ||
      decide (so.stationary_time < so.timebase_hz / 10)
  let isValid := (List.finRange 3).foldl
    (fun isValid i => isValid && decide (|env.to_float (tracker.state.Pose.Pos i)| < 20)) isValid
  if !isValid then
    (false, survive_kalman_tracker_lost_tracking env w tracker.use_error_for_lh_pos)
  else (true, w)

/-- The function `survive_kalman_tracker_predict(tracker, t, out)`; the result is the pose left
in `out`. -/
def survive_kalman_tracker_predict (env : Collaborators F) (w : World F) (t : F)
    (out : SurvivePose F) : SurvivePose F :=
  if w.tracker.model.t = 0 then out
  else
    let x1 := env.cnkalman_extrapolate_state t w 7
    let out : SurvivePose F := { Pos := ![x1 0, x1 1, x1 2], Rot := ![x1 3, x1 4, x1 5, x1 6] }
    { out with Rot := quatnormalize env.sqrt out.Rot }

/-- The function `survive_kalman_tracker_velocity(tracker)`. -/
def survive_kalman_tracker_velocity (env : Collaborators F) (w : World F) : SurviveVelocity F :=
  let x1 := env.cnkalman_extrapolate_state 0 w 13
  let mdl : SurviveKalmanModel F := SurviveKalmanModel.ofFlat (fun i => if i < 13 then x1 i else 0)
  mdl.Velocity

/-- The suppressed branch of `survive_kalman_tracker_report_state` (the body of the `if` on
`report_threshold_var` and `report_ignore_start`, which ends in `return`). -/
def report_state_suppressed (pose : SurvivePose F) (var_diag : Nat → F) (w : World F) :
    World F :=
  have so := w.tracker.so
  have state_cnt := w.tracker.model.state_cnt
  have stats := { w.tracker.stats with dropped_poses := w.tracker.stats.dropped_poses + 1 }
  have stats :=
    { stats with dropped_var := addnd stats.dropped_var var_diag stats.dropped_var state_cnt }
  have tracker := { w.tracker with stats := stats }
  have tracker := { tracker with report_ignore_start_cnt := tracker.report_ignore_start_cnt + 1 }
  { w with
    tracker := tracker
    objmem := Function.update w.objmem so { w.objmem so with OutPoseIMU := pose } }

/-- The reporting tail of `survive_kalman_tracker_report_state` (from
`addnd(tracker->stats.reported_var, ...)` to the end). -/
def report_state_reported (env : Collaborators F) (pd : PoserData) (t : F) (pose : SurvivePose F)
    (var_diag : Nat → F) (p_threshold : F) (w : World F) : World F :=
  have so := w.tracker.so
  have state_cnt := w.tracker.model.state_cnt
  have stats :=
    { w.tracker.stats with
      reported_var :=
        addnd w.tracker.stats.reported_var var_diag w.tracker.stats.reported_var state_cnt }
  have stats := { stats with reported_poses := stats.reported_poses + 1 }
  have w := { w with tracker := { w.tracker with stats := stats } }
  have velocity := survive_kalman_tracker_velocity env w
  have tracker := w.tracker
  have tracker :=
    if tracker.first_report_time = 0 then { tracker with first_report_time := t } else tracker
  have objmem := Function.update w.objmem so
    { w.objmem so with poseConfidence := 1 / p_threshold }
  have tracker :=
    if tracker.last_report_time > 0 then
      have dt := t - tracker.last_report_time
      have diff : Nat → F := fun i =>
        if i < state_cnt then
          ((tracker.state.toFlat i - tracker.previous_state.toFlat i) * (1 / dt))
            * ((tracker.state.toFlat i - tracker.previous_state.toFlat i) * (1 / dt))
        else 0
      { tracker with
        reported_state_variance :=
          addnd tracker.reported_state_variance tracker.reported_state_variance diff state_cnt
        state_variance_count := tracker.state_variance_count + 1 }
    else tracker
  have tracker := { tracker with last_report_time := t }
  have tracker := { tracker with previous_state := tracker.state }
  have objmem := Function.update objmem so { objmem so with acceleration := tracker.state.Acc }
  have log :=
    if (objmem so).OutPose_timecode < pd.timecode then w.log ++ [Event.imupose pd.timecode pose]
    else w.log
  have log :=
    if tracker.stats.imu_count > 100 then log ++ [Event.velocity pd.timecode velocity] else log
  { w with tracker := tracker, objmem := objmem, log := log }

/-- The part of `survive_kalman_tracker_report_state` that follows a successful validity check
(from `survive_kalman_tracker_predict` to the end); `t` is the report time. -/
def report_state_valid (env : Collaborators F) (pd : PoserData) (t : F) (w : World F) : World F :=
  have pose := survive_kalman_tracker_predict env w t SurvivePose.zero
  have var2 := survive_kalman_tracker_position_var2 w.tracker (fun _ => 0)
    w.tracker.model.error_state_size
  have var_diag := var2.1
  have p_threshold := var2.2
  if (decide (w.tracker.report_threshold_var > 0) &&
        decide (p_threshold ≥ w.tracker.report_threshold_var)) ||
      decide (w.tracker.report_ignore_start > w.tracker.report_ignore_start_cnt) then
    report_state_suppressed pose var_diag w
  else report_state_reported env pd t pose var_diag p_threshold w

/-- The report time of `survive_kalman_tracker_report_state`: the packet time, raised to the
filter time. -/
def report_state_time (pd : PoserData) (w : World F) : F :=
  have t : F := (pd.timecode : F) / ((w.objmem w.tracker.so).timebase_hz : F)
  if t < w.tracker.model.t then w.tracker.model.t else t

/-- The replacement of a negative `min_report_time` in `survive_kalman_tracker_report_state`. -/
def report_state_min_report_time (w : World F) : World F :=
  if w.tracker.min_report_time < 0 then
    { w with
      tracker := { w.tracker with min_report_time := 1 / (w.objmem w.tracker.so).imu_freq } }
  else w

/-- The function `survive_kalman_tracker_report_state(pd, tracker)`; its assertions are not
control flow. -/
def survive_kalman_tracker_report_state (env : Collaborators F) (pd : PoserData) (w : World F) :
    World F :=
  have w := { w with tracker := normalize_model env.sqrt w.tracker }
  have t : F := report_state_time pd w
  if (w.objmem w.tracker.so).conf = false then w
  else
    have w := report_state_min_report_time w
    if t - w.tracker.last_report_time < w.tracker.min_report_time then w
    else
      have valid := survive_kalman_tracker_check_valid env w
      if !valid.1 then
        have w := valid.2
        have stats := { w.tracker.stats with dropped_poses := w.tracker.stats.dropped_poses + 1 }
        { w with tracker := { w.tracker with stats := stats } }
      else report_state_valid env pd t valid.2

/-- The swap-remove loop of `survive_kalman_tracker_integrate_saved_light`, started at index
`i`: a sample whose lighthouse has no position is overwritten by the last buffered sample and
the count shrinks (`i` stays), any other sample is stepped over.  The result is the buffer and
the count `savedLight_idx`. -/
def saved_light_prune (PositionSet : Nat → Bool) (savedLight : Nat → LightInfo F)
    (savedLight_idx : Nat) (i : Nat) : (Nat → LightInfo F) × Nat :=
  if i < savedLight_idx then
    if !PositionSet (savedLight i).lh then
      saved_light_prune PositionSet
        (Function.update savedLight i (savedLight (savedLight_idx - 1))) (savedLight_idx - 1) i
    else saved_light_prune PositionSet savedLight savedLight_idx (i + 1)
  else (savedLight, savedLight_idx)
termination_by savedLight_idx - i

/-- The filter update of `survive_kalman_tracker_integrate_saved_light` (from
`CN_CREATE_STACK_VEC(Z, ...)` to the end of `if (tracker->light_var >= 0)`) for the packet time
`time`.  The array `light_vars` has 32 entries. -/
def integrate_saved_light_update (env : Collaborators F) (pd : PoserData) (time : F)
    (w : World F) : World F :=
  have tracker := w.tracker
  have Z : CnMat F := (List.range tracker.savedLight_idx).foldl
    (fun Z i => cnMatrixSet Z i 0 (tracker.savedLight i).value)
    (cn_zero tracker.savedLight_idx 1)
  have ramp_in : Bool :=
    decide ((tracker.stats.lightcap_count : Int) < tracker.light_rampin_length)
  have light_var := tracker.light_var
  have light_vars : Nat → F := fun i => if i < 32 then light_var else 0
  have R : CnMat F := cnVec Z.rows light_vars
  have time : F := if time < tracker.model.t then tracker.model.t else time
  have res := env.cnkalman_meas_model_predict_update MeasModel.lightcap time w Z (some R)
  have log := w.log ++ [Event.meas_model_predict_update MeasModel.lightcap time Z (some R)]
  have tracker := { tracker with state := res.state, model := res.model }
  have rtn := res.rtn
  have tracker :=
    if !ramp_in && tracker.lightcap_model.adaptive then { tracker with light_var := light_var }
    else tracker
  have stats :=
    { tracker.stats with lightcap_total_error := tracker.stats.lightcap_total_error + rtn }
  have tracker := { tracker with stats := stats }
  have tracker := { tracker with light_residuals_all := tracker.light_residuals_all * (9 / 10) }
  have tracker :=
    { tracker with light_residuals_all := tracker.light_residuals_all + 1 / 10 * rtn }
  have stats := { tracker.stats with lightcap_count := tracker.stats.lightcap_count + 1 }
  have tracker := { tracker with stats := stats }
  survive_kalman_tracker_report_state env pd { w with tracker := tracker, log := log }

/-- The function `survive_kalman_tracker_integrate_saved_light(tracker, pd)`. -/
def survive_kalman_tracker_integrate_saved_light (env : Collaborators F) (pd : PoserData)
    (w : World F) : World F :=
  have tracker := w.tracker
  have time : F := (pd.timecode : F) / ((w.objmem tracker.so).timebase_hz : F)
  if tracker.use_raw_obs then w
  else if decide (tracker.light_threshold_var > 0) &&
      decide ((survive_kalman_tracker_position_var2 tracker (fun _ => 0) 7).2
        > tracker.light_threshold_var) then w
  else if tracker.light_required_obs > (tracker.stats.obs_count : Int) then w
  else
    have tracker := { tracker with last_light_time := time }
    if tracker.light_var ≥ 0 then
      have pruned :=
        saved_light_prune w.ctx.PositionSet tracker.savedLight tracker.savedLight_idx 0
      have tracker := { tracker with savedLight := pruned.1, savedLight_idx := pruned.2 }
      if tracker.savedLight_idx = 0 then { w with tracker := tracker }
      else integrate_saved_light_update env pd time { w with tracker := tracker }
    else { w with tracker := tracker }

/-- The function `survive_kalman_tracker_integrate_light(tracker, data)`.  The first statement
hands the packet to the lighthouse's own tracker, which is a different object and outside this
file.  `savedLight_len` is the number of entries of the array `tracker->savedLight`,
`sizeof(tracker->savedLight) / sizeof(tracker->savedLight[0])`. -/
def survive_kalman_tracker_integrate_light (env : Collaborators F) (savedLight_len : Nat)
    (data : PoserDataLight F) (w : World F) : World F :=
  have isSync : Bool :=
    data.hdr.pt == PoserType.POSERDATA_SYNC || data.hdr.pt == PoserType.POSERDATA_SYNC_GEN2
  have w :=
    if isSync then
      have w := survive_kalman_tracker_integrate_saved_light env data.hdr w
      { w with tracker := { w.tracker with savedLight_idx := 0 } }
    else
      have idx := w.tracker.savedLight_idx
      have info : LightInfo F :=
        { lh := data.lh, value := data.angle, axis := data.axis, sensor_idx := data.sensor_id,
          timecode := data.hdr.timecode }
      { w with
        tracker := { w.tracker with
          savedLight := Function.update w.tracker.savedLight idx info
          savedLight_idx := idx + 1 } }
  have batchtrigger : Int := (savedLight_len : Int)
  have batchtrigger : Int :=
    if w.tracker.light_batchsize ≥ 0 then w.tracker.light_batchsize else batchtrigger
  if (w.tracker.savedLight_idx : Int) ≥ batchtrigger then
    have w := survive_kalman_tracker_integrate_saved_light env data.hdr w
    { w with tracker := { w.tracker with savedLight_idx := 0 } }
  else w

/-- Modelled from the spec: `norm3d` of linmath (not among the sources), the Euclidean norm of
a 3-vector. -/
def norm3d (sqrt : F → F) (v : Fin 3 → F) : F :=
  sqrt (v 0 * v 0 + v 1 * v 1 + v 2 * v 2)

/-- Modelled from the spec: `cn_set_constant` of cnmatrix (not among the sources): every entry
takes the value `v`. -/
def cn_set_constant (m : CnMat F) (v : F) : CnMat F :=
  { m with data := fun _ _ => v }

/-- The expression that `survive_kalman_tracker_integrate_imu` assigns to `zvu_var`. -/
def integrate_imu_zvu_var (tracker : SurviveKalmanTracker F) (isStationary no_light : Bool) : F :=
  if isStationary && decide (tracker.zvu_stationary_var ≥ 0) then tracker.zvu_stationary_var
  else if no_light && decide (tracker.zvu_no_light_var ≥ 0) then tracker.zvu_no_light_var
  else tracker.zvu_moving_var

/-- The matrix `H` that the zero-velocity block of `survive_kalman_tracker_integrate_imu`
assembles for a state of `state_cnt` scalars. -/
def integrate_imu_zvu_H (state_cnt : Nat) (disable_ang_vel : Bool) : CnMat F :=
  have row_cnt : Int := min (9 - (if disable_ang_vel then 1 else 0) * 3) ((state_cnt : Int) - 7)
  have H : CnMat F := cn_zero row_cnt.toNat state_cnt
  have vel_idx : Nat := 7
  have acc_idx : Nat := 13
  have H := (List.range 3).foldl (fun H idx => cnMatrixSet H idx (vel_idx + idx) 1) H
  have idx : Nat := 3
  have Hidx : CnMat F × Nat :=
    if !disable_ang_vel then
      ((List.range 3).foldl (fun H i => cnMatrixSet H (idx + i) (vel_idx + 3 + i) 1) H, idx + 3)
    else (H, idx)
  (List.range 3).foldl (fun H i => cnMatrixSet H (Hidx.2 + i) (acc_idx + i) 1) Hidx.1

/-- The zero-velocity block of `survive_kalman_tracker_integrate_imu` (from `no_light` to the
end of `if (zvu_var >= 0)`).  The comparison `> .1` is made on exact numbers here;
`integrate_imu_no_light_double` gives it on doubles, which differs when the sample is exactly
0.1 s after the last light. -/
def integrate_imu_zvu (env : Collaborators F) (time : F) (isStationary : Bool) (w : World F) :
    World F :=
  have tracker := w.tracker
  have no_light : Bool := decide (time - tracker.last_light_time > 1 / 10)
  have zvu_var := integrate_imu_zvu_var tracker isStationary no_light
  have disable_ang_vel : Bool := no_light && !isStationary
  if zvu_var ≥ 0 then
    have H : CnMat F := integrate_imu_zvu_H tracker.model.state_cnt disable_ang_vel
    have R : CnMat F := cn_set_constant (cn_zero H.rows 1) zvu_var
    have Z : CnMat F := cn_zero H.rows 1
    have res := env.cnkalman_predict_update_state time w Z H R
    have log := w.log ++ [Event.predict_update_state time Z H R]
    have tracker := { tracker with state := res.state, model := res.model }
    have stats := { tracker.stats with imu_total_error := tracker.stats.imu_total_error + res.rtn }
    { w with tracker := { tracker with stats := stats }, log := log }
  else w

/-- The array `rotation_variance` of `survive_kalman_tracker_integrate_imu` after the blocks
`if (tracker->acc_var >= 0)` and `if (tracker->gyro_var >= 0)`; `norm` is the norm of the
accelerometer triple. -/
def integrate_imu_rotation_variance (tracker : SurviveKalmanTracker F) (norm : F) : Nat → F :=
  have rotation_variance : Nat → F := fun i => if i < 6 then 100000 else 0
  have rotation_variance : Nat → F :=
    if tracker.acc_var ≥ 0 then
      fun i =>
        if i < 3 then
          if tracker.acc_norm_penalty > 0 then
            tracker.acc_var + tracker.acc_norm_penalty * (1 - norm) * (1 - norm)
          else tracker.acc_var
        else rotation_variance i
    else rotation_variance
  if tracker.gyro_var ≥ 0 then
    fun i => if 3 ≤ i ∧ i < 6 then tracker.gyro_var else rotation_variance i
  else rotation_variance

/-- The vector `Z` that `survive_kalman_tracker_integrate_imu` hands to the IMU measurement
update: the array `accelgyro`. -/
def integrate_imu_Z (data : PoserDataIMU F) : CnMat F :=
  have accelgyro : Nat → F := fun i =>
    [data.accel 0, data.accel 1, data.accel 2, data.gyro 0, data.gyro 1, data.gyro 2].getD i 0
  { rows := 6, cols := 1, data := fun i _ => accelgyro i }

/-- The covariance `R` that `survive_kalman_tracker_integrate_imu` hands to the IMU measurement
update. -/
def integrate_imu_R (tracker : SurviveKalmanTracker F) (norm : F) : CnMat F :=
  if tracker.imu_model.adaptive then { rows := 6, cols := 6, data := tracker.IMU_R.data }
  else { rows := 6, cols := 1, data := fun i _ => integrate_imu_rotation_variance tracker norm i }

/-- The measurement block of `survive_kalman_tracker_integrate_imu` (from `fn_ctx` to the end
of `if (fn_ctx.use_gyro || fn_ctx.use_accel)`). -/
def integrate_imu_meas (env : Collaborators F) (data : PoserDataIMU F) (time norm : F)
    (isStationary : Bool) (w : World F) : World F :=
  have tracker := w.tracker
  have use_accel : Bool := decide (tracker.acc_var ≥ 0)
  have use_gyro : Bool := decide (tracker.gyro_var ≥ 0)
  if use_gyro || use_accel then
    have Z : CnMat F := integrate_imu_Z data
    have R : CnMat F := integrate_imu_R tracker norm
    have res := env.cnkalman_meas_model_predict_update MeasModel.imu time w Z (some R)
    have log := w.log ++ [Event.meas_model_predict_update MeasModel.imu time Z (some R)]
    have tracker := { tracker with state := res.state, model := res.model }
    have err := res.rtn
    have stats := { tracker.stats with imu_total_error := tracker.stats.imu_total_error + err }
    have tracker := { tracker with stats := stats }
    have tracker := { tracker with imu_residuals := tracker.imu_residuals * (9 / 10) }
    have tracker := { tracker with imu_residuals := tracker.imu_residuals + 1 / 10 * err }
    have stats :=
      { tracker.stats with acc_norm := tracker.stats.acc_norm + norm3d env.sqrt data.accel }
    have stats :=
      if isStationary then
        { stats with
          stationary_acc_norm := stats.stationary_acc_norm + norm3d env.sqrt data.accel
          stationary_imu_count := stats.stationary_imu_count + 1 }
      else stats
    have stats := { stats with imu_count := stats.imu_count + 1 }
    have tracker := { tracker with stats := stats }
    have tracker :=
      if tracker.first_imu_time = 0 then { tracker with first_imu_time := time } else tracker
    have tracker := { tracker with last_imu_time := time }
    { w with tracker := tracker, log := log }
  else w

/-- The function `survive_kalman_tracker_integrate_imu(tracker, data)`.  The time
`timecode / (FLT)timebase_hz` and the comparison `time_diff < -.01` are exact here;
`integrate_imu_late_double` gives the comparison on doubles, which differs when the sample is
exactly 0.01 s in the past. -/
def survive_kalman_tracker_integrate_imu (env : Collaborators F) (data : PoserDataIMU F)
    (w : World F) : World F :=
  have tracker := w.tracker
  have so := w.objmem tracker.so
  have time : F := (data.hdr.timecode : F) / (so.timebase_hz : F)
  have time_diff : F := time - tracker.model.t
  have norm : F := norm3d env.sqrt data.accel
  have isStationary : Bool := decide (so.stationary_time > 4800000)
  if tracker.use_raw_obs then w
  else if tracker.model.t = 0 then w
  else if decide (tracker.stats.obs_count < 16) && decide (tracker.obs_pos_var > -1) then w
  else if time_diff < -(1 / 100) then
    have stats := { tracker.stats with late_imu_dropped := tracker.stats.late_imu_dropped + 1 }
    { w with tracker := { tracker with stats := stats } }
  else
    have w := integrate_imu_zvu env time isStationary w
    have w := integrate_imu_meas env data time norm isStationary w
    survive_kalman_tracker_report_state env data.hdr w

/-- The memory image of a `SurvivePose` as an array of 7 scalars. -/
def SurvivePose.toFlat (p : SurvivePose F) : Nat → F := fun i =>
  [p.Pos 0, p.Pos 1, p.Pos 2, p.Rot 0, p.Rot 1, p.Rot 2, p.Rot 3].getD i 0

/-- Modelled from the spec: `cn_eye(f, 0)` of cnmatrix (not among the sources), "when
`dt == 0`, F is the identity". -/
def cn_eye (f : CnMat F) : CnMat F :=
  { f with data := fun i j => if i = j then 1 else 0 }

/-- The value of `s_in` at the call `SurviveKalmanModelPredict(&s_out, dt, &s_in)` in
`survive_kalman_tracker_predict_jac`. -/
def predict_jac_s_in (sqrt : F → F) (params : SurviveKalmanTracker_Params F) (x0 : CnMat F) :
    SurviveKalmanModel F :=
  have s_in := copy_model sqrt (cn_as_const_vector x0) x0.rows
  have s_in :=
    if params.process_weight_acc = 0 then { s_in with Acc := fun i => s_in.Acc i * 0 } else s_in
  have s_in :=
    if params.process_weight_vel = 0 then
      { s_in with
        Velocity :=
          { Pos := fun i => s_in.Velocity.Pos i * 0
            AxisAngleRot := fun i => s_in.Velocity.AxisAngleRot i * 0 } }
    else s_in
  { s_in with Pose := { s_in.Pose with Rot := quatnormalize sqrt s_in.Pose.Rot } }

/-- The function `survive_kalman_tracker_predict_jac(dt, k, x0, x1, f)` with `k->user = params`;
`x1` and `f` may be null, the result is what is left in them. -/
def survive_kalman_tracker_predict_jac (env : Collaborators F) (dt : F)
    (params : SurviveKalmanTracker_Params F) (x0 : CnMat F) (x1 f : Option (CnMat F)) :
    Option (CnMat F) × Option (CnMat F) :=
  have s_in := copy_model env.sqrt (cn_as_const_vector x0) x0.rows
  have r : Option (CnMat F) × SurviveKalmanModel F :=
    match x1 with
    | some x1 =>
      have s_in := predict_jac_s_in env.sqrt params x0
      have s_out := env.SurviveKalmanModelPredict dt s_in
      have s_out :=
        { s_out with Pose := { s_out.Pose with Rot := quatnormalize env.sqrt s_out.Pose.Rot } }
      (some { x1 with
              data := fun i j => if i < x1.rows ∧ j = 0 then s_out.toFlat i else x1.data i j },
        s_in)
    | none => (none, s_in)
  have f : Option (CnMat F) :=
    match f with
    | some f =>
      some (if dt = 0 then cn_eye f
            else env.SurviveKalmanModelPredict_jac_kalman_model f dt r.2)
    | none => none
  (r.1, f)

/-- The value of `s_in` at the call `SurviveKalmanModelPredict(&s_out, dt, &s_in)` in
`survive_kalman_error_tracker_predict_jac`. -/
def error_predict_jac_s_in (sqrt : F → F) (x0 : CnMat F) : SurviveKalmanModel F :=
  have s_in := copy_model sqrt (cn_as_const_vector x0) x0.rows
  { s_in with Pose := { s_in.Pose with Rot := quatnormalize sqrt s_in.Pose.Rot } }

/-- The function `survive_kalman_error_tracker_predict_jac(dt, k, x0, x1, f)`; the tuning
weights `k->user` are fetched and not used. -/
def survive_kalman_error_tracker_predict_jac (env : Collaborators F) (dt : F)
    (_params : SurviveKalmanTracker_Params F) (x0 : CnMat F) (x1 f : Option (CnMat F)) :
    Option (CnMat F) × Option (CnMat F) :=
  have s_in := copy_model env.sqrt (cn_as_const_vector x0) x0.rows
  have r : Option (CnMat F) × SurviveKalmanModel F :=
    match x1 with
    | some x1 =>
      have s_in := error_predict_jac_s_in env.sqrt x0
      have s_out := env.SurviveKalmanModelPredict dt s_in
      have s_out :=
        { s_out with Pose := { s_out.Pose with Rot := quatnormalize env.sqrt s_out.Pose.Rot } }
      (some { x1 with
              data := fun i j => if i < x1.rows ∧ j = 0 then s_out.toFlat i else x1.data i j },
        s_in)
    | none => (none, s_in)
  have f : Option (CnMat F) :=
    match f with
    | some f =>
      some (if dt = 0 then cn_eye f
            else env.SurviveKalmanModelErrorPredict_jac_error_model f dt r.2)
    | none => none
  (r.1, f)

/-- The function `kalman_model_normalize(user, x)`; the result is the vector left in `x`. -/
def kalman_model_normalize (sqrt : F → F) (x : CnMat F) : CnMat F :=
  have state := copy_model sqrt (cn_as_const_vector x) x.rows
  have state := { state with Pose := { state.Pose with Rot := quatnormalize sqrt state.Pose.Rot } }
  have state := { state with IMUCorrection := quatnormalize sqrt state.IMUCorrection }
  { x with data := fun i j => if i < x.rows ∧ j = 0 then state.toFlat i else x.data i j }

/-! ## The axis-angle pose observation -/

/-- The three entries of a vector as an array. -/
def vec3 (v : Fin 3 → F) : Nat → F := fun i => [v 0, v 1, v 2].getD i 0

/-- The flip step of `map_obs_data_axisangle` (from `FLT mag = normnd2(...)` to the end of
`if(hasFlip)`): the flag `hasFlip` and the residual `yp` it leaves. -/
def obs_axisangle_flip (sqrt : F → F) (M_PI : F) (yp : SurviveAxisAnglePose F) :
    Bool × SurviveAxisAnglePose F :=
  have mag : F := normnd2 (vec3 yp.AxisAngleRot) 3
  have hasFlip : Bool := decide (mag > M_PI * M_PI)
  if hasFlip then
    have mag : F := sqrt mag
    (hasFlip,
      { yp with AxisAngleRot := fun i => yp.AxisAngleRot i * ((mag - 2 * M_PI) / mag) })
  else (hasFlip, yp)

/-- The flag `hasFlip` and the residual `yp` of `map_obs_data_axisangle` at its assertion: the
no-flip error of the generated code, negated, then the flip step. -/
def map_obs_data_axisangle_yp (env : Collaborators F) (Z x_t : CnMat F) :
    Bool × SurviveAxisAnglePose F :=
  have x0 : SurviveKalmanModel F := SurviveKalmanModel.ofFlat (cn_as_const_vector x_t)
  have Zv := cn_as_const_vector Z
  have Zp : SurviveAxisAnglePose F :=
    { Pos := ![Zv 0, Zv 1, Zv 2], AxisAngleRot := ![Zv 3, Zv 4, Zv 5] }
  have yp : SurviveAxisAnglePose F := env.SurviveObsErrorModelNoFlip x0 Zp
  have yp : SurviveAxisAnglePose F :=
    { Pos := fun i => yp.Pos i * (-1), AxisAngleRot := fun i => yp.AxisAngleRot i * (-1) }
  obs_axisangle_flip env.sqrt env.M_PI yp

/-- The condition of `assert(norm3d(yp.AxisAngleRot) < M_PI)` in `map_obs_data_axisangle`. -/
def map_obs_data_axisangle_assertion (env : Collaborators F) (Z x_t : CnMat F) : Prop :=
  norm3d env.sqrt (map_obs_data_axisangle_yp env Z x_t).2.AxisAngleRot < env.M_PI

/-- The function `map_obs_data_axisangle(user, Z, x_t, y, H_k)`; `y` and `H_k` may be null, the
result is what is left in them (the function returns `true`). -/
def map_obs_data_axisangle (env : Collaborators F) (tracker : SurviveKalmanTracker F)
    (Z x_t : CnMat F) (y H_k : Option (CnMat F)) : Option (CnMat F) × Option (CnMat F) :=
  have x0 : SurviveKalmanModel F := SurviveKalmanModel.ofFlat (cn_as_const_vector x_t)
  have Zv := cn_as_const_vector Z
  have predictedPose : SurviveAxisAnglePose F :=
    { Pos := ![Zv 0, Zv 1, Zv 2], AxisAngleRot := ![Zv 3, Zv 4, Zv 5] }
  have r := map_obs_data_axisangle_yp env Z x_t
  have hasFlip := r.1
  have yp := r.2
  have ypv : Nat → F := fun i =>
    [yp.Pos 0, yp.Pos 1, yp.Pos 2,
     yp.AxisAngleRot 0, yp.AxisAngleRot 1, yp.AxisAngleRot 2].getD i 0
  have y : Option (CnMat F) :=
    match y with
    | some y => some { y with data := fun i j => if i < y.rows ∧ j = 0 then ypv i else y.data i j }
    | none => none
  have H_k : Option (CnMat F) :=
    match H_k with
    | some H_k =>
      have errorState : Bool := tracker.use_error_state && tracker.obs_model.error_state_model
      if errorState then
        some ((if !hasFlip then env.SurviveObsErrorStateErrorModelNoFlip_jac_err
               else env.SurviveObsErrorStateErrorModelFlip_jac_err) H_k x0 predictedPose)
      else
        some ((if !hasFlip then env.SurviveObsErrorModelNoFlip_jac_x0
               else env.SurviveObsErrorModelFlip_jac_x0) H_k x0 predictedPose)
    | none => none
  (y, H_k)

/-! ## Initialisation -/

/-- The state count that the `switch` of `survive_kalman_tracker_init` computes. -/
def init_state_cnt (tracker : SurviveKalmanTracker F) : Nat :=
  have state_cnt : Nat := SURVIVE_MODEL_MAX_STATE_CNT
  if tracker.minimize_state_space = 1 then
    if tracker.params.process_weight_gyro_bias ≠ 0 then state_cnt
    else
      have state_cnt := state_cnt - 3
      if tracker.params.process_weight_acc_bias ≠ 0 then state_cnt
      else
        have state_cnt := state_cnt - 3
        if tracker.params.initial_variance_imu_correction ≠ 0 then state_cnt
        else
          have state_cnt := state_cnt - 4
          if tracker.params.initial_acc_scale_variance ≠ 0 then state_cnt
          else
            have state_cnt := state_cnt - 1
            if tracker.params.process_weight_acc ≠ 0 ∨ tracker.params.process_weight_jerk ≠ 0 then
              state_cnt
            else
              have state_cnt := state_cnt - 3
              if tracker.params.process_weight_ang_velocity ≠ 0 then state_cnt
              else
                have state_cnt := state_cnt - 3
                if tracker.params.process_weight_vel ≠ 0 then state_cnt
                else state_cnt - 3
  else state_cnt

/-- Modelled from the spec: `cnkalman_state_init` of cnkalman (not among the sources): a filter
of the given state dimension whose covariance is "sized by the nominal dimension". -/
def cnkalman_state_init (state_cnt : Nat) : cnkalman_state_t F :=
  { t := 0, P := cn_zero state_cnt state_cnt, state_cnt := state_cnt,
    error_state_size := state_cnt }

/-- Modelled from the spec: `cnkalman_error_state_init` of cnkalman (not among the sources): a
filter of the given state and error-state dimensions whose covariance is "sized by the error
dimension in error-state mode". -/
def cnkalman_error_state_init (state_cnt error_state_size : Nat) : cnkalman_state_t F :=
  { t := 0, P := cn_zero error_state_size error_state_size, state_cnt := state_cnt,
    error_state_size := error_state_size }

/-- The filter that `survive_kalman_tracker_init` creates: `cnkalman_error_state_init` with the
dimensions `state_cnt` and `state_cnt - 1` in error-state mode, `cnkalman_state_init` with
`state_cnt` otherwise. -/
def init_filter (tracker : SurviveKalmanTracker F) : cnkalman_state_t F :=
  have state_cnt : Nat := init_state_cnt tracker
  if tracker.use_error_state then cnkalman_error_state_init state_cnt (state_cnt - 1)
  else cnkalman_state_init state_cnt

/-- The groups of scalars of the nominal state. -/
inductive StateGroup where
  | Position
  | Orientation
  | LinearVelocity
  | AngularVelocity
  | LinearAcceleration
  | IMUCorrection
  | AccScale
  | AccBias
  | GyroBias
  deriving DecidableEq

/-- The number of scalars of a group. -/
def StateGroup.size : StateGroup → Nat
  | .Position => 3
  | .Orientation => 4
  | .LinearVelocity => 3
  | .AngularVelocity => 3
  | .LinearAcceleration => 3
  | .IMUCorrection => 4
  | .AccScale => 1
  | .AccBias => 3
  | .GyroBias => 3

/-- Modelled from the spec: the offsets of the groups as the data model of the spec lists them
(section 3, "ordered; offsets are fixed"): `IMUCorrection` at 16 and `AccScale` at 20. -/
def StateGroup.spec_offset : StateGroup → Nat
  | .Position => 0
  | .Orientation => 3
  | .LinearVelocity => 7
  | .AngularVelocity => 10
  | .LinearAcceleration => 13
  | .IMUCorrection => 16
  | .AccScale => 20
  | .AccBias => 21
  | .GyroBias => 24

/-- The offsets of the groups in `SurviveKalmanModel` (see there): `AccScale` at 16 and
`IMUCorrection` at 17. -/
def StateGroup.offset : StateGroup → Nat
  | .Position => 0
  | .Orientation => 3
  | .LinearVelocity => 7
  | .AngularVelocity => 10
  | .LinearAcceleration => 13
  | .AccScale => model_AccScale_offset
  | .IMUCorrection => model_IMUCorrection_offset
  | .AccBias => model_AccBias_offset
  | .GyroBias => model_GyroBias_offset

/-- Whether the tuning value that governs a group in `survive_kalman_tracker_init` is non-zero;
position and orientation have no governing value and are always kept. -/
def StateGroup.tuned (tracker : SurviveKalmanTracker F) : StateGroup → Prop
  | .Position => True
  | .Orientation => True
  | .LinearVelocity => tracker.params.process_weight_vel ≠ 0
  | .AngularVelocity => tracker.params.process_weight_ang_velocity ≠ 0
  | .LinearAcceleration =>
    tracker.params.process_weight_acc ≠ 0 ∨ tracker.params.process_weight_jerk ≠ 0
  | .IMUCorrection => tracker.params.initial_variance_imu_correction ≠ 0
  | .AccScale => tracker.params.initial_acc_scale_variance ≠ 0
  | .AccBias => tracker.params.process_weight_acc_bias ≠ 0
  | .GyroBias => tracker.params.process_weight_gyro_bias ≠ 0

/-- The array `tracker->process_variance` that `survive_kalman_tracker_init` fills when
`noise_model == 1`, through the error-state layout or the nominal layout. -/
def init_process_variance (tracker : SurviveKalmanTracker F) : Nat → F := fun k =>
  have pv := tracker.process_variance
  if tracker.use_error_state then
    if k < 3 then tracker.params.process_weight_pos
    else if k < 6 then tracker.params.process_weight_rotation
    else if k < 9 then tracker.params.process_weight_vel
    else if k < 12 then tracker.params.process_weight_ang_velocity
    else if k < 15 then tracker.params.process_weight_acc
    else if errorModel_AccBias_offset ≤ k ∧ k < errorModel_AccBias_offset + 3 then
      tracker.params.process_weight_acc_bias
    else pv k
  else
    if k < 3 then tracker.params.process_weight_pos
    else if k < 7 then tracker.params.process_weight_rotation
    else if k < 10 then tracker.params.process_weight_vel
    else if k < 13 then tracker.params.process_weight_ang_velocity
    else if k < 16 then tracker.params.process_weight_acc
    else if model_AccBias_offset ≤ k ∧ k < model_AccBias_offset + 3 then
      tracker.params.process_weight_acc_bias
    else pv k

/-- The function `survive_kalman_tracker_init(tracker, so)`.  `config` carries the values that
the configuration attaches (`SurviveKalmanTracker_attach_config` and the `attach_config` of the
measurement models), `use_imu` and `use_kalman` the configuration values of those names; every
other member starts from the `memset` to zero. -/
def survive_kalman_tracker_init (env : Collaborators F) (config : SurviveKalmanTracker F)
    (so : Nat) (use_imu use_kalman : Bool) : SurviveKalmanTracker F :=
  have tracker : SurviveKalmanTracker F :=
    { config with
      so := so
      model := { t := 0, P := cn_zero 0 0, state_cnt := 0, error_state_size := 0 }
      state := SurviveKalmanModel.zero
      previous_state := SurviveKalmanModel.zero
      process_variance := fun _ => 0
      reported_state_variance := fun _ => 0
      state_variance_count := 0
      stats := SurviveKalmanTracker_Stats.zero
      report_ignore_start_cnt := 0
      last_light_time := 0
      light_residuals_all := 0
      imu_residuals := 0
      first_imu_time := 0
      last_imu_time := 0
      first_report_time := 0
      last_report_time := 0
      Obs_R := cn_zero 7 7
      IMU_R := cn_zero 6 6
      savedLight := fun _ => { lh := 0, sensor_idx := 0, axis := 0, value := 0, timecode := 0 }
      savedLight_idx := 0 }
  have tracker := if !use_imu then { tracker with gyro_var := -1, acc_var := -1 } else tracker
  have tracker := { tracker with use_raw_obs := !use_kalman }
  have tracker := { tracker with model := init_filter tracker }
  have tracker :=
    if tracker.noise_model = 1 then
      { tracker with process_variance := init_process_variance tracker }
    else tracker
  have tracker :=
    { tracker with imu_model := { tracker.imu_model with error_state_model := false } }
  have tracker :=
    { tracker with lightcap_model := { tracker.lightcap_model with max_iterations := 10 } }
  survive_kalman_tracker_reinit env tracker

/-- The default values of `STRUCT_CONFIG_SECTION(SurviveKalmanTracker)` and of `MEAS_MDL_CONFIG`,
on a tracker whose other members are zero. -/
def default_config : SurviveKalmanTracker F :=
  { so := 0
    light_error_threshold := -1
    min_report_time := -1
    report_ignore_start := 0
    report_threshold_var := 1 / 10
    light_threshold_var := 1
    light_required_obs := 16
    lightcap_max_error := -1
    light_var := -1
    obs_cov_scale := 1
    obs_axisangle_model := false
    obs_pos_var := 1 / 1000000
    obs_rot_var := 1 / 10000000
    use_raw_obs := false
    show_raw_obs := false
    use_error_for_lh_pos := false
    light_rampin_length := 5000
    params :=
      { process_weight_jerk := 1874161, process_weight_acc := 0,
        process_weight_ang_velocity := 60, process_weight_vel := 0, process_weight_pos := 0,
        process_weight_rotation := 0, process_weight_acc_bias := 0,
        process_weight_gyro_bias := 0, initial_variance_imu_correction := 0,
        initial_acc_scale_variance := 0 }
    minimize_state_space := 1
    use_error_state := true
    zvu_moving_var := -1
    zvu_stationary_var := 1 / 100
    zvu_no_light_var := 1 / 10000
    noise_model := 0
    acc_norm_penalty := 0
    acc_var := 1 / 1000
    gyro_var := 304617 / 10000000000
    light_batchsize := 32
    imu_model := { adaptive := false, error_state_model := true, max_iterations := -1 }
    lightcap_model := { adaptive := false, error_state_model := true, max_iterations := -1 }
    obs_model := { adaptive := false, error_state_model := true, max_iterations := -1 }
    zvu_model := { adaptive := false, error_state_model := true, max_iterations := -1 }
    model := { t := 0, P := cn_zero 0 0, state_cnt := 0, error_state_size := 0 }
    state := SurviveKalmanModel.zero
    previous_state := SurviveKalmanModel.zero
    process_variance := fun _ => 0
    reported_state_variance := fun _ => 0
    state_variance_count := 0
    stats := SurviveKalmanTracker_Stats.zero
    report_ignore_start_cnt := 0
    last_light_time := 0
    light_residuals_all := 0
    imu_residuals := 0
    first_imu_time := 0
    last_imu_time := 0
    first_report_time := 0
    last_report_time := 0
    Obs_R := cn_zero 7 7
    IMU_R := cn_zero 6 6
    savedLight := fun _ => { lh := 0, sensor_idx := 0, axis := 0, value := 0, timecode := 0 }
    savedLight_idx := 0 }

/-! ## Concrete surroundings for running the code -/

/-- Collaborators that do nothing: the filter operations leave the state vector and the filter
as they are and report the error 0, the reset clears `P` and the filter time, the generated
functions hand back their argument, and the conversion to single precision hands back its
argument too, which is what it does on every number that single precision represents. -/
def Collaborators.inert (sqrt : F → F) (M_PI : F) : Collaborators F :=
  { sqrt := sqrt
    M_PI := M_PI
    to_float := fun v => v
    cnkalman_meas_model_predict_update := fun _ _ w _ _ =>
      { state := w.tracker.state, model := w.tracker.model, rtn := 0 }
    cnkalman_predict_update_state := fun _ w _ _ _ =>
      { state := w.tracker.state, model := w.tracker.model, rtn := 0 }
    cnkalman_state_reset := fun m => { m with t := 0, P := cn_set_zero m.P }
    cnkalman_extrapolate_state := fun _ w _ i => w.tracker.state.toFlat i
    SurviveKalmanModelPredict := fun _ s => s
    SurviveKalmanModelPredict_jac_kalman_model := fun f _ _ => f
    SurviveKalmanModelErrorPredict_jac_error_model := fun f _ _ => f
    ApplyPoseToPose := fun p _ => p
    Pose2AAPose := fun p i => p.toFlat i
    survive_covariance_pose2poseAA := fun _ R => R
    SurviveObsErrorModelNoFlip := fun _ Z => Z
    SurviveObsErrorStateErrorModelNoFlip_jac_err := fun H _ _ => H
    SurviveObsErrorStateErrorModelFlip_jac_err := fun H _ _ => H
    SurviveObsErrorModelNoFlip_jac_x0 := fun H _ _ => H
    SurviveObsErrorModelFlip_jac_x0 := fun H _ _ => H }

/-- An object with a 1 kHz time base that has never been stationary. -/
def example_object : SurviveObject F :=
  { timebase_hz := 1000, stationary_time := 0, conf := true, imu_freq := 1000,
    OutPose_timecode := 0, OutPoseIMU := SurvivePose.zero, OutPose := SurvivePose.zero,
    poseConfidence := 0, acceleration := fun _ => 0, head2imu := SurvivePose.zero }

/-- A memory that holds the given tracker, `example_object` at every address, two lighthouses
with known position and the one object of the tracker in the context. -/
def example_world (tracker : SurviveKalmanTracker F) : World F :=
  { tracker := tracker
    objmem := fun _ => example_object
    ctx := { PositionSet := fun _ => true, activeLighthouses := 2, objs := [tracker.so],
             report_in_imu := false }
    log := [] }

/-- A memory whose covariance has the diagonal `(2, 2, 2, 0, 0, ...)`, with
`light_threshold_var = 1`. -/
def light_gate_world : World ℚ :=
  example_world { default_config with
    light_threshold_var := 1
    model := { default_config.model with
      P := cn_set_diag (cn_zero 15 15) (fun i => if i < 3 then 2 else 0) } }

/-- A memory with `light_error_threshold = 1` and a residual average of 2, whose object has
not been stationary (stationary time 0, one tenth of a second is 100 ticks). -/
def residual_world : World ℚ :=
  example_world { default_config with light_error_threshold := 1, light_residuals_all := 2 }

/-- The memory `residual_world` with an object that has been stationary for 5000 ticks. -/
def residual_stationary_world : World ℚ :=
  { residual_world with objmem := fun _ => { example_object with stationary_time := 5000 } }

/-- A memory whose tracker sits at the position `(21, 0, 0)`. -/
def far_world : World ℚ :=
  example_world { default_config with
    state := { (SurviveKalmanModel.zero : SurviveKalmanModel ℚ) with
      Pose := { Pos := ![21, 0, 0], Rot := ![1, 0, 0, 0] } } }

/-- A memory with filter time 10 s, sixteen pose observations and the default configuration. -/
def imu_late_world : World ℚ :=
  example_world { default_config with
    model := { t := 10, P := cn_zero 15 15, state_cnt := 16, error_state_size := 15 }
    stats := { (SurviveKalmanTracker_Stats.zero : SurviveKalmanTracker_Stats ℚ) with
      obs_count := 16 } }

/-- An inertial packet with the time code 9995 (9.995 s on a 1 kHz time base). -/
def imu_late_packet : PoserDataIMU ℚ :=
  { hdr := ⟨PoserType.POSERDATA_IMU, 9995⟩, accel := ![0, 0, 1], gyro := ![0, 0, 0] }

/-- The default configuration with `initial_acc_scale_variance = 1`. -/
def acc_scale_config : SurviveKalmanTracker ℚ :=
  { default_config with
    params := { (default_config : SurviveKalmanTracker ℚ).params with
      initial_acc_scale_variance := 1 } }

/-- A state vector of 16 scalars at the origin with the identity orientation, the linear
velocity `(2, 0, 0)` and the acceleration `(1, 0, 0)`. -/
def moving_state : CnMat ℚ :=
  cnVec 16 (fun i => [0, 0, 0, 1, 0, 0, 0, 2, 0, 0, 0, 0, 0, 1, 0, 0].getD i 0)

/-- Tuning weights that are all zero. -/
def zero_params : SurviveKalmanTracker_Params ℚ :=
  { process_weight_jerk := 0, process_weight_acc := 0, process_weight_ang_velocity := 0,
    process_weight_vel := 0, process_weight_pos := 0, process_weight_rotation := 0,
    process_weight_acc_bias := 0, process_weight_gyro_bias := 0,
    initial_variance_imu_correction := 0, initial_acc_scale_variance := 0 }

/-- The leading `n × n` block of a `CnMat` as a matrix. -/
def CnMat.toMatrix {F : Type} (m : CnMat F) (n : Nat) : Matrix (Fin n) (Fin n) F :=
  fun i j => m.data i j

/-- A run of `survive_kalman_tracker_integrate_light` calls, one per packet, in order. -/
def integrate_light_run {F : Type} [LinearOrderedField F] (env : Collaborators F)
    (savedLight_len : Nat) (packets : List (PoserDataLight F)) (w : World F) : World F :=
  packets.foldl (fun w data => survive_kalman_tracker_integrate_light env savedLight_len data w) w

/-- A sweep packet of lighthouse 0, sensor 0, axis 0 with the angle 1/2. -/
def sweep_packet : PoserDataLight ℚ :=
  { hdr := ⟨PoserType.POSERDATA_LIGHT, 0⟩, lh := 0, sensor_id := 0, angle := 1 / 2, axis := 0 }

/-- A memory with the default configuration except `light-batch-size = 34`, and an empty light
buffer. -/
def big_batch_world : World ℚ :=
  example_world { default_config with light_batchsize := 34 }

/-- The condition of the `if` of `survive_kalman_tracker_report_state` that suppresses a report:
`(report_threshold_var > 0 && p_threshold >= report_threshold_var) ||
report_ignore_start > report_ignore_start_cnt`. -/
def report_state_suppress {F : Type} [LinearOrderedField F] (w : World F) : Bool :=
  have var2 := survive_kalman_tracker_position_var2 w.tracker (fun _ => 0)
    w.tracker.model.error_state_size
  have p_threshold := var2.2
  (decide (w.tracker.report_threshold_var > 0) &&
      decide (p_threshold ≥ w.tracker.report_threshold_var)) ||
    decide (w.tracker.report_ignore_start > w.tracker.report_ignore_start_cnt)

/-- Whether a call of `survive_kalman_tracker_report_state` gets to the reporting tail (the
statements from `addnd(tracker->stats.reported_var, ...)` on, which set `last_report_time` and
invoke the hooks): none of the four `return`s before it is taken. -/
def report_state_reaches {F : Type} [LinearOrderedField F] (env : Collaborators F)
    (pd : PoserData) (w : World F) : Bool :=
  have w := { w with tracker := normalize_model env.sqrt w.tracker }
  have t : F := report_state_time pd w
  if (w.objmem w.tracker.so).conf = false then false
  else
    have w := report_state_min_report_time w
    if t - w.tracker.last_report_time < w.tracker.min_report_time then false
    else
      have valid := survive_kalman_tracker_check_valid env w
      if !valid.1 then false
      else !report_state_suppress valid.2

/-- A run of `survive_kalman_tracker_report_state` calls, one per packet, in order. -/
def report_state_run {F : Type} [LinearOrderedField F] (env : Collaborators F)
    (pds : List PoserData) (w : World F) : World F :=
  pds.foldl (fun w pd => survive_kalman_tracker_report_state env pd w) w

/-- Whether none of the calls of a run gets to the reporting tail. -/
def report_state_quiet {F : Type} [LinearOrderedField F] (env : Collaborators F) :
    List PoserData → World F → Bool
  | [], _ => true
  | pd :: rest, w =>
    !report_state_reaches env pd w
      && report_state_quiet env rest (survive_kalman_tracker_report_state env pd w)

/-- A memory with filter time 10 s, the identity orientation and `min_report_time = 0`. -/
def report_world : World ℚ :=
  example_world { default_config with
    min_report_time := 0
    model := { t := 10, P := cn_zero 15 15, state_cnt := 16, error_state_size := 15 }
    state := { (SurviveKalmanModel.zero : SurviveKalmanModel ℚ) with
      Pose := { Pos := ![0, 0, 0], Rot := ![1, 0, 0, 0] }
      AccScale := 1
      IMUCorrection := ![1, 0, 0, 0] } }

/-- A memory with filter time 10 s, `min_report_time = 0`, `report_threshold_var = 1` and a
covariance with the diagonal `(1, 0, 0, ...)`, whose squared norm is exactly 1. -/
def threshold_world : World ℚ :=
  example_world { default_config with
    min_report_time := 0
    report_threshold_var := 1
    model := { t := 10, P := cn_set_diag (cn_zero 15 15) (fun i => if i < 1 then 1 else 0),
               state_cnt := 16, error_state_size := 15 }
    state := { (SurviveKalmanModel.zero : SurviveKalmanModel ℚ) with
      Pose := { Pos := ![0, 0, 0], Rot := ![1, 0, 0, 0] }
      AccScale := 1
      IMUCorrection := ![1, 0, 0, 0] } }

/-- A state vector of 27 scalars with identity orientation and IMU correction, `AccScale = 2`
and the accelerometer bias `(1, 0, 0)`. -/
def unclamped_state : CnMat ℚ :=
  cnVec 27 (fun i =>
    [0, 0, 0, 1, 0, 0, 0, 0, 0, 0, 0, 0, 0, 0, 0, 0, 2, 1, 0, 0, 0, 1, 0, 0, 0, 0, 0].getD i 0)

/-- A memory whose context holds the object of the tracker only. -/
def single_object_world : World ℚ := example_world default_config

/-- The default configuration with `process_weight_jerk = 0`: no acceleration is kept in the
state. -/
def no_acc_config : SurviveKalmanTracker ℚ :=
  { default_config with
    params := { (default_config : SurviveKalmanTracker ℚ).params with
      process_weight_jerk := 0 } }

/-! ## Binary floating point

`FLT` is `double` (`#define FLT double`), and `survive_kalman_tracker_check_valid` narrows to
`float`.  The embedding computes over an exact ordered field; the definitions below repeat the
comparisons whose outcome at a boundary depends on the rounding, in the arithmetic of the compiled
code. -/

/-- Rounding of a rational number to the nearest number with a significand of `p` bits, ties to
the even significand (the default rounding of IEEE 754); the exponent is not bounded, so there
is neither overflow nor a subnormal range. -/
def round_to_precision (p : ℕ) (x : ℚ) : ℚ :=
  if x = 0 then 0
  else
    have e : ℤ := Int.log 2 |x|
    have u : ℚ := 2 ^ (e + 1 - p)
    have k : ℚ := |x| / u
    have f : ℤ := ⌊k⌋
    have n : ℤ :=
      if k - f < 1 / 2 then f
      else if 1 / 2 < k - f then f + 1
      else if f % 2 = 0 then f else f + 1
    if x < 0 then -(n * u) else n * u

/-- The conversion `(float)x`: rounding to single precision, a significand of 24 bits. -/
def binary32 (x : ℚ) : ℚ := round_to_precision 24 x

/-- The value of an `FLT` expression, `FLT` being `double`: rounding to double precision, a
significand of 53 bits. -/
def binary64 (x : ℚ) : ℚ := round_to_precision 53 x

/-- The tests `time - tracker->model.t < 0` and `time - tracker->model.t > -.1` of
`survive_kalman_tracker_integrate_observation` as the compiled code evaluates them, with
`time = timecode / (FLT)timebase_hz`: whether the observation is dropped as late. -/
def integrate_observation_late_double (timecode timebase_hz : Nat) (t : ℚ) : Bool :=
  have time : ℚ := binary64 ((timecode : ℚ) / (timebase_hz : ℚ))
  decide (binary64 (time - t) < 0) && !decide (binary64 (time - t) > -binary64 (1 / 10))

/-- The inert collaborators over the rationals, with the conversion to single precision that
the hardware performs. -/
def Collaborators.narrowing : Collaborators ℚ :=
  { Collaborators.inert (fun v : ℚ => v) 3 with to_float := binary32 }

/-- A memory with the default configuration (`light_error_threshold = -1`) whose tracker sits at
the position `(0, 20 - 2^-22, 0)`. -/
def near_twenty_world : World ℚ :=
  example_world { default_config with
    state := { (SurviveKalmanModel.zero : SurviveKalmanModel ℚ) with
      Pose := { Pos := ![0, 20 - 1 / 4194304, 0], Rot := ![1, 0, 0, 0] } } }

/-- The default configuration with every tuning weight and both initial variances zero: only
the pose is kept in the state. -/
def pose_only_config : SurviveKalmanTracker ℚ :=
  { default_config with params := zero_params }

end Defs

section Theorems

theorem Q_POSE_BLOCK_full_symm {F : Type} [LinearOrderedField F] (n : PosNoise F) (rv s_f s_s s_w t qw qx qy qz : F)
    (i j : Nat) (hi : i < 16) (hj : j < 16) :
    (Q_POSE_BLOCK_full n rv s_f s_s s_w t qw qx qy qz).getD (j + i * 16) 0
      = (Q_POSE_BLOCK_full n rv s_f s_s s_w t qw qx qy qz).getD (i + j * 16) 0 := by
  interval_cases i <;> interval_cases j <;> rfl

theorem Q_POSE_BLOCK_error_symm {F : Type} [LinearOrderedField F] (n : PosNoise F) (rv r_av s_w t : F)
    (i j : Nat) (hi : i < 15) (hj : j < 15) :
    (Q_POSE_BLOCK_error n rv r_av s_w t).getD (j + i * 15) 0
      = (Q_POSE_BLOCK_error n rv r_av s_w t).getD (i + j * 15) 0 := by
  interval_cases i <;> interval_cases j <;> rfl

theorem cnMatrixSet_diag_symm {F : Type} (m : CnMat F) (k : Nat) (v : F)
    (h : ∀ i j, m.data i j = m.data j i) :
    ∀ i j, (cnMatrixSet m k k v).data i j = (cnMatrixSet m k k v).data j i := by
  intro i j
  simp only [cnMatrixSet]
  by_cases h1 : i = k ∧ j = k
  · have h2 : j = k ∧ i = k := ⟨h1.2, h1.1⟩
    rw [if_pos h1, if_pos h2]
  · have h2 : ¬ (j = k ∧ i = k) := fun c => h1 ⟨c.2, c.1⟩
    rw [if_neg h1, if_neg h2]
    exact h i j

theorem process_noise_bias_step_symm {F : Type} (errorState : Bool) (ga gb : F) (q : CnMat F) (k : Nat)
    (h : ∀ i j, q.data i j = q.data j i) :
    ∀ i j, (process_noise_bias_step errorState ga gb q k).data i j
      = (process_noise_bias_step errorState ga gb q k).data j i := by
  unfold process_noise_bias_step
  simp only
  split_ifs <;>
    first
    | exact cnMatrixSet_diag_symm _ _ _ (cnMatrixSet_diag_symm _ _ _ h)
    | exact cnMatrixSet_diag_symm _ _ _ h
    | exact h

theorem roi_zero_symm {F : Type} [LinearOrderedField F] (n k : Nat) (src : List F)
    (h : ∀ i j, i < k → j < k → src.getD (j + i * k) 0 = src.getD (i + j * k) 0) :
    ∀ i j, (cn_copy_in_row_major_roi (cn_zero n n) src k 0 0 k k).data i j
      = (cn_copy_in_row_major_roi (cn_zero n n) src k 0 0 k k).data j i := by
  intro i j
  simp only [cn_copy_in_row_major_roi, cn_zero]
  by_cases h1 : 0 ≤ i ∧ i < min n k ∧ 0 ≤ j ∧ j < min k n
  · have hi : i < min n k := h1.2.1
    have hj : j < min k n := h1.2.2.2
    have h2 : 0 ≤ j ∧ j < min n k ∧ 0 ≤ i ∧ i < min k n :=
      ⟨Nat.zero_le _, by rw [min_comm]; exact hj, Nat.zero_le _, by rw [min_comm]; exact hi⟩
    rw [if_pos h1, if_pos h2]
    exact h i j (lt_of_lt_of_le hi (min_le_right _ _)) (lt_of_lt_of_le hj (min_le_left _ _))
  · have h2 : ¬ (0 ≤ j ∧ j < min n k ∧ 0 ≤ i ∧ i < min k n) := by
      intro c
      exact h1 ⟨Nat.zero_le _, by rw [min_comm]; exact c.2.2.2, Nat.zero_le _,
        by rw [min_comm]; exact c.2.1⟩
    rw [if_neg h1, if_neg h2]

/-- C1: the matrix that `survive_kalman_tracker_process_noise` leaves in a zero-initialised
square `q_out` is symmetric, `q_out[i][j] = q_out[j][i]` for all `i`, `j`, for every `t`, all
weights and every state, in the full-state and in the error-state parameterisation. -/
theorem process_noise_symmetric {F : Type} [LinearOrderedField F] (sqrt : F → F) (params : SurviveKalmanTracker_Params F)
    (errorState : Bool) (t : F) (x : CnMat F) (n i j : Nat) :
    cnMatrixGet (survive_kalman_tracker_process_noise sqrt params errorState t x (cn_zero n n)) i j
      = cnMatrixGet
          (survive_kalman_tracker_process_noise sqrt params errorState t x (cn_zero n n)) j i := by
  have key : ∀ (l : List Nat) (q : CnMat F), (∀ a b, q.data a b = q.data b a) →
      ∀ a b, (l.foldl (process_noise_bias_step errorState
                (params.process_weight_acc_bias * t) (params.process_weight_gyro_bias * t)) q).data a b
        = (l.foldl (process_noise_bias_step errorState
                (params.process_weight_acc_bias * t) (params.process_weight_gyro_bias * t)) q).data b a := by
    intro l
    induction l with
    | nil => intro q hq; simpa using hq
    | cons k l ih =>
      intro q hq
      simp only [List.foldl_cons]
      exact ih _ (process_noise_bias_step_symm _ _ _ _ _ hq)
  unfold survive_kalman_tracker_process_noise cnMatrixGet
  simp only
  apply key
  cases errorState
  · simp only [Bool.not_false, if_true]
    exact roi_zero_symm n 16 _ (fun a b ha hb => Q_POSE_BLOCK_full_symm _ _ _ _ _ _ _ _ _ _ a b ha hb)
  · simp only [Bool.not_true, Bool.false_eq_true, if_false]
    exact roi_zero_symm n 15 _ (fun a b ha hb => Q_POSE_BLOCK_error_symm _ _ _ _ _ a b ha hb)

theorem process_noise_bias_step_data {F : Type} (errorState : Bool) (ga gb : F) (q : CnMat F)
    (k a b : Nat) (ha : a < 19) :
    (process_noise_bias_step errorState ga gb q k).data a b = q.data a b := by
  have h1 : ∀ o : Nat, 19 ≤ o → ¬ (a = o + k ∧ b = o + k) := fun o ho c => by omega
  unfold process_noise_bias_step
  cases errorState <;>
    simp only [errorModel_AccBias_offset, errorModel_GyroBias_offset, model_AccBias_offset,
      model_GyroBias_offset, Bool.false_eq_true, if_false, if_true] <;>
    split_ifs <;>
    simp only [cnMatrixSet, h1 19 (by norm_num), h1 21 (by norm_num), h1 22 (by norm_num),
      h1 24 (by norm_num), if_false]

theorem process_noise_bias_fold_data {F : Type} (errorState : Bool) (ga gb : F) (l : List Nat)
    (q : CnMat F) (a b : Nat) (ha : a < 19) :
    (l.foldl (process_noise_bias_step errorState ga gb) q).data a b = q.data a b := by
  induction l generalizing q with
  | nil => rfl
  | cons k l ih =>
    simp only [List.foldl_cons]
    rw [ih, process_noise_bias_step_data errorState ga gb q k a b ha]

theorem roi_data_inside {F : Type} [LinearOrderedField F] (dst : CnMat F) (src : List F)
    (k a b : Nat) (ha : a < k) (hb : b < k) (har : a < dst.rows) (hbc : b < dst.cols) :
    (cn_copy_in_row_major_roi dst src k 0 0 k k).data a b = src.getD (b + a * k) 0 := by
  simp only [cn_copy_in_row_major_roi]
  rw [if_pos]
  exact ⟨Nat.zero_le _, lt_min har ha, Nat.zero_le _, lt_min hb hbc⟩

theorem process_noise_entry {F : Type} [LinearOrderedField F] (sqrt : F → F)
    (params : SurviveKalmanTracker_Params F) (errorState : Bool) (t : F) (x q_out : CnMat F)
    (a b : Nat) (ha : a < if errorState then 15 else 16) (hb : b < if errorState then 15 else 16)
    (har : a < q_out.rows) (hbc : b < q_out.cols) :
    cnMatrixGet (survive_kalman_tracker_process_noise sqrt params errorState t x q_out) a b
      = if errorState then
          (Q_POSE_BLOCK_error (process_noise_positional params t)
            (params.process_weight_ang_velocity * (t * t * t / 3)
              + params.process_weight_rotation * t)
            (params.process_weight_ang_velocity * (t * t / 2))
            params.process_weight_ang_velocity t).getD (b + a * 15) 0
        else
          (Q_POSE_BLOCK_full (process_noise_positional params t)
            (params.process_weight_ang_velocity * (t * t * t / 3)
              + params.process_weight_rotation * t)
            (params.process_weight_ang_velocity / 12 * (t * t * t))
            (params.process_weight_ang_velocity / 4 * (t * t))
            params.process_weight_ang_velocity t
            ((copy_model sqrt (cn_as_const_vector x) x.rows).Pose.Rot 0)
            ((copy_model sqrt (cn_as_const_vector x) x.rows).Pose.Rot 1)
            ((copy_model sqrt (cn_as_const_vector x) x.rows).Pose.Rot 2)
            ((copy_model sqrt (cn_as_const_vector x) x.rows).Pose.Rot 3)).getD (b + a * 16) 0 := by
  unfold survive_kalman_tracker_process_noise cnMatrixGet
  simp only
  cases errorState
  · simp only [Bool.false_eq_true, if_false] at ha hb
    rw [process_noise_bias_fold_data _ _ _ _ _ a b (by omega)]
    simp only [Bool.not_false, if_true, Bool.false_eq_true, if_false]
    rw [roi_data_inside _ _ 16 a b ha hb har hbc]
    rfl
  · simp only [if_true] at ha hb
    rw [process_noise_bias_fold_data _ _ _ _ _ a b (by omega)]
    simp only [Bool.not_true, Bool.false_eq_true, if_false, if_true]
    rw [roi_data_inside _ _ 15 a b ha hb har hbc]
    rfl

theorem Q_POSE_BLOCK_full_entry {F : Type} [LinearOrderedField F] (n : PosNoise F)
    (rv s_f s_s s_w t qw qx qy qz : F) (r c : Fin 3) (k : Nat) (hk : k < 3) :
    (Q_POSE_BLOCK_full n rv s_f s_s s_w t qw qx qy qz).getD
        (pos_group_offset false c + k + (pos_group_offset false r + k) * 16) 0
      = n.entry r c := by
  fin_cases r <;> fin_cases c <;> interval_cases k <;> rfl

theorem Q_POSE_BLOCK_error_entry {F : Type} [LinearOrderedField F] (n : PosNoise F)
    (rv r_av s_w t : F) (r c : Fin 3) (k : Nat) (hk : k < 3) :
    (Q_POSE_BLOCK_error n rv r_av s_w t).getD
        (pos_group_offset true c + k + (pos_group_offset true r + k) * 15) 0
      = n.entry r c := by
  fin_cases r <;> fin_cases c <;> interval_cases k <;> rfl

theorem process_noise_positional_entry {F : Type} [LinearOrderedField F]
    (params : SurviveKalmanTracker_Params F) (t : F) (hpos : params.process_weight_pos = 0)
    (r c : Fin 3) :
    (process_noise_positional params t).entry r c
      = params.process_weight_jerk * spec_Q_jerk t r c
        + params.process_weight_acc * spec_Q_acc t r c
        + params.process_weight_vel * spec_Q_vel t r c := by
  have e00 : (process_noise_positional params t).entry 0 0
      = params.process_weight_jerk * (t * t * t * t * t * t * t / 252)
        + params.process_weight_acc * (t * t * t * t * t / 20)
        + params.process_weight_vel * (t * t * t / 3) + params.process_weight_pos * (t * t) := rfl
  have e01 : (process_noise_positional params t).entry 0 1
      = params.process_weight_jerk * (t * t * t * t * t * t / 72)
        + params.process_weight_acc * (t * t * t * t / 8)
        + params.process_weight_vel * (t * t / 2) := rfl
  have e02 : (process_noise_positional params t).entry 0 2
      = params.process_weight_jerk * (t * t * t * t * t / 30)
        + params.process_weight_acc * (t * t * t / 6) := rfl
  have e11 : (process_noise_positional params t).entry 1 1
      = params.process_weight_jerk * (t * t * t * t * t / 20)
        + params.process_weight_acc * (t * t * t / 3)
        + params.process_weight_vel * t := rfl
  have e12 : (process_noise_positional params t).entry 1 2
      = params.process_weight_jerk * (t * t * t * t / 8)
        + params.process_weight_acc * (t * t / 2) := rfl
  have e22 : (process_noise_positional params t).entry 2 2
      = params.process_weight_jerk * (t * t * t / 3)
        + params.process_weight_acc * t := rfl
  have e10 : (process_noise_positional params t).entry 1 0
      = (process_noise_positional params t).entry 0 1 := rfl
  have e20 : (process_noise_positional params t).entry 2 0
      = (process_noise_positional params t).entry 0 2 := rfl
  have e21 : (process_noise_positional params t).entry 2 1
      = (process_noise_positional params t).entry 1 2 := rfl
  fin_cases r <;> fin_cases c
  · show (process_noise_positional params t).entry 0 0 =
      params.process_weight_jerk * (t ^ 7 / 252) + params.process_weight_acc * (t ^ 5 / 20)
        + params.process_weight_vel * (t ^ 3 / 3)
    rw [e00, hpos]; ring
  · show (process_noise_positional params t).entry 0 1 =
      params.process_weight_jerk * (t ^ 6 / 72) + params.process_weight_acc * (t ^ 4 / 8)
        + params.process_weight_vel * (t ^ 2 / 2)
    rw [e01]; ring
  · show (process_noise_positional params t).entry 0 2 =
      params.process_weight_jerk * (t ^ 5 / 30) + params.process_weight_acc * (t ^ 3 / 6)
        + params.process_weight_vel * 0
    rw [e02]; ring
  · show (process_noise_positional params t).entry 1 0 =
      params.process_weight_jerk * (t ^ 6 / 72) + params.process_weight_acc * (t ^ 4 / 8)
        + params.process_weight_vel * (t ^ 2 / 2)
    rw [e10, e01]; ring
  · show (process_noise_positional params t).entry 1 1 =
      params.process_weight_jerk * (t ^ 5 / 20) + params.process_weight_acc * (t ^ 3 / 3)
        + params.process_weight_vel * t
    rw [e11]; ring
  · show (process_noise_positional params t).entry 1 2 =
      params.process_weight_jerk * (t ^ 4 / 8) + params.process_weight_acc * (t ^ 2 / 2)
        + params.process_weight_vel * 0
    rw [e12]; ring
  · show (process_noise_positional params t).entry 2 0 =
      params.process_weight_jerk * (t ^ 5 / 30) + params.process_weight_acc * (t ^ 3 / 6)
        + params.process_weight_vel * 0
    rw [e20, e02]; ring
  · show (process_noise_positional params t).entry 2 1 =
      params.process_weight_jerk * (t ^ 4 / 8) + params.process_weight_acc * (t ^ 2 / 2)
        + params.process_weight_vel * 0
    rw [e21, e12]; ring
  · show (process_noise_positional params t).entry 2 2 =
      params.process_weight_jerk * (t ^ 3 / 3) + params.process_weight_acc * t
        + params.process_weight_vel * 0
    rw [e22]; ring

/-- C2: with `process_weight_pos = 0`, every per-axis (pos, vel, acc) entry that
`survive_kalman_tracker_process_noise` writes (row group `r`, column group `c`, axis `k`) is
`w_jerk * J + w_acc * A + w_vel * V` for the spec's blocks J, A, V, for every `t` and weights,
in both parameterisations. -/
theorem process_noise_weighted_sum {F : Type} [LinearOrderedField F] (sqrt : F → F)
    (params : SurviveKalmanTracker_Params F) (errorState : Bool) (t : F) (x q_out : CnMat F)
    (hpos : params.process_weight_pos = 0) (r c : Fin 3) (k : Nat) (hk : k < 3)
    (hr : pos_group_offset errorState r + k < q_out.rows)
    (hc : pos_group_offset errorState c + k < q_out.cols) :
    cnMatrixGet (survive_kalman_tracker_process_noise sqrt params errorState t x q_out)
        (pos_group_offset errorState r + k) (pos_group_offset errorState c + k)
      = params.process_weight_jerk * spec_Q_jerk t r c
        + params.process_weight_acc * spec_Q_acc t r c
        + params.process_weight_vel * spec_Q_vel t r c := by
  have hlt : ∀ g : Fin 3, pos_group_offset errorState g + k < if errorState then 15 else 16 := by
    intro g
    cases errorState <;> fin_cases g <;> simp [pos_group_offset] <;> omega
  rw [process_noise_entry sqrt params errorState t x q_out _ _ (hlt r) (hlt c) hr hc]
  cases errorState
  · rw [if_neg Bool.false_ne_true, Q_POSE_BLOCK_full_entry _ _ _ _ _ _ _ _ _ _ r c k hk,
      process_noise_positional_entry params t hpos r c]
  · rw [if_pos rfl, Q_POSE_BLOCK_error_entry _ _ _ _ _ r c k hk,
      process_noise_positional_entry params t hpos r c]

/-- Witness for C2: jerk weight 252, all other weights 0, `t = 1`, error-state mode, a zero
15 × 15 `q_out`: the position diagonal entry of the x axis is `252 * (1 / 252)`. -/
theorem process_noise_weighted_sum_witness :
    cnMatrixGet (survive_kalman_tracker_process_noise (fun v : ℚ => v)
        { process_weight_jerk := 252, process_weight_acc := 0, process_weight_ang_velocity := 0,
          process_weight_vel := 0, process_weight_pos := 0, process_weight_rotation := 0,
          process_weight_acc_bias := 0, process_weight_gyro_bias := 0,
          initial_variance_imu_correction := 0, initial_acc_scale_variance := 0 }
        true 1 (cn_zero 16 1) (cn_zero 15 15))
        (pos_group_offset true 0 + 0) (pos_group_offset true 0 + 0)
      = 252 * spec_Q_jerk (1 : ℚ) 0 0 + 0 * spec_Q_acc (1 : ℚ) 0 0 + 0 * spec_Q_vel (1 : ℚ) 0 0 :=
  process_noise_weighted_sum (fun v : ℚ => v) _ true 1 (cn_zero 16 1) (cn_zero 15 15) rfl 0 0 0
    (by decide) (by decide) (by decide)

theorem process_noise_pos_diag {F : Type} [LinearOrderedField F] (sqrt : F → F)
    (params : SurviveKalmanTracker_Params F) (errorState : Bool) (t : F) (x q_out : CnMat F)
    (k : Nat) (hk : k < 3) (hr : k < q_out.rows) (hc : k < q_out.cols) :
    cnMatrixGet (survive_kalman_tracker_process_noise sqrt params errorState t x q_out) k k
      = params.process_weight_jerk * (t * t * t * t * t * t * t / 252)
        + params.process_weight_acc * (t * t * t * t * t / 20)
        + params.process_weight_vel * (t * t * t / 3) + params.process_weight_pos * (t * t) := by
  have h0 : pos_group_offset errorState 0 + k = k := by
    cases errorState <;> simp [pos_group_offset]
  have hlt : k < if errorState then 15 else 16 := by
    cases errorState <;> simp <;> omega
  rw [process_noise_entry sqrt params errorState t x q_out k k hlt hlt hr hc]
  cases errorState
  · rw [if_neg Bool.false_ne_true]
    have := Q_POSE_BLOCK_full_entry (process_noise_positional params t)
      (params.process_weight_ang_velocity * (t * t * t / 3) + params.process_weight_rotation * t)
      (params.process_weight_ang_velocity / 12 * (t * t * t))
      (params.process_weight_ang_velocity / 4 * (t * t))
      params.process_weight_ang_velocity t
      ((copy_model sqrt (cn_as_const_vector x) x.rows).Pose.Rot 0)
      ((copy_model sqrt (cn_as_const_vector x) x.rows).Pose.Rot 1)
      ((copy_model sqrt (cn_as_const_vector x) x.rows).Pose.Rot 2)
      ((copy_model sqrt (cn_as_const_vector x) x.rows).Pose.Rot 3) 0 0 k hk
    rw [h0] at this
    rw [this]
    rfl
  · rw [if_pos rfl]
    have := Q_POSE_BLOCK_error_entry (process_noise_positional params t)
      (params.process_weight_ang_velocity * (t * t * t / 3) + params.process_weight_rotation * t)
      (params.process_weight_ang_velocity * (t * t / 2))
      params.process_weight_ang_velocity t 0 0 k hk
    rw [h0] at this
    rw [this]
    rfl

/-- C3: with `process_weight_pos = 1`, every other weight 0 and `t = 2`, the three position
diagonal entries that `survive_kalman_tracker_process_noise` writes are `4 = 1 * 2 * 2`, the
weight times the square of `t`, and not `1 * 2`, the weight times `t`. -/
theorem process_noise_pos_walk_at_two :
    (cnMatrixGet (survive_kalman_tracker_process_noise (fun v : ℚ => v)
        { process_weight_jerk := 0, process_weight_acc := 0, process_weight_ang_velocity := 0,
          process_weight_vel := 0, process_weight_pos := 1, process_weight_rotation := 0,
          process_weight_acc_bias := 0, process_weight_gyro_bias := 0,
          initial_variance_imu_correction := 0, initial_acc_scale_variance := 0 }
        false 2 (cn_zero 16 1) (cn_zero 16 16)) 0 0 = 4
      ∧ cnMatrixGet (survive_kalman_tracker_process_noise (fun v : ℚ => v)
        { process_weight_jerk := 0, process_weight_acc := 0, process_weight_ang_velocity := 0,
          process_weight_vel := 0, process_weight_pos := 1, process_weight_rotation := 0,
          process_weight_acc_bias := 0, process_weight_gyro_bias := 0,
          initial_variance_imu_correction := 0, initial_acc_scale_variance := 0 }
        false 2 (cn_zero 16 1) (cn_zero 16 16)) 1 1 = 4
      ∧ cnMatrixGet (survive_kalman_tracker_process_noise (fun v : ℚ => v)
        { process_weight_jerk := 0, process_weight_acc := 0, process_weight_ang_velocity := 0,
          process_weight_vel := 0, process_weight_pos := 1, process_weight_rotation := 0,
          process_weight_acc_bias := 0, process_weight_gyro_bias := 0,
          initial_variance_imu_correction := 0, initial_acc_scale_variance := 0 }
        false 2 (cn_zero 16 1) (cn_zero 16 16)) 2 2 = 4)
      ∧ (4 : ℚ) ≠ 1 * 2 := by
  refine ⟨⟨?_, ?_, ?_⟩, by norm_num⟩ <;>
    (rw [process_noise_pos_diag _ _ _ _ _ _ _ (by decide) (by decide) (by decide)]; norm_num)

theorem lost_tracking_log {F : Type} [LinearOrderedField F] (env : Collaborators F) (w : World F)
    (allowLHReset : Bool) :
    (survive_kalman_tracker_lost_tracking env w allowLHReset).log = w.log := by
  unfold survive_kalman_tracker_lost_tracking
  simp only
  split_ifs <;> rfl

theorem check_valid_log {F : Type} [LinearOrderedField F] (env : Collaborators F) (w : World F) :
    (survive_kalman_tracker_check_valid env w).2.log = w.log := by
  unfold survive_kalman_tracker_check_valid
  simp only
  split_ifs
  · exact lost_tracking_log env w _
  · rfl

theorem hooks_append {F : Type} (c1 c2 : Prop) [Decidable c1] [Decidable c2] (l : List (Event F))
    (a b : Event F) (ha : a.filter_time = none) (hb : b.filter_time = none) :
    ∃ rest, (if c2 then (if c1 then l ++ [a] else l) ++ [b] else (if c1 then l ++ [a] else l))
        = l ++ rest ∧ ∀ e ∈ rest, e.filter_time = none := by
  by_cases h1 : c1 <;> by_cases h2 : c2
  · refine ⟨[a, b], by simp [h1, h2], ?_⟩
    intro e he
    simp only [List.mem_cons, List.mem_singleton, List.not_mem_nil, or_false] at he
    rcases he with rfl | rfl <;> assumption
  · refine ⟨[a], by simp [h1, h2], ?_⟩
    intro e he
    simp only [List.mem_singleton] at he
    subst he; assumption
  · refine ⟨[b], by simp [h1, h2], ?_⟩
    intro e he
    simp only [List.mem_singleton] at he
    subst he; assumption
  · exact ⟨[], by simp [h1, h2], by simp⟩

theorem report_state_reported_log {F : Type} [LinearOrderedField F] (env : Collaborators F)
    (pd : PoserData) (t : F) (pose : SurvivePose F) (var_diag : Nat → F) (p_threshold : F)
    (w : World F) :
    ∃ rest, (report_state_reported env pd t pose var_diag p_threshold w).log = w.log ++ rest
      ∧ ∀ e ∈ rest, e.filter_time = none := by
  unfold report_state_reported
  dsimp only
  exact hooks_append _ _ _ _ _ rfl rfl

theorem report_state_valid_log {F : Type} [LinearOrderedField F] (env : Collaborators F)
    (pd : PoserData) (t : F) (w : World F) :
    ∃ rest, (report_state_valid env pd t w).log = w.log ++ rest
      ∧ ∀ e ∈ rest, e.filter_time = none := by
  unfold report_state_valid
  simp only
  split_ifs
  · exact ⟨[], by simp [report_state_suppressed], by simp⟩
  · exact report_state_reported_log _ _ _ _ _ _ _

theorem report_state_log {F : Type} [LinearOrderedField F] (env : Collaborators F) (pd : PoserData)
    (w : World F) :
    ∃ rest, (survive_kalman_tracker_report_state env pd w).log = w.log ++ rest
      ∧ ∀ e ∈ rest, e.filter_time = none := by
  have hm : ∀ v : World F, (report_state_min_report_time v).log = v.log := by
    intro v
    unfold report_state_min_report_time
    split_ifs <;> rfl
  unfold survive_kalman_tracker_report_state
  simp only
  split_ifs
  · exact ⟨[], by simp, by simp⟩
  · exact ⟨[], by simp [hm], by simp⟩
  · exact ⟨[], by simp [hm, check_valid_log], by simp⟩
  · obtain ⟨rest, h1, h2⟩ := report_state_valid_log env pd
      (report_state_time pd { w with tracker := normalize_model env.sqrt w.tracker })
      (survive_kalman_tracker_check_valid env
        (report_state_min_report_time { w with tracker := normalize_model env.sqrt w.tracker })).2
    refine ⟨rest, ?_, h2⟩
    rw [h1, check_valid_log, hm]

theorem integrate_saved_light_gated {F : Type} [LinearOrderedField F] (env : Collaborators F)
    (pd : PoserData) (w : World F) (h0 : 0 < w.tracker.light_threshold_var)
    (hv : w.tracker.light_threshold_var
      < (survive_kalman_tracker_position_var2 w.tracker (fun _ => 0) 7).2) :
    survive_kalman_tracker_integrate_saved_light env pd w = w := by
  unfold survive_kalman_tracker_integrate_saved_light
  dsimp only
  by_cases hr : w.tracker.use_raw_obs = true
  · rw [if_pos hr]
  · rw [if_neg hr, if_pos]
    simp only [Bool.and_eq_true, decide_eq_true_eq]
    exact ⟨h0, hv⟩

/-- C5: when `light_threshold_var > 0` and the sum of the squares of the first seven diagonal
entries of `P` exceeds it, `survive_kalman_tracker_integrate_saved_light` returns the memory as
it was (no filter call, `x`, `P`, the filter time, `last_light_time` and the statistics
unchanged), and a call of `survive_kalman_tracker_integrate_light`, flush included, makes no
filter call and leaves `x`, `P`, the filter time, `last_light_time` and the statistics as they
were. -/
theorem light_variance_gate {F : Type} [LinearOrderedField F] (env : Collaborators F)
    (savedLight_len : Nat) (data : PoserDataLight F) (pd : PoserData) (w : World F)
    (h0 : 0 < w.tracker.light_threshold_var)
    (hv : w.tracker.light_threshold_var
      < (survive_kalman_tracker_position_var2 w.tracker (fun _ => 0) 7).2) :
    survive_kalman_tracker_integrate_saved_light env pd w = w
    ∧ (survive_kalman_tracker_integrate_light env savedLight_len data w).log = w.log
    ∧ (survive_kalman_tracker_integrate_light env savedLight_len data w).tracker.state
        = w.tracker.state
    ∧ (survive_kalman_tracker_integrate_light env savedLight_len data w).tracker.model
        = w.tracker.model
    ∧ (survive_kalman_tracker_integrate_light env savedLight_len data w).tracker.last_light_time
        = w.tracker.last_light_time
    ∧ (survive_kalman_tracker_integrate_light env savedLight_len data w).tracker.stats
        = w.tracker.stats := by
  refine ⟨integrate_saved_light_gated env pd w h0 hv, ?_⟩
  have key : ∀ v : World F, v.tracker.light_threshold_var = w.tracker.light_threshold_var →
      v.tracker.model = w.tracker.model →
      survive_kalman_tracker_integrate_saved_light env data.hdr v = v := by
    intro v h1 h2
    apply integrate_saved_light_gated
    · rw [h1]; exact h0
    · rw [h1]
      have : (survive_kalman_tracker_position_var2 v.tracker (fun _ => 0) 7).2
          = (survive_kalman_tracker_position_var2 w.tracker (fun _ => 0) 7).2 := by
        unfold survive_kalman_tracker_position_var2
        rw [h2]
      rw [this]; exact hv
  unfold survive_kalman_tracker_integrate_light
  dsimp only
  by_cases hs : (data.hdr.pt == PoserType.POSERDATA_SYNC
      || data.hdr.pt == PoserType.POSERDATA_SYNC_GEN2) = true
  · rw [if_pos hs, key w rfl rfl]
    split_ifs <;>
      first
      | exact ⟨rfl, rfl, rfl, rfl, rfl⟩
      | (rw [key] <;> first | exact ⟨rfl, rfl, rfl, rfl, rfl⟩ | rfl)
  · rw [if_neg hs]
    split_ifs <;>
      first
      | exact ⟨rfl, rfl, rfl, rfl, rfl⟩
      | (rw [key] <;> first | exact ⟨rfl, rfl, rfl, rfl, rfl⟩ | rfl)

/-- Witness for C5: `diag(P)[0:7] = (2, 2, 2, 0, 0, 0, 0)` and threshold 1. -/
theorem light_variance_gate_witness :
    survive_kalman_tracker_integrate_saved_light (Collaborators.inert (fun v : ℚ => v) 3)
        ⟨PoserType.POSERDATA_SYNC, 0⟩ light_gate_world = light_gate_world :=
  (light_variance_gate (Collaborators.inert (fun v : ℚ => v) 3) 32
    { hdr := ⟨PoserType.POSERDATA_SYNC, 0⟩, lh := 0, sensor_id := 0, angle := 0, axis := 0 }
    ⟨PoserType.POSERDATA_SYNC, 0⟩ light_gate_world
    (by norm_num [light_gate_world, example_world])
    (by
      norm_num [light_gate_world, example_world, survive_kalman_tracker_position_var2, normnd2,
        cnMatrixGet, cn_set_diag, List.range, List.range.loop])).1

theorem reinit_P_diag {F : Type} [LinearOrderedField F] (env : Collaborators F)
    (tracker : SurviveKalmanTracker F) (i : Nat) (hi : i < 7) :
    cnMatrixGet (survive_kalman_tracker_reinit env tracker).model.P i i
      = cnMatrixGet (env.cnkalman_state_reset tracker.model).P i i + 10 := by
  unfold survive_kalman_tracker_reinit
  dsimp only
  have h7 : List.range 7 = [0, 1, 2, 3, 4, 5, 6] := by decide
  have h4 : List.range 4 = [0, 1, 2, 3] := by decide
  rw [h7, h4]
  simp only [List.foldl_cons, List.foldl_nil, model_IMUCorrection_offset, model_AccScale_offset]
  split_ifs <;> interval_cases i <;> simp [cnMatrixSet, cnMatrixGet]

theorem reinit_state_identity {F : Type} [LinearOrderedField F] (env : Collaborators F)
    (tracker : SurviveKalmanTracker F) :
    (survive_kalman_tracker_reinit env tracker).state
      = { Pose := { Pos := ![0, 0, 0], Rot := ![1, 0, 0, 0] }
          Velocity := { Pos := ![0, 0, 0], AxisAngleRot := ![0, 0, 0] }
          Acc := ![0, 0, 0]
          AccScale := 1
          IMUCorrection := ![1, 0, 0, 0]
          AccBias := ![0, 0, 0]
          GyroBias := ![0, 0, 0] } := by
  unfold survive_kalman_tracker_reinit
  dsimp only [SurviveKalmanModel.zero, SurviveKalmanModel.ofFlat]
  congr 2
  · funext i; fin_cases i <;> rfl
  · funext i; fin_cases i <;> rfl

theorem lost_tracking_tracker {F : Type} [LinearOrderedField F] (env : Collaborators F)
    (w : World F) (allowLHReset : Bool) :
    (survive_kalman_tracker_lost_tracking env w allowLHReset).tracker
      = survive_kalman_tracker_reinit env { w.tracker with light_residuals_all := 0 } := by
  unfold survive_kalman_tracker_lost_tracking
  dsimp only
  split_ifs <;> rfl

/-- What `survive_kalman_tracker_reinit` leaves, for every prior tracker: the tracker of
`survive_kalman_tracker_lost_tracking` is the one it produces; the nominal state is the identity
(position 0, orientation `(1, 0, 0, 0)`, velocities and acceleration 0, `AccScale = 1`,
`IMUCorrection = (1, 0, 0, 0)`, biases 0); the statistics, `report_ignore_start_cnt`,
`last_light_time` and `light_residuals_all` are zero; and each of the first seven diagonal
entries that lies inside `P` is the value left by the filter's own reset plus 10, hence at least
10 when that value is non-negative. -/
theorem reinit_resets {F : Type} [LinearOrderedField F] (env : Collaborators F)
    (tracker : SurviveKalmanTracker F) (w : World F) (allowLHReset : Bool) :
    (survive_kalman_tracker_lost_tracking env w allowLHReset).tracker
        = survive_kalman_tracker_reinit env { w.tracker with light_residuals_all := 0 }
    ∧ (survive_kalman_tracker_reinit env tracker).state
        = { Pose := { Pos := ![0, 0, 0], Rot := ![1, 0, 0, 0] }
            Velocity := { Pos := ![0, 0, 0], AxisAngleRot := ![0, 0, 0] }
            Acc := ![0, 0, 0]
            AccScale := 1
            IMUCorrection := ![1, 0, 0, 0]
            AccBias := ![0, 0, 0]
            GyroBias := ![0, 0, 0] }
    ∧ (survive_kalman_tracker_reinit env tracker).stats = SurviveKalmanTracker_Stats.zero
    ∧ (survive_kalman_tracker_reinit env tracker).report_ignore_start_cnt = 0
    ∧ (survive_kalman_tracker_reinit env tracker).last_light_time = 0
    ∧ (survive_kalman_tracker_reinit env tracker).light_residuals_all = 0
    ∧ (∀ i : Fin 7, (i : Nat) < (survive_kalman_tracker_reinit env tracker).model.P.rows →
        cnMatrixGet (survive_kalman_tracker_reinit env tracker).model.P i i
          = cnMatrixGet (env.cnkalman_state_reset tracker.model).P i i + 10)
    ∧ (∀ i : Fin 7, (i : Nat) < (survive_kalman_tracker_reinit env tracker).model.P.rows →
        0 ≤ cnMatrixGet (env.cnkalman_state_reset tracker.model).P i i →
        10 ≤ cnMatrixGet (survive_kalman_tracker_reinit env tracker).model.P i i) := by
  refine ⟨lost_tracking_tracker env w allowLHReset, reinit_state_identity env tracker,
    rfl, rfl, rfl, rfl, fun i _ => reinit_P_diag env tracker i i.2, fun i _ h => ?_⟩
  rw [reinit_P_diag env tracker i i.2]
  linarith

theorem int_log_two_eq (x : ℚ) (e : ℤ) (h1 : (2 : ℚ) ^ e ≤ x) (h2 : x < 2 ^ (e + 1)) :
    Int.log 2 x = e := by
  have hx : 0 < x := lt_of_lt_of_le (by positivity) h1
  have a : e ≤ Int.log 2 x :=
    (Int.zpow_le_iff_le_log (by norm_num) hx).mp (by exact_mod_cast h1)
  have b : Int.log 2 x < e + 1 :=
    (Int.lt_zpow_iff_log_lt (by norm_num) hx).mp (by exact_mod_cast h2)
  omega

/-- The value of `round_to_precision` at a positive number that lies in the binade
`[2^e, 2^(e+1))` and whose scaled significand is nearer to the integer `n` than to any other. -/
theorem round_to_precision_eq (p : ℕ) (x : ℚ) (e n : ℤ) (hx : 0 < x)
    (h1 : (2 : ℚ) ^ e ≤ x) (h2 : x < 2 ^ (e + 1))
    (hn : |x / 2 ^ (e + 1 - p) - n| < 1 / 2) :
    round_to_precision p x = n * 2 ^ (e + 1 - p) := by
  unfold round_to_precision
  rw [if_neg hx.ne', abs_of_pos hx, int_log_two_eq x e h1 h2]
  dsimp only
  rw [if_neg (not_lt.mpr hx.le)]
  rw [abs_lt] at hn
  by_cases hk : (n : ℚ) ≤ x / 2 ^ (e + 1 - (p : ℤ))
  · have hf : ⌊x / (2 : ℚ) ^ (e + 1 - (p : ℤ))⌋ = n := by
      rw [Int.floor_eq_iff]
      constructor
      · exact hk
      · linarith [hn.2]
    rw [hf, if_pos (by linarith [hn.2])]
  · have hf : ⌊x / (2 : ℚ) ^ (e + 1 - (p : ℤ))⌋ = n - 1 := by
      rw [Int.floor_eq_iff]
      push_cast
      constructor
      · linarith [hn.1]
      · linarith [not_le.mp hk]
    rw [hf]
    push_cast
    rw [if_neg (by linarith [hn.1]), if_pos (by linarith [hn.1])]
    ring_nf

/-- The magnitude of `round_to_precision p x` is a multiple `n * 2^(e + 1 - p)` of the spacing of
the binade of `x`, with `n` at least the truncated scaled significand. -/
theorem round_to_precision_abs (p : ℕ) (x : ℚ) (hx : x ≠ 0) :
    ∃ n : ℤ, ⌊|x| / (2 : ℚ) ^ (Int.log 2 |x| + 1 - (p : ℤ))⌋ ≤ n
      ∧ |round_to_precision p x| = n * 2 ^ (Int.log 2 |x| + 1 - (p : ℤ)) := by
  have hu : (0 : ℚ) < 2 ^ (Int.log 2 |x| + 1 - (p : ℤ)) := by positivity
  have hk : 0 ≤ |x| / (2 : ℚ) ^ (Int.log 2 |x| + 1 - (p : ℤ)) :=
    div_nonneg (abs_nonneg x) hu.le
  have hf : 0 ≤ ⌊|x| / (2 : ℚ) ^ (Int.log 2 |x| + 1 - (p : ℤ))⌋ := Int.floor_nonneg.mpr hk
  have key : ∀ n : ℤ, ⌊|x| / (2 : ℚ) ^ (Int.log 2 |x| + 1 - (p : ℤ))⌋ ≤ n →
      |if x < 0 then -((n : ℚ) * 2 ^ (Int.log 2 |x| + 1 - (p : ℤ)))
        else (n : ℚ) * 2 ^ (Int.log 2 |x| + 1 - (p : ℤ))|
        = n * 2 ^ (Int.log 2 |x| + 1 - (p : ℤ)) := by
    intro n hn
    have hn0 : (0 : ℚ) ≤ n := by exact_mod_cast hf.trans hn
    have hnu : (0 : ℚ) ≤ n * 2 ^ (Int.log 2 |x| + 1 - (p : ℤ)) := mul_nonneg hn0 hu.le
    split_ifs
    · rw [abs_neg, abs_of_nonneg hnu]
    · rw [abs_of_nonneg hnu]
  unfold round_to_precision
  rw [if_neg hx]
  dsimp only
  by_cases h1 : |x| / (2 : ℚ) ^ (Int.log 2 |x| + 1 - (p : ℤ))
      - ⌊|x| / (2 : ℚ) ^ (Int.log 2 |x| + 1 - (p : ℤ))⌋ < 1 / 2
  · rw [if_pos h1]
    exact ⟨_, le_refl _, key _ (le_refl _)⟩
  · rw [if_neg h1]
    by_cases h2 : 1 / 2 < |x| / (2 : ℚ) ^ (Int.log 2 |x| + 1 - (p : ℤ))
        - ⌊|x| / (2 : ℚ) ^ (Int.log 2 |x| + 1 - (p : ℤ))⌋
    · rw [if_pos h2]
      exact ⟨_, by omega, key _ (by omega)⟩
    · rw [if_neg h2]
      by_cases h3 : ⌊|x| / (2 : ℚ) ^ (Int.log 2 |x| + 1 - (p : ℤ))⌋ % 2 = 0
      · rw [if_pos h3]
        exact ⟨_, le_refl _, key _ (le_refl _)⟩
      · rw [if_neg h3]
        exact ⟨_, by omega, key _ (by omega)⟩

/-- The conversion to single precision brings no magnitude above 20 below 20. -/
theorem binary32_far (x : ℚ) (hx : 20 < |x|) : 20 ≤ |binary32 x| := by
  have hx0 : x ≠ 0 := by
    intro h
    rw [h, abs_zero] at hx
    norm_num at hx
  have hpos : 0 < |x| := abs_pos.mpr hx0
  obtain ⟨n, hn, he⟩ := round_to_precision_abs 24 x hx0
  unfold binary32
  rw [he]
  have hlo : (2 : ℚ) ^ Int.log 2 |x| ≤ |x| := by
    exact_mod_cast Int.zpow_log_le_self (by norm_num) hpos
  have h4 : (4 : ℤ) ≤ Int.log 2 |x| :=
    (Int.zpow_le_iff_le_log (by norm_num) hpos).mp (by norm_num; linarith)
  have e : (Int.log 2 |x| + 1 - ((24 : ℕ) : ℤ)) = Int.log 2 |x| - 23 := by
    push_cast
    ring
  rw [e] at hn ⊢
  have hu : (0 : ℚ) < 2 ^ (Int.log 2 |x| - 23) := by positivity
  by_cases h5 : Int.log 2 |x| = 4
  · rw [h5] at hn ⊢
    have hf : (10485760 : ℤ) ≤ ⌊|x| / (2 : ℚ) ^ ((4 : ℤ) - 23)⌋ := by
      rw [Int.le_floor]
      norm_num
      linarith
    have hq : ((10485760 : ℤ) : ℚ) ≤ n := by exact_mod_cast hf.trans hn
    norm_num at hq ⊢
    linarith
  · have h5' : (5 : ℤ) ≤ Int.log 2 |x| := by omega
    have hf : (8388608 : ℤ) ≤ ⌊|x| / (2 : ℚ) ^ (Int.log 2 |x| - 23)⌋ := by
      rw [Int.le_floor, le_div_iff₀ hu, zpow_sub₀ (by norm_num)]
      have h23 : ((2 : ℚ) ^ (23 : ℤ)) = 8388608 := by norm_num
      rw [h23]
      push_cast
      have hp : (0 : ℚ) < 2 ^ Int.log 2 |x| := by positivity
      have : (8388608 : ℚ) * (2 ^ Int.log 2 |x| / 8388608) = 2 ^ Int.log 2 |x| := by
        field_simp
      rw [this]
      exact hlo
    have hq : ((8388608 : ℤ) : ℚ) ≤ n := by exact_mod_cast hf.trans hn
    push_cast at hq
    rw [zpow_sub₀ (by norm_num)]
    have h23 : ((2 : ℚ) ^ (23 : ℤ)) = 8388608 := by norm_num
    rw [h23]
    have h32 : (32 : ℚ) ≤ 2 ^ Int.log 2 |x| := by
      have := zpow_le_zpow_right₀ (by norm_num : (1 : ℚ) ≤ 2) h5'
      norm_num at this
      exact this
    have e2 : (n : ℚ) * (2 ^ Int.log 2 |x| / 8388608)
        = n / 8388608 * 2 ^ Int.log 2 |x| := by ring
    rw [e2]
    have h1 : (1 : ℚ) ≤ n / 8388608 := by
      rw [le_div_iff₀ (by norm_num)]
      linarith
    nlinarith

/-- The single-precision number nearest to `20 - 2^-22` is 20. -/
theorem binary32_near_twenty : binary32 (20 - 1 / 4194304) = 20 := by
  unfold binary32
  rw [round_to_precision_eq 24 _ 4 10485760 (by norm_num) (by norm_num) (by norm_num)
    (by norm_num [abs_lt])]
  norm_num

theorem check_valid_eq {F : Type} [LinearOrderedField F] (env : Collaborators F) (w : World F) :
    survive_kalman_tracker_check_valid env w
      = if (w.tracker.light_error_threshold ≤ 0
            ∨ w.tracker.light_residuals_all < w.tracker.light_error_threshold
            ∨ (w.objmem w.tracker.so).stationary_time < (w.objmem w.tracker.so).timebase_hz / 10)
          ∧ |env.to_float (w.tracker.state.Pose.Pos 0)| < 20
          ∧ |env.to_float (w.tracker.state.Pose.Pos 1)| < 20
          ∧ |env.to_float (w.tracker.state.Pose.Pos 2)| < 20 then (true, w)
        else (false, survive_kalman_tracker_lost_tracking env w w.tracker.use_error_for_lh_pos) := by
  have h3 : List.finRange 3 = [0, 1, 2] := by decide
  unfold survive_kalman_tracker_check_valid
  dsimp only
  rw [h3]
  simp only [List.foldl_cons, List.foldl_nil]
  by_cases h : (w.tracker.light_error_threshold ≤ 0
            ∨ w.tracker.light_residuals_all < w.tracker.light_error_threshold
            ∨ (w.objmem w.tracker.so).stationary_time < (w.objmem w.tracker.so).timebase_hz / 10)
          ∧ |env.to_float (w.tracker.state.Pose.Pos 0)| < 20
          ∧ |env.to_float (w.tracker.state.Pose.Pos 1)| < 20
          ∧ |env.to_float (w.tracker.state.Pose.Pos 2)| < 20
  · rw [if_pos h, if_neg]
    simp only [Bool.not_eq_true', Bool.and_eq_false_iff, Bool.or_eq_false_iff,
      decide_eq_false_iff_not, not_or, not_and]
    simp only [Bool.and_eq_true, Bool.or_eq_true, decide_eq_true_eq, Bool.not_eq_true] at *
    tauto
  · rw [if_neg h, if_pos]
    simp only [Bool.not_eq_true', Bool.and_eq_false_iff, Bool.or_eq_false_iff,
      decide_eq_false_iff_not]
    tauto

/-- The outcome of `survive_kalman_tracker_check_valid` when some position component, narrowed
to single precision, has magnitude 20 or more: false, with the memory of
`survive_kalman_tracker_lost_tracking`, whose tracker is the one `survive_kalman_tracker_reinit`
produces, with the identity pose. -/
theorem check_valid_far {F : Type} [LinearOrderedField F] (env : Collaborators F)
    (w : World F) (hfar : ∃ i, 20 ≤ |env.to_float (w.tracker.state.Pose.Pos i)|) :
    (survive_kalman_tracker_check_valid env w).1 = false
      ∧ (survive_kalman_tracker_check_valid env w).2
          = survive_kalman_tracker_lost_tracking env w w.tracker.use_error_for_lh_pos
      ∧ (survive_kalman_tracker_check_valid env w).2.tracker
          = survive_kalman_tracker_reinit env { w.tracker with light_residuals_all := 0 }
      ∧ (survive_kalman_tracker_check_valid env w).2.tracker.state.Pose
          = { Pos := ![0, 0, 0], Rot := ![1, 0, 0, 0] } := by
  have hne : ¬ ((w.tracker.light_error_threshold ≤ 0
        ∨ w.tracker.light_residuals_all < w.tracker.light_error_threshold
        ∨ (w.objmem w.tracker.so).stationary_time < (w.objmem w.tracker.so).timebase_hz / 10)
      ∧ |env.to_float (w.tracker.state.Pose.Pos 0)| < 20
      ∧ |env.to_float (w.tracker.state.Pose.Pos 1)| < 20
      ∧ |env.to_float (w.tracker.state.Pose.Pos 2)| < 20) := by
    rintro ⟨-, h0, h1, h2⟩
    obtain ⟨i, hi⟩ := hfar
    fin_cases i
    · exact absurd h0 (not_lt.mpr hi)
    · exact absurd h1 (not_lt.mpr hi)
    · exact absurd h2 (not_lt.mpr hi)
  rw [check_valid_eq, if_neg hne]
  refine ⟨rfl, rfl, lost_tracking_tracker env w _, ?_⟩
  show (survive_kalman_tracker_lost_tracking env w w.tracker.use_error_for_lh_pos).tracker.state.Pose
    = _
  rw [lost_tracking_tracker, reinit_state_identity]

/-- C7 (amended): for a tracker with `light_error_threshold > 0` whose `light_residuals_all`
exceeds the threshold: when the stationary time of the object is at least `timebase_hz / 10`
ticks (integer division), `survive_kalman_tracker_check_valid` returns false and leaves the memory
that `survive_kalman_tracker_lost_tracking` produces; when the stationary time is below
`timebase_hz / 10` and every position component, narrowed to single precision as the test
`fabsf((float)x) < 20` does, has magnitude below 20, it returns true and changes nothing. -/
theorem check_valid_residual {F : Type} [LinearOrderedField F] (env : Collaborators F)
    (w : World F) (hthr : 0 < w.tracker.light_error_threshold)
    (hres : w.tracker.light_error_threshold < w.tracker.light_residuals_all) :
    ((w.objmem w.tracker.so).timebase_hz / 10 ≤ (w.objmem w.tracker.so).stationary_time →
      survive_kalman_tracker_check_valid env w
        = (false, survive_kalman_tracker_lost_tracking env w w.tracker.use_error_for_lh_pos))
    ∧ ((w.objmem w.tracker.so).stationary_time < (w.objmem w.tracker.so).timebase_hz / 10 →
      (∀ i, |env.to_float (w.tracker.state.Pose.Pos i)| < 20) →
      survive_kalman_tracker_check_valid env w = (true, w)) := by
  refine ⟨fun hst => ?_, fun hst hpos => ?_⟩
  · rw [check_valid_eq, if_neg]
    rintro ⟨h | h | h, -⟩
    · exact absurd hthr (not_lt.mpr h)
    · exact absurd hres (not_lt.mpr h.le)
    · exact absurd hst (not_le.mpr h)
  · rw [check_valid_eq, if_pos]
    exact ⟨Or.inr (Or.inr hst), hpos 0, hpos 1, hpos 2⟩

/-- Witness for C7: threshold 1, residual average 2, a 1 kHz time base; first with the object
stationary for 5000 ticks, then with an object that has not been stationary. -/
theorem check_valid_residual_witness :
    survive_kalman_tracker_check_valid (Collaborators.inert (fun v : ℚ => v) 3)
        residual_stationary_world
      = (false, survive_kalman_tracker_lost_tracking (Collaborators.inert (fun v : ℚ => v) 3)
          residual_stationary_world residual_stationary_world.tracker.use_error_for_lh_pos)
    ∧ survive_kalman_tracker_check_valid (Collaborators.inert (fun v : ℚ => v) 3) residual_world
      = (true, residual_world) :=
  ⟨(check_valid_residual (Collaborators.inert (fun v : ℚ => v) 3) residual_stationary_world
      (by norm_num [residual_stationary_world, residual_world, example_world])
      (by norm_num [residual_stationary_world, residual_world, example_world])).1
      (by norm_num [residual_stationary_world, residual_world, example_world, example_object]),
   (check_valid_residual (Collaborators.inert (fun v : ℚ => v) 3) residual_world
      (by norm_num [residual_world, example_world])
      (by norm_num [residual_world, example_world])).2
      (by norm_num [residual_world, example_world, example_object])
      (by
        intro i
        fin_cases i <;>
          norm_num [residual_world, example_world, default_config, SurviveKalmanModel.zero,
            SurviveKalmanModel.ofFlat, Collaborators.inert])⟩

/-- C7 as stated fails: with `light_error_threshold = 1`, a residual average of 2 and an object
that is not stationary (stationary time 0, below one tenth of a second of time base), the
function `survive_kalman_tracker_check_valid` returns true and resets nothing. -/
theorem check_valid_not_stationary_keeps :
    (0 : ℚ) < residual_world.tracker.light_error_threshold
    ∧ residual_world.tracker.light_error_threshold < residual_world.tracker.light_residuals_all
    ∧ (residual_world.objmem residual_world.tracker.so).stationary_time
        < (residual_world.objmem residual_world.tracker.so).timebase_hz / 10
    ∧ survive_kalman_tracker_check_valid (Collaborators.inert (fun v : ℚ => v) 3) residual_world
        = (true, residual_world) := by
  refine ⟨by norm_num [residual_world, example_world], by norm_num [residual_world, example_world],
    by norm_num [residual_world, example_world, example_object], ?_⟩
  rw [check_valid_eq, if_pos]
  refine ⟨Or.inr (Or.inr (by norm_num [residual_world, example_world, example_object])), ?_, ?_, ?_⟩ <;>
    norm_num [residual_world, example_world, default_config, SurviveKalmanModel.zero,
      SurviveKalmanModel.ofFlat, Collaborators.inert]

/-- C8 (amended): when some position component has magnitude above 20 and the conversion to
single precision brings no magnitude above 20 below 20 (as rounding does), or when some position
component narrowed to single precision has magnitude 20 or more,
`survive_kalman_tracker_check_valid` returns false whatever the threshold, the residuals and the
stationary time are, it leaves the memory of `survive_kalman_tracker_lost_tracking`, whose
tracker is the one `survive_kalman_tracker_reinit` produces, with the identity pose; when
`light_error_threshold <= 0` and all three position components, narrowed to single precision as
the test `fabsf((float)x) < 20` does, have magnitude below 20, it returns true and changes
nothing. -/
theorem check_valid_position {F : Type} [LinearOrderedField F] (env : Collaborators F)
    (w : World F) :
    ((∀ x : F, 20 < |x| → 20 ≤ |env.to_float x|) →
      (∃ i, 20 < |w.tracker.state.Pose.Pos i|) →
      (survive_kalman_tracker_check_valid env w).1 = false
      ∧ (survive_kalman_tracker_check_valid env w).2
          = survive_kalman_tracker_lost_tracking env w w.tracker.use_error_for_lh_pos
      ∧ (survive_kalman_tracker_check_valid env w).2.tracker
          = survive_kalman_tracker_reinit env { w.tracker with light_residuals_all := 0 }
      ∧ (survive_kalman_tracker_check_valid env w).2.tracker.state.Pose
          = { Pos := ![0, 0, 0], Rot := ![1, 0, 0, 0] })
    ∧ ((∃ i, 20 ≤ |env.to_float (w.tracker.state.Pose.Pos i)|) →
      (survive_kalman_tracker_check_valid env w).1 = false
      ∧ (survive_kalman_tracker_check_valid env w).2
          = survive_kalman_tracker_lost_tracking env w w.tracker.use_error_for_lh_pos
      ∧ (survive_kalman_tracker_check_valid env w).2.tracker
          = survive_kalman_tracker_reinit env { w.tracker with light_residuals_all := 0 }
      ∧ (survive_kalman_tracker_check_valid env w).2.tracker.state.Pose
          = { Pos := ![0, 0, 0], Rot := ![1, 0, 0, 0] })
    ∧ (w.tracker.light_error_threshold ≤ 0 →
      (∀ i, |env.to_float (w.tracker.state.Pose.Pos i)| < 20) →
      survive_kalman_tracker_check_valid env w = (true, w)) := by
  refine ⟨fun hfl hfar => ?_, fun hfar => check_valid_far env w hfar, fun hthr hpos => ?_⟩
  · obtain ⟨i, hi⟩ := hfar
    exact check_valid_far env w ⟨i, hfl _ hi⟩
  · rw [check_valid_eq, if_pos]
    exact ⟨Or.inl hthr, hpos 0, hpos 1, hpos 2⟩

/-- Witness for C8, with the conversion to single precision `binary32`: a tracker at the position
`(21, 0, 0)`, and the default configuration (`light_error_threshold = -1`) at the position
`(0, 0, 0)`. -/
theorem check_valid_position_witness :
    (survive_kalman_tracker_check_valid Collaborators.narrowing far_world).1 = false
    ∧ survive_kalman_tracker_check_valid Collaborators.narrowing
        (example_world default_config) = (true, example_world default_config) :=
  ⟨((check_valid_position Collaborators.narrowing far_world).1
      (fun x hx => binary32_far x hx)
      ⟨0, by norm_num [far_world, example_world]⟩).1,
   (check_valid_position Collaborators.narrowing (example_world default_config)).2.2
      (by norm_num [example_world, default_config])
      (by
        intro i
        fin_cases i <;>
          norm_num [example_world, default_config, SurviveKalmanModel.zero,
            SurviveKalmanModel.ofFlat, Collaborators.narrowing, binary32,
            round_to_precision])⟩

/-- C8 as stated fails: with `light_error_threshold = -1` and the position `(0, 20 - 2^-22, 0)`,
whose three components have magnitude below 20, the conversion to single precision takes the
second component to 20, and `survive_kalman_tracker_check_valid` returns false and resets the
tracker. -/
theorem check_valid_resets_below_twenty :
    near_twenty_world.tracker.light_error_threshold ≤ 0
    ∧ |near_twenty_world.tracker.state.Pose.Pos 0| < 20
    ∧ |near_twenty_world.tracker.state.Pose.Pos 1| < 20
    ∧ |near_twenty_world.tracker.state.Pose.Pos 2| < 20
    ∧ binary32 (near_twenty_world.tracker.state.Pose.Pos 1) = 20
    ∧ survive_kalman_tracker_check_valid Collaborators.narrowing near_twenty_world
        = (false, survive_kalman_tracker_lost_tracking Collaborators.narrowing near_twenty_world
            near_twenty_world.tracker.use_error_for_lh_pos) := by
  have h1 : near_twenty_world.tracker.state.Pose.Pos 1 = 20 - 1 / 4194304 := rfl
  have hb : binary32 (near_twenty_world.tracker.state.Pose.Pos 1) = 20 := by
    rw [h1]
    exact binary32_near_twenty
  refine ⟨by norm_num [near_twenty_world, example_world, default_config],
    by norm_num [near_twenty_world, example_world, abs_lt],
    by norm_num [near_twenty_world, example_world, abs_lt],
    by norm_num [near_twenty_world, example_world, abs_lt], hb, ?_⟩
  rw [check_valid_eq, if_neg]
  rintro ⟨-, -, h, -⟩
  have h' : |binary32 (near_twenty_world.tracker.state.Pose.Pos 1)| < 20 := h
  rw [hb] at h'
  norm_num at h'

theorem quatnormalize_unit {F : Type} [LinearOrderedField F] (sqrt : F → F)
    (hs : ∀ x, 0 ≤ x → 0 ≤ sqrt x ∧ sqrt x * sqrt x = x) (q : Fin 4 → F)
    (hq : ∃ i, q i ≠ 0) :
    quatmagnitude sqrt (quatnormalize sqrt q) = 1 := by
  have hS0 : 0 ≤ q 0 * q 0 + q 1 * q 1 + q 2 * q 2 + q 3 * q 3 := by
    nlinarith [mul_self_nonneg (q 0), mul_self_nonneg (q 1), mul_self_nonneg (q 2),
      mul_self_nonneg (q 3)]
  have hSpos : 0 < q 0 * q 0 + q 1 * q 1 + q 2 * q 2 + q 3 * q 3 := by
    obtain ⟨i, hi⟩ := hq
    have hi2 : 0 < q i * q i := mul_self_pos.mpr hi
    have hcases : i = 0 ∨ i = 1 ∨ i = 2 ∨ i = 3 := by fin_cases i <;> simp
    rcases hcases with rfl | rfl | rfl | rfl <;>
      nlinarith [mul_self_nonneg (q 0), mul_self_nonneg (q 1), mul_self_nonneg (q 2),
        mul_self_nonneg (q 3)]
  obtain ⟨hn0, hnn⟩ := hs _ hS0
  have hne : sqrt (q 0 * q 0 + q 1 * q 1 + q 2 * q 2 + q 3 * q 3) ≠ 0 := by
    intro h
    rw [h] at hnn
    linarith
  have h1 : sqrt 1 = 1 := by
    obtain ⟨a, b⟩ := hs 1 zero_le_one
    nlinarith
  have hSne : q 0 * q 0 + q 1 * q 1 + q 2 * q 2 + q 3 * q 3 ≠ 0 := ne_of_gt hSpos
  have hsum : ∀ n : F, n ≠ 0 → n * n = q 0 * q 0 + q 1 * q 1 + q 2 * q 2 + q 3 * q 3 →
      q 0 * (1 / n) * (q 0 * (1 / n)) + q 1 * (1 / n) * (q 1 * (1 / n))
        + q 2 * (1 / n) * (q 2 * (1 / n)) + q 3 * (1 / n) * (q 3 * (1 / n)) = 1 := by
    intro n hn hnn'
    have e : q 0 * (1 / n) * (q 0 * (1 / n)) + q 1 * (1 / n) * (q 1 * (1 / n))
        + q 2 * (1 / n) * (q 2 * (1 / n)) + q 3 * (1 / n) * (q 3 * (1 / n))
        = (q 0 * q 0 + q 1 * q 1 + q 2 * q 2 + q 3 * q 3) / (n * n) := by
      field_simp
    rw [e, hnn', div_self hSne]
  unfold quatnormalize quatmagnitude
  simp only [if_neg hne]
  rw [hsum _ hne hnn, h1]

theorem linmath_enforce_range_mem {F : Type} [LinearOrderedField F] (v mn mx : F) (h : mn ≤ mx) :
    mn ≤ linmath_enforce_range v mn mx ∧ linmath_enforce_range v mn mx ≤ mx := by
  unfold linmath_enforce_range
  split_ifs with h1 h2
  · exact ⟨le_refl _, h⟩
  · exact ⟨h, le_refl _⟩
  · exact ⟨not_lt.mp h1, not_lt.mp h2⟩

/-- C9: with a square root that is exact on non-negative numbers and non-zero orientation and
IMU-correction quaternions, after `normalize_model` both quaternions have norm 1, `AccScale`
lies in `[0.95, 1.05]`, every `AccBias` and `GyroBias` component lies in `[-0.1, 0.1]`, and
position, velocity and acceleration are unchanged. -/
theorem normalize_model_invariants {F : Type} [LinearOrderedField F] (sqrt : F → F)
    (hs : ∀ x, 0 ≤ x → 0 ≤ sqrt x ∧ sqrt x * sqrt x = x) (pTracker : SurviveKalmanTracker F)
    (hrot : ∃ i, pTracker.state.Pose.Rot i ≠ 0) (himu : ∃ i, pTracker.state.IMUCorrection i ≠ 0) :
    quatmagnitude sqrt (normalize_model sqrt pTracker).state.Pose.Rot = 1
    ∧ quatmagnitude sqrt (normalize_model sqrt pTracker).state.IMUCorrection = 1
    ∧ (95 / 100 ≤ (normalize_model sqrt pTracker).state.AccScale
        ∧ (normalize_model sqrt pTracker).state.AccScale ≤ 105 / 100)
    ∧ (∀ i, -(1 / 10) ≤ (normalize_model sqrt pTracker).state.AccBias i
        ∧ (normalize_model sqrt pTracker).state.AccBias i ≤ 1 / 10)
    ∧ (∀ i, -(1 / 10) ≤ (normalize_model sqrt pTracker).state.GyroBias i
        ∧ (normalize_model sqrt pTracker).state.GyroBias i ≤ 1 / 10)
    ∧ (normalize_model sqrt pTracker).state.Pose.Pos = pTracker.state.Pose.Pos
    ∧ (normalize_model sqrt pTracker).state.Velocity = pTracker.state.Velocity
    ∧ (normalize_model sqrt pTracker).state.Acc = pTracker.state.Acc := by
  refine ⟨quatnormalize_unit sqrt hs _ hrot, quatnormalize_unit sqrt hs _ himu,
    linmath_enforce_range_mem _ _ _ (by norm_num), fun i => linmath_enforce_range_mem _ _ _ (by norm_num),
    fun i => linmath_enforce_range_mem _ _ _ (by norm_num), rfl, rfl, rfl⟩

/-- Witness for C9: over the real numbers with the real square root, orientation
`(2, 0, 0, 0)` and IMU correction `(0, 3, 0, 0)`. -/
theorem normalize_model_invariants_witness :
    quatmagnitude Real.sqrt (normalize_model Real.sqrt
      { (default_config : SurviveKalmanTracker ℝ) with
        state := { (SurviveKalmanModel.zero : SurviveKalmanModel ℝ) with
          Pose := { Pos := ![0, 0, 0], Rot := ![2, 0, 0, 0] }
          IMUCorrection := ![0, 3, 0, 0] } }).state.Pose.Rot = 1 :=
  (normalize_model_invariants Real.sqrt
    (fun x hx => ⟨Real.sqrt_nonneg x, Real.mul_self_sqrt hx⟩)
    { (default_config : SurviveKalmanTracker ℝ) with
      state := { (SurviveKalmanModel.zero : SurviveKalmanModel ℝ) with
        Pose := { Pos := ![0, 0, 0], Rot := ![2, 0, 0, 0] }
        IMUCorrection := ![0, 3, 0, 0] } }
    ⟨0, by norm_num⟩ ⟨1, by norm_num⟩).1

theorem integrate_imu_zvu_log {F : Type} [LinearOrderedField F] (env : Collaborators F)
    (time : F) (isStationary : Bool) (w : World F) :
    (integrate_imu_zvu env time isStationary w).log
      = if integrate_imu_zvu_var w.tracker isStationary
            (decide (time - w.tracker.last_light_time > 1 / 10)) ≥ 0 then
          w.log ++ [Event.predict_update_state time
            (cn_zero (integrate_imu_zvu_H (F := F) w.tracker.model.state_cnt
              (decide (time - w.tracker.last_light_time > 1 / 10) && !isStationary)).rows 1)
            (integrate_imu_zvu_H w.tracker.model.state_cnt
              (decide (time - w.tracker.last_light_time > 1 / 10) && !isStationary))
            (cn_set_constant (cn_zero (integrate_imu_zvu_H (F := F) w.tracker.model.state_cnt
              (decide (time - w.tracker.last_light_time > 1 / 10) && !isStationary)).rows 1)
              (integrate_imu_zvu_var w.tracker isStationary
                (decide (time - w.tracker.last_light_time > 1 / 10))))]
        else w.log := by
  unfold integrate_imu_zvu
  dsimp only
  split_ifs <;> rfl

theorem integrate_imu_meas_log {F : Type} [LinearOrderedField F] (env : Collaborators F)
    (data : PoserDataIMU F) (time norm : F) (isStationary : Bool) (w : World F) :
    (integrate_imu_meas env data time norm isStationary w).log
      = if (decide (w.tracker.gyro_var ≥ 0) || decide (w.tracker.acc_var ≥ 0)) = true then
          w.log ++ [Event.meas_model_predict_update MeasModel.imu time (integrate_imu_Z data)
            (some (integrate_imu_R w.tracker norm))]
        else w.log := by
  unfold integrate_imu_meas
  dsimp only
  by_cases h : (decide (w.tracker.gyro_var ≥ 0) || decide (w.tracker.acc_var ≥ 0)) = true
  · rw [if_pos h, if_pos h]
  · rw [if_neg h, if_neg h]

theorem integrate_imu_accepted {F : Type} [LinearOrderedField F] (env : Collaborators F)
    (data : PoserDataIMU F) (w : World F) (hraw : w.tracker.use_raw_obs = false)
    (ht : w.tracker.model.t ≠ 0)
    (hcold : ¬ (w.tracker.stats.obs_count < 16 ∧ w.tracker.obs_pos_var > -1))
    (hlate : ¬ ((data.hdr.timecode : F) / ((w.objmem w.tracker.so).timebase_hz : F)
      - w.tracker.model.t < -(1 / 100))) :
    survive_kalman_tracker_integrate_imu env data w
      = survive_kalman_tracker_report_state env data.hdr
          (integrate_imu_meas env data
            ((data.hdr.timecode : F) / ((w.objmem w.tracker.so).timebase_hz : F))
            (norm3d env.sqrt data.accel)
            (decide ((w.objmem w.tracker.so).stationary_time > 4800000))
            (integrate_imu_zvu env
              ((data.hdr.timecode : F) / ((w.objmem w.tracker.so).timebase_hz : F))
              (decide ((w.objmem w.tracker.so).stationary_time > 4800000)) w)) := by
  unfold survive_kalman_tracker_integrate_imu
  dsimp only
  rw [hraw, if_neg ht, if_neg hlate]
  simp only [Bool.false_eq_true, if_false]
  rw [if_neg]
  simpa using hcold

theorem append_cons_append {α : Type} (l : List α) (e : α) (r1 r2 : List α) :
    l ++ [e] ++ r1 ++ r2 = l ++ e :: (r1 ++ r2) := by
  simp

theorem append_cons_one {α : Type} (l : List α) (e : α) (r : List α) :
    l ++ [e] ++ r = l ++ e :: r := by
  simp

theorem integrate_imu_accepted_zvu_log {F : Type} [LinearOrderedField F] (env : Collaborators F)
    (data : PoserDataIMU F) (w : World F) (hraw : w.tracker.use_raw_obs = false)
    (ht : w.tracker.model.t ≠ 0)
    (hcold : ¬ (w.tracker.stats.obs_count < 16 ∧ w.tracker.obs_pos_var > -1))
    (hlate : ¬ ((data.hdr.timecode : F) / ((w.objmem w.tracker.so).timebase_hz : F)
      - w.tracker.model.t < -(1 / 100)))
    (hzvu : integrate_imu_zvu_var w.tracker
      (decide ((w.objmem w.tracker.so).stationary_time > 4800000))
      (decide ((data.hdr.timecode : F) / ((w.objmem w.tracker.so).timebase_hz : F)
        - w.tracker.last_light_time > 1 / 10)) ≥ 0) :
    ∃ Z H R rest, (survive_kalman_tracker_integrate_imu env data w).log
      = w.log ++ Event.predict_update_state
          ((data.hdr.timecode : F) / ((w.objmem w.tracker.so).timebase_hz : F)) Z H R :: rest := by
  rw [integrate_imu_accepted env data w hraw ht hcold hlate]
  obtain ⟨rest, h1, -⟩ := report_state_log env data.hdr
    (integrate_imu_meas env data
      ((data.hdr.timecode : F) / ((w.objmem w.tracker.so).timebase_hz : F))
      (norm3d env.sqrt data.accel)
      (decide ((w.objmem w.tracker.so).stationary_time > 4800000))
      (integrate_imu_zvu env
        ((data.hdr.timecode : F) / ((w.objmem w.tracker.so).timebase_hz : F))
        (decide ((w.objmem w.tracker.so).stationary_time > 4800000)) w))
  rw [h1, integrate_imu_meas_log, integrate_imu_zvu_log, if_pos hzvu]
  split_ifs
  · exact ⟨_, _, _, _, append_cons_append _ _ _ _⟩
  · exact ⟨_, _, _, _, append_cons_one _ _ _⟩

/-- C10: with filter time 10 s, `survive_kalman_tracker_integrate_imu` takes an inertial sample
of time 9.995 s (5 ms in the past, inside the 10 ms tolerance) and calls the filter
(`cnkalman_predict_update_state`, the zero-velocity update) with the target time 9.995, which
is below the filter time. -/
theorem integrate_imu_backdated :
    (9995 : ℚ) / 1000 < imu_late_world.tracker.model.t
    ∧ ∃ Z H R rest,
        (survive_kalman_tracker_integrate_imu (Collaborators.inert (fun v : ℚ => v) 3)
          imu_late_packet imu_late_world).log
          = Event.predict_update_state (9995 / 1000) Z H R :: rest := by
  refine ⟨by norm_num [imu_late_world, example_world], ?_⟩
  obtain ⟨Z, H, R, rest, h⟩ := integrate_imu_accepted_zvu_log
    (Collaborators.inert (fun v : ℚ => v) 3) imu_late_packet imu_late_world rfl
    (by norm_num [imu_late_world, example_world])
    (by norm_num [imu_late_world, example_world])
    (by norm_num [imu_late_world, example_world, example_object, imu_late_packet])
    (by
      norm_num [imu_late_world, example_world, example_object, imu_late_packet,
        integrate_imu_zvu_var, default_config])
  refine ⟨Z, H, R, rest, ?_⟩
  rw [h]
  norm_num [imu_late_world, example_world, example_object, imu_late_packet]

theorem init_state_cnt_ge {F : Type} [LinearOrderedField F] (tracker : SurviveKalmanTracker F) :
    7 ≤ init_state_cnt tracker := by
  unfold init_state_cnt
  dsimp only [SURVIVE_MODEL_MAX_STATE_CNT]
  split_ifs <;> norm_num

/-- C11 (amended): in error-state mode, for every configuration whose retained state does not
reach the IMU-correction quaternion (state count at most 17, as with the default tuning),
`survive_kalman_tracker_init` creates the filter with the state dimension `state_cnt` (at least
7) and the error-state dimension `state_cnt - 1`. -/
theorem init_error_state_dim {F : Type} [LinearOrderedField F] (tracker : SurviveKalmanTracker F)
    (herr : tracker.use_error_state = true) (hcnt : init_state_cnt tracker ≤ 17) :
    (init_filter tracker).state_cnt = init_state_cnt tracker
    ∧ 7 ≤ (init_filter tracker).state_cnt
    ∧ (init_filter tracker).error_state_size = (init_filter tracker).state_cnt - 1
    ∧ (init_filter tracker).error_state_size + 1 = (init_filter tracker).state_cnt := by
  have h7 := init_state_cnt_ge tracker
  unfold init_filter
  dsimp only
  rw [herr, if_pos rfl]
  dsimp only [cnkalman_error_state_init]
  exact ⟨rfl, h7, rfl, by omega⟩

/-- Witness for C11: the default configuration, whose state count is 16. -/
theorem init_error_state_dim_witness :
    (init_filter (default_config : SurviveKalmanTracker ℚ)).error_state_size
      = (init_filter (default_config : SurviveKalmanTracker ℚ)).state_cnt - 1 :=
  (init_error_state_dim (default_config : SurviveKalmanTracker ℚ) rfl
    (by norm_num [init_state_cnt, default_config, SURVIVE_MODEL_MAX_STATE_CNT])).2.2.1

/-- C11 as stated fails: with the default configuration (error-state mode) the filter is
created with state dimension 16 and error-state dimension 15, which is not 16 - 2. -/
theorem init_error_state_dim_default :
    (default_config : SurviveKalmanTracker ℚ).use_error_state = true
    ∧ (init_filter (default_config : SurviveKalmanTracker ℚ)).state_cnt = 16
    ∧ (init_filter (default_config : SurviveKalmanTracker ℚ)).error_state_size = 15
    ∧ (init_filter (default_config : SurviveKalmanTracker ℚ)).error_state_size
        ≠ (init_filter (default_config : SurviveKalmanTracker ℚ)).state_cnt - 2 := by
  have h : init_state_cnt (default_config : SurviveKalmanTracker ℚ) = 16 := by
    norm_num [init_state_cnt, default_config, SURVIVE_MODEL_MAX_STATE_CNT]
  have e : init_filter (default_config : SurviveKalmanTracker ℚ)
      = cnkalman_error_state_init 16 15 := by
    unfold init_filter
    dsimp only
    rw [h]
    rfl
  rw [e]
  exact ⟨rfl, rfl, rfl, by decide⟩

/-- C12 (amended): with `minimize_state_space = 1`, the retained prefix of length `state_cnt`
contains every group whose governing tuning value is non-zero, with the groups at the offsets
Position 0, Orientation 3, LinearVelocity 7, AngularVelocity 10, LinearAcceleration 13,
AccScale 16, IMUCorrection 17, AccBias 21, GyroBias 24. -/
theorem init_keeps_tuned_groups {F : Type} [LinearOrderedField F]
    (tracker : SurviveKalmanTracker F) (hmin : tracker.minimize_state_space = 1)
    (g : StateGroup) (hg : g.tuned tracker) :
    g.offset + g.size ≤ init_state_cnt tracker := by
  unfold init_state_cnt
  dsimp only [SURVIVE_MODEL_MAX_STATE_CNT]
  rw [if_pos hmin]
  split_ifs <;> cases g <;>
    simp_all [StateGroup.tuned, StateGroup.offset, StateGroup.size, model_AccScale_offset,
      model_IMUCorrection_offset, model_AccBias_offset, model_GyroBias_offset]

/-- Witness for C12: the default configuration with `initial_acc_scale_variance = 1` keeps the
group `AccScale`. -/
theorem init_keeps_tuned_groups_witness :
    StateGroup.AccScale.offset + StateGroup.AccScale.size ≤ init_state_cnt acc_scale_config :=
  init_keeps_tuned_groups acc_scale_config rfl StateGroup.AccScale
    (by simp [StateGroup.tuned, acc_scale_config])

/-- C12 as stated fails: with `minimize_state_space = 1` and `initial_acc_scale_variance = 1`
(every bias weight and `initial_variance_imu_correction` zero) the state count is 17, so the
retained prefix does not contain a group `AccScale` at offset 20. -/
theorem init_drops_acc_scale_at_spec_offset :
    acc_scale_config.minimize_state_space = 1
    ∧ StateGroup.AccScale.tuned acc_scale_config
    ∧ init_state_cnt acc_scale_config = 17
    ∧ ¬ (StateGroup.AccScale.spec_offset + StateGroup.AccScale.size
          ≤ init_state_cnt acc_scale_config) := by
  have h : init_state_cnt acc_scale_config = 17 := by
    norm_num [init_state_cnt, acc_scale_config, default_config, SURVIVE_MODEL_MAX_STATE_CNT]
  refine ⟨rfl, by simp [StateGroup.tuned, acc_scale_config], h, ?_⟩
  rw [h]
  decide

theorem predict_jac_s_in_zeroed {F : Type} [LinearOrderedField F] (sqrt : F → F)
    (params : SurviveKalmanTracker_Params F) (x0 : CnMat F) :
    (params.process_weight_acc = 0 → ∀ i, (predict_jac_s_in sqrt params x0).Acc i = 0)
    ∧ (params.process_weight_vel = 0 →
        (∀ i, (predict_jac_s_in sqrt params x0).Velocity.Pos i = 0)
        ∧ ∀ i, (predict_jac_s_in sqrt params x0).Velocity.AxisAngleRot i = 0) := by
  unfold predict_jac_s_in
  dsimp only
  refine ⟨fun ha i => ?_, fun hv => ⟨fun i => ?_, fun i => ?_⟩⟩
  · rw [if_pos ha]
    split_ifs <;> exact mul_zero _
  · rw [if_pos hv]
    exact mul_zero _
  · rw [if_pos hv]
    exact mul_zero _

/-- C16: with `process_weight_acc = 0` and `process_weight_vel = 0`, for the state with linear
velocity `(2, 0, 0)` and acceleration `(1, 0, 0)`, the state that
`survive_kalman_error_tracker_predict_jac` hands to `SurviveKalmanModelPredict` still has the
acceleration component 1 and the velocity component 2, while the one that
`survive_kalman_tracker_predict_jac` hands over has both zeroed. -/
theorem error_predict_jac_keeps_acc :
    zero_params.process_weight_acc = 0 ∧ zero_params.process_weight_vel = 0
    ∧ (error_predict_jac_s_in (fun v : ℚ => v) moving_state).Acc 0 = 1
    ∧ (error_predict_jac_s_in (fun v : ℚ => v) moving_state).Velocity.Pos 0 = 2
    ∧ (predict_jac_s_in (fun v : ℚ => v) zero_params moving_state).Acc 0 = 0
    ∧ (predict_jac_s_in (fun v : ℚ => v) zero_params moving_state).Velocity.Pos 0 = 0 := by
  refine ⟨rfl, rfl, ?_, ?_, ?_, ?_⟩
  · simp [error_predict_jac_s_in, copy_model, moving_state, cnVec, cn_as_const_vector,
      SurviveKalmanModel.ofFlat]
  · simp [error_predict_jac_s_in, copy_model, moving_state, cnVec, cn_as_const_vector,
      SurviveKalmanModel.ofFlat]
  · exact (predict_jac_s_in_zeroed _ zero_params moving_state).1 rfl 0
  · exact ((predict_jac_s_in_zeroed _ zero_params moving_state).2 rfl).1 0

theorem sqrt_one_eq {F : Type} [LinearOrderedField F] (sqrt : F → F)
    (hs : ∀ x, 0 ≤ x → 0 ≤ sqrt x ∧ sqrt x * sqrt x = x) : sqrt 1 = 1 := by
  obtain ⟨a, b⟩ := hs 1 zero_le_one
  nlinarith

theorem quatnormalize_of_unit {F : Type} [LinearOrderedField F] (sqrt : F → F)
    (hs : ∀ x, 0 ≤ x → 0 ≤ sqrt x ∧ sqrt x * sqrt x = x) (q : Fin 4 → F)
    (hq : q 0 * q 0 + q 1 * q 1 + q 2 * q 2 + q 3 * q 3 = 1) :
    quatnormalize sqrt q = q := by
  unfold quatnormalize quatmagnitude
  rw [hq, sqrt_one_eq sqrt hs]
  simp

theorem toFlat_ofFlat {F : Type} [LinearOrderedField F] (v : Nat → F) (i : Nat) (hi : i < 27) :
    (SurviveKalmanModel.ofFlat v).toFlat i = v i := by
  interval_cases i <;> rfl

theorem copy_model_of_unit {F : Type} [LinearOrderedField F] (sqrt : F → F)
    (hs : ∀ x, 0 ≤ x → 0 ≤ sqrt x ∧ sqrt x * sqrt x = x) (src : Nat → F) (state_size : Nat)
    (h7 : 7 ≤ state_size)
    (hq : src 3 * src 3 + src 4 * src 4 + src 5 * src 5 + src 6 * src 6 = 1) :
    (copy_model sqrt src state_size).Pose.Rot = ![src 3, src 4, src 5, src 6]
    ∧ ∀ i, i < state_size → i < 27 → (copy_model sqrt src state_size).toFlat i = src i := by
  have h3 : 3 < state_size := by omega
  have h4 : 4 < state_size := by omega
  have h5 : 5 < state_size := by omega
  have h6 : 6 < state_size := by omega
  have hrot : quatnormalize sqrt ![src 3, src 4, src 5, src 6] = ![src 3, src 4, src 5, src 6] :=
    quatnormalize_of_unit sqrt hs _ hq
  unfold copy_model
  dsimp only [SurviveKalmanModel.ofFlat]
  simp only [if_pos h3, if_pos h4, if_pos h5, if_pos h6]
  rw [hrot]
  refine ⟨rfl, fun i hi h27 => ?_⟩
  have := toFlat_ofFlat (fun i => if i < state_size then src i
      else ({ (SurviveKalmanModel.zero : SurviveKalmanModel F) with
        IMUCorrection := ![1, 0, 0, 0], AccScale := 1 } : SurviveKalmanModel F).toFlat i) i h27
  simp only [if_pos hi, SurviveKalmanModel.ofFlat, if_pos h3, if_pos h4, if_pos h5, if_pos h6] at this
  exact this

theorem normalize_rot_of_unit {F : Type} [LinearOrderedField F] (sqrt : F → F)
    (hs : ∀ x, 0 ≤ x → 0 ≤ sqrt x ∧ sqrt x * sqrt x = x) (m : SurviveKalmanModel F)
    (hq : m.Pose.Rot 0 * m.Pose.Rot 0 + m.Pose.Rot 1 * m.Pose.Rot 1 + m.Pose.Rot 2 * m.Pose.Rot 2
      + m.Pose.Rot 3 * m.Pose.Rot 3 = 1) :
    ({ m with Pose := { m.Pose with Rot := quatnormalize sqrt m.Pose.Rot } }
      : SurviveKalmanModel F) = m := by
  rw [quatnormalize_of_unit sqrt hs _ hq]

theorem zeroed_toFlat {F : Type} [LinearOrderedField F] (m : SurviveKalmanModel F) (i : Nat)
    (hi : i < 27) :
    ({ m with
        Acc := fun k => m.Acc k * 0
        Velocity := { Pos := fun k => m.Velocity.Pos k * 0
                      AxisAngleRot := fun k => m.Velocity.AxisAngleRot k * 0 } }
      : SurviveKalmanModel F).toFlat i = if 7 ≤ i ∧ i < 16 then 0 else m.toFlat i := by
  interval_cases i <;> simp [SurviveKalmanModel.toFlat]

theorem error_predict_jac_s_in_eq {F : Type} [LinearOrderedField F] (sqrt : F → F)
    (hs : ∀ x, 0 ≤ x → 0 ≤ sqrt x ∧ sqrt x * sqrt x = x) (x0 : CnMat F) (h7 : 7 ≤ x0.rows)
    (hq : x0.data 3 0 * x0.data 3 0 + x0.data 4 0 * x0.data 4 0 + x0.data 5 0 * x0.data 5 0
      + x0.data 6 0 * x0.data 6 0 = 1) :
    error_predict_jac_s_in sqrt x0 = copy_model sqrt (cn_as_const_vector x0) x0.rows := by
  obtain ⟨hrot, -⟩ := copy_model_of_unit sqrt hs (cn_as_const_vector x0) x0.rows h7 hq
  unfold error_predict_jac_s_in
  dsimp only
  apply normalize_rot_of_unit sqrt hs
  rw [hrot]
  exact hq

theorem predict_jac_s_in_eq {F : Type} [LinearOrderedField F] (sqrt : F → F)
    (hs : ∀ x, 0 ≤ x → 0 ≤ sqrt x ∧ sqrt x * sqrt x = x)
    (params : SurviveKalmanTracker_Params F) (hacc : params.process_weight_acc = 0)
    (hvel : params.process_weight_vel = 0) (x0 : CnMat F) (h7 : 7 ≤ x0.rows)
    (hq : x0.data 3 0 * x0.data 3 0 + x0.data 4 0 * x0.data 4 0 + x0.data 5 0 * x0.data 5 0
      + x0.data 6 0 * x0.data 6 0 = 1) :
    predict_jac_s_in sqrt params x0
      = { copy_model sqrt (cn_as_const_vector x0) x0.rows with
          Acc := fun k => (copy_model sqrt (cn_as_const_vector x0) x0.rows).Acc k * 0
          Velocity :=
            { Pos := fun k => (copy_model sqrt (cn_as_const_vector x0) x0.rows).Velocity.Pos k * 0
              AxisAngleRot := fun k =>
                (copy_model sqrt (cn_as_const_vector x0) x0.rows).Velocity.AxisAngleRot k * 0 } } := by
  obtain ⟨hrot, -⟩ := copy_model_of_unit sqrt hs (cn_as_const_vector x0) x0.rows h7 hq
  unfold predict_jac_s_in
  dsimp only
  rw [if_pos hacc, if_pos hvel]
  dsimp only
  rw [quatnormalize_of_unit sqrt hs _ (by rw [hrot]; exact hq)]

set_option maxRecDepth 100000 in
theorem Q_POSE_BLOCK_full_zero {F : Type} [LinearOrderedField F] (s_w qw qx qy qz : F) :
    ∀ e ∈ Q_POSE_BLOCK_full (⟨0, 0, 0, 0, 0, 0⟩ : PosNoise F) 0 0 0 s_w 0 qw qx qy qz, e = 0 := by
  simp only [Q_POSE_BLOCK_full, List.forall_mem_cons, List.not_mem_nil, zero_mul, mul_zero,
    add_zero, neg_zero, true_and, and_true, and_self, IsEmpty.forall_iff, implies_true]

set_option maxRecDepth 100000 in
theorem Q_POSE_BLOCK_error_zero {F : Type} [LinearOrderedField F] (s_w : F) :
    ∀ e ∈ Q_POSE_BLOCK_error (⟨0, 0, 0, 0, 0, 0⟩ : PosNoise F) 0 0 s_w 0, e = 0 := by
  simp only [Q_POSE_BLOCK_error, List.forall_mem_cons, List.not_mem_nil, zero_mul, mul_zero,
    add_zero, neg_zero, true_and, and_true, and_self, IsEmpty.forall_iff, implies_true]

theorem getD_zero_of_forall {F : Type} [Zero F] (l : List F) (h : ∀ e ∈ l, e = 0) (i : Nat) :
    l.getD i 0 = 0 := by
  by_cases hi : i < l.length
  · rw [List.getD_eq_getElem _ _ hi]
    exact h _ (List.getElem_mem hi)
  · rw [List.getD_eq_default _ _ (not_lt.mp hi)]

theorem process_noise_positional_zero {F : Type} [LinearOrderedField F]
    (params : SurviveKalmanTracker_Params F) :
    process_noise_positional params 0 = ⟨0, 0, 0, 0, 0, 0⟩ := by
  simp [process_noise_positional]

theorem bias_step_zero {F : Type} [LinearOrderedField F] (errorState : Bool) (q : CnMat F)
    (k : Nat) (h : ∀ a b, q.data a b = 0) :
    ∀ a b, (process_noise_bias_step errorState 0 0 q k).data a b = 0 := by
  intro a b
  unfold process_noise_bias_step
  dsimp only
  split_ifs <;> simp [cnMatrixSet, h]

theorem process_noise_at_zero {F : Type} [LinearOrderedField F] (sqrt : F → F)
    (params : SurviveKalmanTracker_Params F) (errorState : Bool) (x : CnMat F) (n i j : Nat) :
    cnMatrixGet (survive_kalman_tracker_process_noise sqrt params errorState 0 x (cn_zero n n))
      i j = 0 := by
  have key : ∀ (l : List Nat) (q : CnMat F), (∀ a b, q.data a b = 0) →
      ∀ a b, (l.foldl (process_noise_bias_step errorState 0 0) q).data a b = 0 := by
    intro l
    induction l with
    | nil => intro q hq; simpa using hq
    | cons k l ih =>
      intro q hq
      simp only [List.foldl_cons]
      exact ih _ (bias_step_zero errorState q k hq)
  unfold survive_kalman_tracker_process_noise cnMatrixGet
  simp only [process_noise_positional_zero, mul_zero, zero_div, add_zero, List.getD_cons_zero,
    List.getD_cons_succ]
  apply key
  intro a b
  cases errorState
  · simp only [Bool.not_false, if_true, cn_copy_in_row_major_roi, cn_zero]
    split_ifs
    · exact getD_zero_of_forall _ (Q_POSE_BLOCK_full_zero _ _ _ _ _) _
    · rfl
  · simp only [Bool.not_true, Bool.false_eq_true, if_false, cn_copy_in_row_major_roi, cn_zero]
    split_ifs
    · exact getD_zero_of_forall _ (Q_POSE_BLOCK_error_zero _) _
    · rfl

theorem error_predict_jac_at_zero {F : Type} [LinearOrderedField F] (env : Collaborators F)
    (hs : ∀ x, 0 ≤ x → 0 ≤ env.sqrt x ∧ env.sqrt x * env.sqrt x = x)
    (hP : ∀ s, env.SurviveKalmanModelPredict 0 s = s)
    (params : SurviveKalmanTracker_Params F) (x0 x1 f : CnMat F)
    (h7 : 7 ≤ x0.rows) (h27 : x0.rows ≤ 27) (hrows : x1.rows = x0.rows)
    (hq : x0.data 3 0 * x0.data 3 0 + x0.data 4 0 * x0.data 4 0 + x0.data 5 0 * x0.data 5 0
      + x0.data 6 0 * x0.data 6 0 = 1) :
    ∃ x1', survive_kalman_error_tracker_predict_jac env 0 params x0 (some x1) (some f)
        = (some x1', some (cn_eye f))
      ∧ ∀ i, i < x0.rows → cnMatrixGet x1' i 0 = cnMatrixGet x0 i 0 := by
  obtain ⟨hrot, hflat⟩ := copy_model_of_unit env.sqrt hs (cn_as_const_vector x0) x0.rows h7 hq
  have hunit : (copy_model env.sqrt (cn_as_const_vector x0) x0.rows).Pose.Rot 0
        * (copy_model env.sqrt (cn_as_const_vector x0) x0.rows).Pose.Rot 0
      + (copy_model env.sqrt (cn_as_const_vector x0) x0.rows).Pose.Rot 1
        * (copy_model env.sqrt (cn_as_const_vector x0) x0.rows).Pose.Rot 1
      + (copy_model env.sqrt (cn_as_const_vector x0) x0.rows).Pose.Rot 2
        * (copy_model env.sqrt (cn_as_const_vector x0) x0.rows).Pose.Rot 2
      + (copy_model env.sqrt (cn_as_const_vector x0) x0.rows).Pose.Rot 3
        * (copy_model env.sqrt (cn_as_const_vector x0) x0.rows).Pose.Rot 3 = 1 := by
    rw [hrot]; exact hq
  unfold survive_kalman_error_tracker_predict_jac
  dsimp only
  rw [error_predict_jac_s_in_eq env.sqrt hs x0 h7 hq, hP, if_pos rfl,
    quatnormalize_of_unit env.sqrt hs _ hunit]
  refine ⟨_, rfl, fun i hi => ?_⟩
  simp only [cnMatrixGet]
  rw [if_pos ⟨by omega, trivial⟩]
  exact hflat i hi (by omega)

theorem predict_jac_at_zero {F : Type} [LinearOrderedField F] (env : Collaborators F)
    (hs : ∀ x, 0 ≤ x → 0 ≤ env.sqrt x ∧ env.sqrt x * env.sqrt x = x)
    (hP : ∀ s, env.SurviveKalmanModelPredict 0 s = s)
    (params : SurviveKalmanTracker_Params F) (hacc : params.process_weight_acc = 0)
    (hvel : params.process_weight_vel = 0) (x0 x1 f : CnMat F)
    (h7 : 7 ≤ x0.rows) (h27 : x0.rows ≤ 27) (hrows : x1.rows = x0.rows)
    (hq : x0.data 3 0 * x0.data 3 0 + x0.data 4 0 * x0.data 4 0 + x0.data 5 0 * x0.data 5 0
      + x0.data 6 0 * x0.data 6 0 = 1) :
    ∃ x1', survive_kalman_tracker_predict_jac env 0 params x0 (some x1) (some f)
        = (some x1', some (cn_eye f))
      ∧ ∀ i, i < x0.rows →
          cnMatrixGet x1' i 0 = if 7 ≤ i ∧ i < 16 then 0 else cnMatrixGet x0 i 0 := by
  obtain ⟨hrot, hflat⟩ := copy_model_of_unit env.sqrt hs (cn_as_const_vector x0) x0.rows h7 hq
  have hunit : (copy_model env.sqrt (cn_as_const_vector x0) x0.rows).Pose.Rot 0
        * (copy_model env.sqrt (cn_as_const_vector x0) x0.rows).Pose.Rot 0
      + (copy_model env.sqrt (cn_as_const_vector x0) x0.rows).Pose.Rot 1
        * (copy_model env.sqrt (cn_as_const_vector x0) x0.rows).Pose.Rot 1
      + (copy_model env.sqrt (cn_as_const_vector x0) x0.rows).Pose.Rot 2
        * (copy_model env.sqrt (cn_as_const_vector x0) x0.rows).Pose.Rot 2
      + (copy_model env.sqrt (cn_as_const_vector x0) x0.rows).Pose.Rot 3
        * (copy_model env.sqrt (cn_as_const_vector x0) x0.rows).Pose.Rot 3 = 1 := by
    rw [hrot]; exact hq
  unfold survive_kalman_tracker_predict_jac
  dsimp only
  rw [predict_jac_s_in_eq env.sqrt hs params hacc hvel x0 h7 hq, hP, if_pos rfl]
  dsimp only
  rw [quatnormalize_of_unit env.sqrt hs _ hunit]
  refine ⟨_, rfl, fun i hi => ?_⟩
  simp only [cnMatrixGet]
  rw [if_pos ⟨by omega, trivial⟩]
  have := zeroed_toFlat (copy_model env.sqrt (cn_as_const_vector x0) x0.rows) i (by omega)
  rw [hflat i hi (by omega)] at this
  exact this

/-- C17 (amended): with `process_weight_acc = 0`, `process_weight_vel = 0` (as when all weights
are zero) and `dt = 0`, for every state vector `x0` of 7 to 27 scalars with unit orientation
quaternion, an exact square root and a generated transition that is the identity at `dt = 0`:
`survive_kalman_error_tracker_predict_jac` returns `x1 = x0` and `F` = identity;
`survive_kalman_tracker_predict_jac` returns `F` = identity and `x1` equal to `x0` except that
the velocity and acceleration entries (scalars 7 to 15) are zero; and
`survive_kalman_tracker_process_noise` at `t = 0` yields the zero matrix, so
`F * P * Fᵀ + Q = P`. -/
theorem predict_identity_at_zero {F : Type} [LinearOrderedField F] (env : Collaborators F)
    (hs : ∀ x, 0 ≤ x → 0 ≤ env.sqrt x ∧ env.sqrt x * env.sqrt x = x)
    (hP : ∀ s, env.SurviveKalmanModelPredict 0 s = s)
    (params : SurviveKalmanTracker_Params F) (hacc : params.process_weight_acc = 0)
    (hvel : params.process_weight_vel = 0) (errorState : Bool) (x0 x1 f P : CnMat F) (n : Nat)
    (h7 : 7 ≤ x0.rows) (h27 : x0.rows ≤ 27) (hrows : x1.rows = x0.rows)
    (hq : x0.data 3 0 * x0.data 3 0 + x0.data 4 0 * x0.data 4 0 + x0.data 5 0 * x0.data 5 0
      + x0.data 6 0 * x0.data 6 0 = 1) :
    (∃ x1', survive_kalman_error_tracker_predict_jac env 0 params x0 (some x1) (some f)
        = (some x1', some (cn_eye f))
      ∧ ∀ i, i < x0.rows → cnMatrixGet x1' i 0 = cnMatrixGet x0 i 0)
    ∧ (∃ x1', survive_kalman_tracker_predict_jac env 0 params x0 (some x1) (some f)
        = (some x1', some (cn_eye f))
      ∧ ∀ i, i < x0.rows →
          cnMatrixGet x1' i 0 = if 7 ≤ i ∧ i < 16 then 0 else cnMatrixGet x0 i 0)
    ∧ (∀ i j, cnMatrixGet (survive_kalman_tracker_process_noise env.sqrt params errorState 0 x0
        (cn_zero n n)) i j = 0)
    ∧ (cn_eye f).toMatrix n * P.toMatrix n * Matrix.transpose ((cn_eye f).toMatrix n)
        + (survive_kalman_tracker_process_noise env.sqrt params errorState 0 x0
            (cn_zero n n)).toMatrix n
      = P.toMatrix n := by
  refine ⟨error_predict_jac_at_zero env hs hP params x0 x1 f h7 h27 hrows hq,
    predict_jac_at_zero env hs hP params hacc hvel x0 x1 f h7 h27 hrows hq,
    fun i j => process_noise_at_zero _ _ _ _ _ _ _, ?_⟩
  have h1 : (cn_eye f).toMatrix n = 1 := by
    ext i j
    simp [CnMat.toMatrix, cn_eye, Matrix.one_apply, Fin.ext_iff]
  have h0 : (survive_kalman_tracker_process_noise env.sqrt params errorState 0 x0
      (cn_zero n n)).toMatrix n = 0 := by
    ext i j
    exact process_noise_at_zero _ _ _ _ _ _ _
  rw [h1, h0]
  simp

/-- Witness for C17: over the real numbers with the real square root, the state vector
`(0, 0, 0, 1, 0, 0, 0)` and all weights zero: the entry `(0, 0)` of the process noise at
`t = 0` is zero. -/
theorem predict_identity_at_zero_witness :
    cnMatrixGet (survive_kalman_tracker_process_noise Real.sqrt
        { process_weight_jerk := 0, process_weight_acc := 0, process_weight_ang_velocity := 0,
          process_weight_vel := 0, process_weight_pos := 0, process_weight_rotation := 0,
          process_weight_acc_bias := 0, process_weight_gyro_bias := 0,
          initial_variance_imu_correction := 0, initial_acc_scale_variance := 0 }
        true 0 (cnVec 7 (fun i => [0, 0, 0, 1, 0, 0, 0].getD i 0)) (cn_zero 6 6)) 0 0 = 0 :=
  (predict_identity_at_zero (Collaborators.inert Real.sqrt Real.pi)
    (fun x hx => ⟨Real.sqrt_nonneg x, Real.mul_self_sqrt hx⟩) (fun _ => rfl)
    { process_weight_jerk := 0, process_weight_acc := 0, process_weight_ang_velocity := 0,
      process_weight_vel := 0, process_weight_pos := 0, process_weight_rotation := 0,
      process_weight_acc_bias := 0, process_weight_gyro_bias := 0,
      initial_variance_imu_correction := 0, initial_acc_scale_variance := 0 }
    rfl rfl true (cnVec 7 (fun i => [0, 0, 0, 1, 0, 0, 0].getD i 0)) (cn_zero 7 1) (cn_zero 6 6)
    (cn_zero 6 6) 6 (by simp [cnVec]) (by simp [cnVec]) rfl (by simp [cnVec])).2.2.1 0 0

/-- C17 as stated fails: with all weights zero, `dt = 0` and the state of unit orientation with
linear velocity `(2, 0, 0)`, `survive_kalman_tracker_predict_jac` returns an `x1` whose scalar 7
is 0, while scalar 7 of `x0` is 2 (the generated transition taken as the identity). -/
theorem predict_jac_zeroes_velocity :
    moving_state.data 3 0 * moving_state.data 3 0 + moving_state.data 4 0 * moving_state.data 4 0
      + moving_state.data 5 0 * moving_state.data 5 0
      + moving_state.data 6 0 * moving_state.data 6 0 = 1
    ∧ cnMatrixGet moving_state 7 0 = 2
    ∧ (survive_kalman_tracker_predict_jac (Collaborators.inert (fun v : ℚ => v) 3) 0 zero_params
        moving_state (some (cn_zero 16 1)) none).1.map (fun x1 => cnMatrixGet x1 7 0) = some 0 := by
  refine ⟨by norm_num [moving_state, cnVec], by norm_num [moving_state, cnVec, cnMatrixGet], ?_⟩
  simp [survive_kalman_tracker_predict_jac, predict_jac_s_in, Collaborators.inert, zero_params,
    SurviveKalmanModel.toFlat, cnMatrixGet, cn_zero]

/-- C18: evaluation of the flip step of `map_obs_data_axisangle` over the real numbers at the
rotation residual `(π, 0, 0)`, a half-turn: `mag > M_PI * M_PI` is false, so `hasFlip` is false
and the residual is kept, its Euclidean norm is exactly `π`, and the condition of
`assert(norm3d(yp.AxisAngleRot) < M_PI)` is false. -/
theorem obs_axisangle_half_turn :
    (obs_axisangle_flip Real.sqrt Real.pi
        { Pos := ![0, 0, 0], AxisAngleRot := ![Real.pi, 0, 0] }).1 = false
    ∧ (obs_axisangle_flip Real.sqrt Real.pi
        { Pos := ![0, 0, 0], AxisAngleRot := ![Real.pi, 0, 0] }).2.AxisAngleRot
        = ![Real.pi, 0, 0]
    ∧ norm3d Real.sqrt (obs_axisangle_flip Real.sqrt Real.pi
        { Pos := ![0, 0, 0], AxisAngleRot := ![Real.pi, 0, 0] }).2.AxisAngleRot = Real.pi
    ∧ ¬ (norm3d Real.sqrt (obs_axisangle_flip Real.sqrt Real.pi
        { Pos := ![0, 0, 0], AxisAngleRot := ![Real.pi, 0, 0] }).2.AxisAngleRot < Real.pi) := by
  have hmag : normnd2 (vec3 ![Real.pi, 0, 0]) 3 = Real.pi * Real.pi := by
    simp [normnd2, vec3, List.range_succ]
  have hflip : obs_axisangle_flip Real.sqrt Real.pi
      { Pos := ![0, 0, 0], AxisAngleRot := ![Real.pi, 0, 0] }
      = (false, { Pos := ![0, 0, 0], AxisAngleRot := ![Real.pi, 0, 0] }) := by
    unfold obs_axisangle_flip
    dsimp only
    rw [hmag]
    simp
  have hnorm : norm3d Real.sqrt ![Real.pi, 0, 0] = Real.pi := by
    simp [norm3d, Real.sqrt_mul_self Real.pi_pos.le]
  rw [hflip]
  exact ⟨rfl, rfl, hnorm, by rw [hnorm]; exact lt_irrefl _⟩

theorem integrate_light_buffered {F : Type} [LinearOrderedField F] (env : Collaborators F)
    (savedLight_len : Nat) (data : PoserDataLight F) (w : World F)
    (hpt : data.hdr.pt = PoserType.POSERDATA_LIGHT)
    (hb : 0 ≤ w.tracker.light_batchsize)
    (hlt : ((w.tracker.savedLight_idx + 1 : Nat) : Int) < w.tracker.light_batchsize) :
    survive_kalman_tracker_integrate_light env savedLight_len data w
      = { w with
          tracker := { w.tracker with
            savedLight := Function.update w.tracker.savedLight w.tracker.savedLight_idx
              { lh := data.lh, value := data.angle, axis := data.axis,
                sensor_idx := data.sensor_id, timecode := data.hdr.timecode }
            savedLight_idx := w.tracker.savedLight_idx + 1 } } := by
  unfold survive_kalman_tracker_integrate_light
  dsimp only
  have hsync : (data.hdr.pt == PoserType.POSERDATA_SYNC
      || data.hdr.pt == PoserType.POSERDATA_SYNC_GEN2) = false := by
    rw [hpt]
    rfl
  rw [hsync]
  simp only [Bool.false_eq_true, if_false]
  rw [if_pos hb, if_neg (not_le.2 hlt)]

theorem integrate_light_run_buffered {F : Type} [LinearOrderedField F] (env : Collaborators F)
    (savedLight_len : Nat) (data : PoserDataLight F)
    (hpt : data.hdr.pt = PoserType.POSERDATA_LIGHT) (n : Nat) :
    ∀ w : World F, 0 ≤ w.tracker.light_batchsize →
      ((w.tracker.savedLight_idx + n : Nat) : Int) < w.tracker.light_batchsize →
      (integrate_light_run env savedLight_len (List.replicate n data) w).tracker.savedLight_idx
          = w.tracker.savedLight_idx + n
        ∧ (integrate_light_run env savedLight_len (List.replicate n data) w).tracker.light_batchsize
          = w.tracker.light_batchsize
        ∧ (integrate_light_run env savedLight_len (List.replicate n data) w).log = w.log := by
  induction n with
  | zero => intro w _ _; exact ⟨rfl, rfl, rfl⟩
  | succ n ih =>
    intro w hb hlt
    have hstep := integrate_light_buffered env savedLight_len data w hpt hb (by push_cast at hlt ⊢; omega)
    have h := ih (survive_kalman_tracker_integrate_light env savedLight_len data w)
      (by rw [hstep]; exact hb) (by rw [hstep]; push_cast at hlt ⊢; omega)
    unfold integrate_light_run at h ⊢
    rw [List.replicate_succ, List.foldl_cons]
    refine ⟨h.1.trans ?_, h.2.1.trans ?_, h.2.2.trans ?_⟩
    · rw [hstep]
      dsimp only
      omega
    · rw [hstep]
    · rw [hstep]

/-- C20: evaluation of `survive_kalman_tracker_integrate_light` with a buffer of 32 entries and
`light-batch-size = 34`: after 32 sweep packets the count `savedLight_idx` is 32 and nothing has
been flushed, the 33rd packet is written at index 32, which is not below the capacity 32, and
the count becomes 33, above the capacity, still without a flush. -/
theorem integrate_light_overflow :
    (integrate_light_run (Collaborators.inert (fun v : ℚ => v) 3) 32
        (List.replicate 32 sweep_packet) big_batch_world).tracker.savedLight_idx = 32
    ∧ (integrate_light_run (Collaborators.inert (fun v : ℚ => v) 3) 32
        (List.replicate 32 sweep_packet) big_batch_world).log = big_batch_world.log
    ∧ (integrate_light_run (Collaborators.inert (fun v : ℚ => v) 3) 32
        (List.replicate 33 sweep_packet) big_batch_world).tracker.savedLight 32
        = { lh := 0, value := 1 / 2, axis := 0, sensor_idx := 0, timecode := 0 }
    ∧ (integrate_light_run (Collaborators.inert (fun v : ℚ => v) 3) 32
        (List.replicate 33 sweep_packet) big_batch_world).tracker.savedLight_idx = 33
    ∧ (integrate_light_run (Collaborators.inert (fun v : ℚ => v) 3) 32
        (List.replicate 33 sweep_packet) big_batch_world).log = big_batch_world.log := by
  have hb : (0 : Int) ≤ big_batch_world.tracker.light_batchsize := by
    norm_num [big_batch_world, example_world]
  have h0 : big_batch_world.tracker.savedLight_idx = 0 := by
    simp [big_batch_world, example_world, default_config]
  have hbs : big_batch_world.tracker.light_batchsize = 34 := by
    simp [big_batch_world, example_world]
  have h32 := integrate_light_run_buffered (Collaborators.inert (fun v : ℚ => v) 3) 32
    sweep_packet rfl 32 big_batch_world hb (by rw [h0, hbs]; norm_num)
  have h33 := integrate_light_run_buffered (Collaborators.inert (fun v : ℚ => v) 3) 32
    sweep_packet rfl 33 big_batch_world hb (by rw [h0, hbs]; norm_num)
  rw [h0] at h32 h33
  refine ⟨h32.1, h32.2.2, ?_, h33.1, h33.2.2⟩
  have hsplit : List.replicate 33 sweep_packet = List.replicate 32 sweep_packet ++ [sweep_packet] :=
    List.replicate_succ' 32 sweep_packet
  unfold integrate_light_run at h32 ⊢
  rw [hsplit, List.foldl_append, List.foldl_cons, List.foldl_nil]
  rw [integrate_light_buffered _ _ _ _ rfl (by rw [h32.2.1]; exact hb)
    (by rw [h32.1, h32.2.1, hbs]; norm_num)]
  dsimp only
  rw [h32.1]
  simp [sweep_packet]

theorem reinit_report_times {F : Type} [LinearOrderedField F] (env : Collaborators F)
    (tracker : SurviveKalmanTracker F) :
    (survive_kalman_tracker_reinit env tracker).last_report_time = tracker.last_report_time
    ∧ (survive_kalman_tracker_reinit env tracker).min_report_time = tracker.min_report_time :=
  ⟨rfl, rfl⟩

theorem check_valid_report_times {F : Type} [LinearOrderedField F] (env : Collaborators F)
    (w : World F) :
    (survive_kalman_tracker_check_valid env w).2.tracker.last_report_time
        = w.tracker.last_report_time
    ∧ (survive_kalman_tracker_check_valid env w).2.tracker.min_report_time
        = w.tracker.min_report_time := by
  rw [check_valid_eq]
  split_ifs
  · exact ⟨rfl, rfl⟩
  · rw [lost_tracking_tracker]
    exact reinit_report_times env _

theorem report_state_valid_eq {F : Type} [LinearOrderedField F] (env : Collaborators F)
    (pd : PoserData) (t : F) (w : World F) :
    report_state_valid env pd t w
      = if report_state_suppress w then
          report_state_suppressed (survive_kalman_tracker_predict env w t SurvivePose.zero)
            (survive_kalman_tracker_position_var2 w.tracker (fun _ => 0)
              w.tracker.model.error_state_size).1 w
        else
          report_state_reported env pd t (survive_kalman_tracker_predict env w t SurvivePose.zero)
            (survive_kalman_tracker_position_var2 w.tracker (fun _ => 0)
              w.tracker.model.error_state_size).1
            (survive_kalman_tracker_position_var2 w.tracker (fun _ => 0)
              w.tracker.model.error_state_size).2 w :=
  rfl

theorem report_state_reported_times {F : Type} [LinearOrderedField F] (env : Collaborators F)
    (pd : PoserData) (t : F) (pose : SurvivePose F) (var_diag : Nat → F) (p : F) (w : World F) :
    (report_state_reported env pd t pose var_diag p w).tracker.last_report_time = t
    ∧ (report_state_reported env pd t pose var_diag p w).tracker.min_report_time
        = w.tracker.min_report_time := by
  refine ⟨rfl, ?_⟩
  unfold report_state_reported
  dsimp only
  split_ifs <;> rfl

theorem min_report_time_times {F : Type} [LinearOrderedField F] (w : World F) :
    (report_state_min_report_time w).tracker.last_report_time = w.tracker.last_report_time
    ∧ (report_state_min_report_time w).tracker.min_report_time
        = (if w.tracker.min_report_time < 0 then 1 / (w.objmem w.tracker.so).imu_freq
           else w.tracker.min_report_time)
    ∧ (report_state_min_report_time w).objmem = w.objmem
    ∧ (report_state_min_report_time w).tracker.so = w.tracker.so := by
  unfold report_state_min_report_time
  split_ifs <;> exact ⟨rfl, rfl, rfl, rfl⟩

theorem report_state_eq {F : Type} [LinearOrderedField F] (env : Collaborators F)
    (pd : PoserData) (w : World F) :
    survive_kalman_tracker_report_state env pd w
      = if (w.objmem w.tracker.so).conf = false then { w with tracker := normalize_model env.sqrt w.tracker }
        else if report_state_time pd w - (report_state_min_report_time { w with tracker := normalize_model env.sqrt w.tracker }).tracker.last_report_time
            < (report_state_min_report_time { w with tracker := normalize_model env.sqrt w.tracker }).tracker.min_report_time then (report_state_min_report_time { w with tracker := normalize_model env.sqrt w.tracker })
        else if (!(survive_kalman_tracker_check_valid env (report_state_min_report_time { w with tracker := normalize_model env.sqrt w.tracker })).1) = true then
          { (survive_kalman_tracker_check_valid env (report_state_min_report_time { w with tracker := normalize_model env.sqrt w.tracker })).2 with
            tracker := { (survive_kalman_tracker_check_valid env (report_state_min_report_time { w with tracker := normalize_model env.sqrt w.tracker })).2.tracker with
              stats := { (survive_kalman_tracker_check_valid env (report_state_min_report_time { w with tracker := normalize_model env.sqrt w.tracker })).2.tracker.stats with
                dropped_poses := (survive_kalman_tracker_check_valid env (report_state_min_report_time { w with tracker := normalize_model env.sqrt w.tracker })).2.tracker.stats.dropped_poses + 1 } } }
        else report_state_valid env pd (report_state_time pd w) (survive_kalman_tracker_check_valid env (report_state_min_report_time { w with tracker := normalize_model env.sqrt w.tracker })).2 :=
  rfl

theorem report_state_reaches_eq {F : Type} [LinearOrderedField F] (env : Collaborators F)
    (pd : PoserData) (w : World F) :
    report_state_reaches env pd w
      = if (w.objmem w.tracker.so).conf = false then false
        else if report_state_time pd w - (report_state_min_report_time { w with tracker := normalize_model env.sqrt w.tracker }).tracker.last_report_time
            < (report_state_min_report_time { w with tracker := normalize_model env.sqrt w.tracker }).tracker.min_report_time then false
        else if (!(survive_kalman_tracker_check_valid env (report_state_min_report_time { w with tracker := normalize_model env.sqrt w.tracker })).1) = true then false
        else !report_state_suppress (survive_kalman_tracker_check_valid env (report_state_min_report_time { w with tracker := normalize_model env.sqrt w.tracker })).2 :=
  rfl

theorem report_state_times {F : Type} [LinearOrderedField F] (env : Collaborators F)
    (pd : PoserData) (w : World F) :
    (survive_kalman_tracker_report_state env pd w).tracker.last_report_time
        = (if report_state_reaches env pd w then report_state_time pd w
           else w.tracker.last_report_time)
    ∧ (0 ≤ w.tracker.min_report_time →
        (survive_kalman_tracker_report_state env pd w).tracker.min_report_time
          = w.tracker.min_report_time)
    ∧ (report_state_reaches env pd w = true →
        ¬ (report_state_time pd w - w.tracker.last_report_time
            < (survive_kalman_tracker_report_state env pd w).tracker.min_report_time)) := by
  have hM := min_report_time_times { w with tracker := normalize_model env.sqrt w.tracker }
  have hV := check_valid_report_times env (report_state_min_report_time { w with tracker := normalize_model env.sqrt w.tracker })
  have hN : (normalize_model env.sqrt w.tracker).last_report_time = w.tracker.last_report_time
      ∧ (normalize_model env.sqrt w.tracker).min_report_time = w.tracker.min_report_time :=
    ⟨rfl, rfl⟩
  have hmin : 0 ≤ w.tracker.min_report_time →
      (report_state_min_report_time { w with tracker := normalize_model env.sqrt w.tracker }).tracker.min_report_time = w.tracker.min_report_time := by
    intro h
    rw [hM.2.1, if_neg (not_lt.2 (by rw [hN.2]; exact h))]
    exact hN.2
  rw [report_state_eq, report_state_reaches_eq]
  by_cases h1 : (w.objmem w.tracker.so).conf = false
  · rw [if_pos h1, if_pos h1]
    exact ⟨rfl, fun _ => rfl, fun h => absurd h (by simp)⟩
  rw [if_neg h1, if_neg h1]
  by_cases h2 : report_state_time pd w - (report_state_min_report_time { w with tracker := normalize_model env.sqrt w.tracker }).tracker.last_report_time
      < (report_state_min_report_time { w with tracker := normalize_model env.sqrt w.tracker }).tracker.min_report_time
  · rw [if_pos h2, if_pos h2]
    exact ⟨hM.1, hmin, fun h => absurd h (by simp)⟩
  rw [if_neg h2, if_neg h2]
  by_cases h3 : (!(survive_kalman_tracker_check_valid env (report_state_min_report_time { w with tracker := normalize_model env.sqrt w.tracker })).1) = true
  · rw [if_pos h3, if_pos h3]
    exact ⟨hV.1.trans hM.1, fun h => hV.2.trans (hmin h), fun h => absurd h (by simp)⟩
  rw [if_neg h3, if_neg h3, report_state_valid_eq]
  cases hs : report_state_suppress (survive_kalman_tracker_check_valid env (report_state_min_report_time { w with tracker := normalize_model env.sqrt w.tracker })).2
  · have hR := report_state_reported_times env pd (report_state_time pd w)
      (survive_kalman_tracker_predict env (survive_kalman_tracker_check_valid env (report_state_min_report_time { w with tracker := normalize_model env.sqrt w.tracker })).2 (report_state_time pd w) SurvivePose.zero)
      (survive_kalman_tracker_position_var2 (survive_kalman_tracker_check_valid env (report_state_min_report_time { w with tracker := normalize_model env.sqrt w.tracker })).2.tracker (fun _ => 0)
        (survive_kalman_tracker_check_valid env (report_state_min_report_time { w with tracker := normalize_model env.sqrt w.tracker })).2.tracker.model.error_state_size).1
      (survive_kalman_tracker_position_var2 (survive_kalman_tracker_check_valid env (report_state_min_report_time { w with tracker := normalize_model env.sqrt w.tracker })).2.tracker (fun _ => 0)
        (survive_kalman_tracker_check_valid env (report_state_min_report_time { w with tracker := normalize_model env.sqrt w.tracker })).2.tracker.model.error_state_size).2 (survive_kalman_tracker_check_valid env (report_state_min_report_time { w with tracker := normalize_model env.sqrt w.tracker })).2
    rw [if_neg (by simp), if_pos (by simp)]
    refine ⟨hR.1, fun h => hR.2.trans (hV.2.trans (hmin h)), fun _ => ?_⟩
    rw [hR.2, hV.2]
    rw [hM.1] at h2
    exact h2
  · rw [if_pos rfl, if_neg (by simp)]
    exact ⟨hV.1.trans hM.1, fun h => hV.2.trans (hmin h), fun h => absurd h (by simp)⟩

theorem report_state_run_quiet {F : Type} [LinearOrderedField F] (env : Collaborators F)
    (pds : List PoserData) :
    ∀ w : World F, 0 ≤ w.tracker.min_report_time → report_state_quiet env pds w = true →
      (report_state_run env pds w).tracker.last_report_time = w.tracker.last_report_time
      ∧ (report_state_run env pds w).tracker.min_report_time = w.tracker.min_report_time := by
  induction pds with
  | nil => intro w _ _; exact ⟨rfl, rfl⟩
  | cons pd rest ih =>
    intro w hmin hq
    unfold report_state_quiet at hq
    rw [Bool.and_eq_true, Bool.not_eq_true'] at hq
    have hstep := report_state_times env pd w
    rw [hq.1] at hstep
    have h := ih (survive_kalman_tracker_report_state env pd w)
      (by rw [hstep.2.1 hmin]; exact hmin) hq.2
    unfold report_state_run at h ⊢
    rw [List.foldl_cons]
    exact ⟨h.1.trans hstep.1, h.2.trans (hstep.2.1 hmin)⟩

theorem report_state_min {F : Type} [LinearOrderedField F] (env : Collaborators F)
    (pd : PoserData) (w : World F) (hconf : (w.objmem w.tracker.so).conf = true)
    (hneg : w.tracker.min_report_time < 0) :
    (survive_kalman_tracker_report_state env pd w).tracker.min_report_time
      = 1 / (w.objmem w.tracker.so).imu_freq := by
  have hM := min_report_time_times { w with tracker := normalize_model env.sqrt w.tracker }
  have hV := check_valid_report_times env
    (report_state_min_report_time { w with tracker := normalize_model env.sqrt w.tracker })
  have hN : (normalize_model env.sqrt w.tracker).min_report_time = w.tracker.min_report_time :=
    rfl
  have hmin : (report_state_min_report_time
      { w with tracker := normalize_model env.sqrt w.tracker }).tracker.min_report_time
      = 1 / (w.objmem w.tracker.so).imu_freq := by
    rw [hM.2.1, if_pos (by rw [hN]; exact hneg)]
    rfl
  rw [report_state_eq, if_neg (by rw [hconf]; simp)]
  split_ifs
  · exact hmin
  · exact hV.2.trans hmin
  · rw [report_state_valid_eq]
    split_ifs
    · exact hV.2.trans hmin
    · exact (report_state_reported_times env pd _ _ _ _ _).2.trans (hV.2.trans hmin)

/-- C21 (amended): over every run of `survive_kalman_tracker_report_state` calls with
`min_report_time >= 0`, any two consecutive calls that get to the reporting tail (the first sets
`last_report_time` to its report time `t1`, the calls between them do not get there, the second
sets it to `t2`) satisfy `t2 - t1 >= min_report_time` and `t1 <= t2`, and `t1 < t2` when
`min_report_time > 0`; and a negative `min_report_time` is replaced by `1 / imu_freq` on the
first call for an object with a configuration. -/
theorem report_state_cadence {F : Type} [LinearOrderedField F] (env : Collaborators F)
    (pd1 pd2 : PoserData) (mids : List PoserData) (w : World F) :
    (0 ≤ w.tracker.min_report_time →
      report_state_reaches env pd1 w = true →
      report_state_quiet env mids (survive_kalman_tracker_report_state env pd1 w) = true →
      report_state_reaches env pd2
        (report_state_run env mids (survive_kalman_tracker_report_state env pd1 w)) = true →
      (survive_kalman_tracker_report_state env pd1 w).tracker.last_report_time
          = report_state_time pd1 w
      ∧ (survive_kalman_tracker_report_state env pd2
          (report_state_run env mids
            (survive_kalman_tracker_report_state env pd1 w))).tracker.last_report_time
          = report_state_time pd2
              (report_state_run env mids (survive_kalman_tracker_report_state env pd1 w))
      ∧ w.tracker.min_report_time
          ≤ report_state_time pd2
              (report_state_run env mids (survive_kalman_tracker_report_state env pd1 w))
            - report_state_time pd1 w
      ∧ report_state_time pd1 w
          ≤ report_state_time pd2
              (report_state_run env mids (survive_kalman_tracker_report_state env pd1 w))
      ∧ (0 < w.tracker.min_report_time →
          report_state_time pd1 w
            < report_state_time pd2
                (report_state_run env mids (survive_kalman_tracker_report_state env pd1 w))))
    ∧ (w.tracker.min_report_time < 0 → (w.objmem w.tracker.so).conf = true →
        (survive_kalman_tracker_report_state env pd1 w).tracker.min_report_time
          = 1 / (w.objmem w.tracker.so).imu_freq) := by
  refine ⟨fun hmin h1 hq h2 => ?_, fun hneg hconf => report_state_min env pd1 w hconf hneg⟩
  have s1 := report_state_times env pd1 w
  rw [h1, if_pos rfl] at s1
  have hmin1 : 0 ≤ (survive_kalman_tracker_report_state env pd1 w).tracker.min_report_time := by
    rw [s1.2.1 hmin]
    exact hmin
  have sq := report_state_run_quiet env mids (survive_kalman_tracker_report_state env pd1 w)
    hmin1 hq
  have s2 := report_state_times env pd2
    (report_state_run env mids (survive_kalman_tracker_report_state env pd1 w))
  rw [h2, if_pos rfl] at s2
  have hge := s2.2.2 rfl
  rw [s2.2.1 (by rw [sq.2]; exact hmin1), sq.2, sq.1, s1.2.1 hmin, s1.1, not_lt] at hge
  refine ⟨s1.1, s2.1, hge, ?_, fun hpos => ?_⟩
  · linarith
  · linarith

theorem report_world_first_reaches :
    report_state_reaches (Collaborators.inert (fun v : ℚ => v) 3)
      ⟨PoserType.POSERDATA_IMU, 9950⟩ report_world = true := by
  rw [report_state_reaches_eq, check_valid_eq]
  norm_num [report_world, example_world, example_object, default_config, Collaborators.inert,
    report_state_time, report_state_min_report_time, normalize_model, report_state_suppress,
    survive_kalman_tracker_position_var2, normnd2, cnMatrixGet, cn_zero]

theorem report_world_second_reaches :
    report_state_reaches (Collaborators.inert (fun v : ℚ => v) 3)
      ⟨PoserType.POSERDATA_IMU, 9960⟩
      (survive_kalman_tracker_report_state (Collaborators.inert (fun v : ℚ => v) 3)
        ⟨PoserType.POSERDATA_IMU, 9950⟩ report_world) = true := by
  rw [report_state_reaches_eq, check_valid_eq]
  norm_num [report_state_eq, report_state_valid_eq, check_valid_eq, report_state_reported,
    report_world, example_world, example_object, default_config, Collaborators.inert,
    report_state_time, report_state_min_report_time, normalize_model, report_state_suppress,
    survive_kalman_tracker_position_var2, normnd2, cnMatrixGet, cn_zero]

theorem report_world_times :
    report_state_time ⟨PoserType.POSERDATA_IMU, 9950⟩ report_world = 10
    ∧ report_state_time ⟨PoserType.POSERDATA_IMU, 9960⟩
        (survive_kalman_tracker_report_state (Collaborators.inert (fun v : ℚ => v) 3)
          ⟨PoserType.POSERDATA_IMU, 9950⟩ report_world) = 10 := by
  constructor
  · norm_num [report_world, example_world, example_object, report_state_time]
  · norm_num [report_state_eq, report_state_valid_eq, check_valid_eq, report_state_reported,
      report_world, example_world, example_object, default_config, Collaborators.inert,
      report_state_time, report_state_min_report_time, normalize_model, report_state_suppress,
      survive_kalman_tracker_position_var2, normnd2, cnMatrixGet, cn_zero]

/-- Witness for C21: filter time 10 s, `min_report_time = 0`, packets with the time codes 9950
and 9960 on a 1 kHz time base, no call between them: both get to the reporting tail. -/
theorem report_state_cadence_witness :
    report_world.tracker.min_report_time
      ≤ report_state_time ⟨PoserType.POSERDATA_IMU, 9960⟩
          (report_state_run (Collaborators.inert (fun v : ℚ => v) 3) []
            (survive_kalman_tracker_report_state (Collaborators.inert (fun v : ℚ => v) 3)
              ⟨PoserType.POSERDATA_IMU, 9950⟩ report_world))
        - report_state_time ⟨PoserType.POSERDATA_IMU, 9950⟩ report_world :=
  ((report_state_cadence (Collaborators.inert (fun v : ℚ => v) 3)
      ⟨PoserType.POSERDATA_IMU, 9950⟩ ⟨PoserType.POSERDATA_IMU, 9960⟩ [] report_world).1
    (by norm_num [report_world, example_world]) report_world_first_reaches rfl
    report_world_second_reaches).2.2.1

/-- C21 as stated fails: with `min_report_time = 0` and filter time 10 s, two consecutive calls
with the time codes 9950 and 9960 (9.95 s and 9.96 s, both raised to the filter time) both get to
the reporting tail with the report time 10, so `t1 < t2` does not hold. -/
theorem report_state_same_report_time :
    0 ≤ report_world.tracker.min_report_time
    ∧ report_state_reaches (Collaborators.inert (fun v : ℚ => v) 3)
        ⟨PoserType.POSERDATA_IMU, 9950⟩ report_world = true
    ∧ report_state_reaches (Collaborators.inert (fun v : ℚ => v) 3)
        ⟨PoserType.POSERDATA_IMU, 9960⟩
        (survive_kalman_tracker_report_state (Collaborators.inert (fun v : ℚ => v) 3)
          ⟨PoserType.POSERDATA_IMU, 9950⟩ report_world) = true
    ∧ report_state_time ⟨PoserType.POSERDATA_IMU, 9950⟩ report_world = 10
    ∧ report_state_time ⟨PoserType.POSERDATA_IMU, 9960⟩
        (survive_kalman_tracker_report_state (Collaborators.inert (fun v : ℚ => v) 3)
          ⟨PoserType.POSERDATA_IMU, 9950⟩ report_world) = 10
    ∧ ¬ (report_state_time ⟨PoserType.POSERDATA_IMU, 9950⟩ report_world
        < report_state_time ⟨PoserType.POSERDATA_IMU, 9960⟩
            (survive_kalman_tracker_report_state (Collaborators.inert (fun v : ℚ => v) 3)
              ⟨PoserType.POSERDATA_IMU, 9950⟩ report_world)) := by
  refine ⟨by norm_num [report_world, example_world], report_world_first_reaches,
    report_world_second_reaches, report_world_times.1, report_world_times.2, ?_⟩
  rw [report_world_times.1, report_world_times.2]
  exact lt_irrefl _

theorem check_valid_true {F : Type} [LinearOrderedField F] (env : Collaborators F) (w : World F)
    (h : (survive_kalman_tracker_check_valid env w).1 = true) :
    (survive_kalman_tracker_check_valid env w).2 = w := by
  rw [check_valid_eq] at h ⊢
  split_ifs at h ⊢
  rfl

theorem position_var2_eq {F : Type} [LinearOrderedField F] (tracker : SurviveKalmanTracker F)
    (var_diag : Nat → F) (cnt : Nat) :
    (survive_kalman_tracker_position_var2 tracker var_diag cnt).2
      = ((List.range cnt).map
          (fun i => cnMatrixGet tracker.model.P i i * cnMatrixGet tracker.model.P i i)).sum := by
  unfold survive_kalman_tracker_position_var2 normnd2
  dsimp only
  congr 1
  apply List.map_congr_left
  intro i hi
  rw [if_pos (List.mem_range.1 hi)]

theorem report_state_suppress_iff {F : Type} [LinearOrderedField F] (w : World F) :
    report_state_suppress w = true
      ↔ ((0 < w.tracker.report_threshold_var
          ∧ w.tracker.report_threshold_var
            ≤ ((List.range w.tracker.model.error_state_size).map
                (fun i => cnMatrixGet w.tracker.model.P i i
                  * cnMatrixGet w.tracker.model.P i i)).sum)
        ∨ w.tracker.report_ignore_start_cnt < w.tracker.report_ignore_start) := by
  unfold report_state_suppress
  dsimp only
  rw [position_var2_eq]
  simp only [Bool.or_eq_true, Bool.and_eq_true, decide_eq_true_eq, gt_iff_lt, ge_iff_le]

theorem min_report_time_fields {F : Type} [LinearOrderedField F] (w : World F) :
    (report_state_min_report_time w).tracker.report_threshold_var = w.tracker.report_threshold_var
    ∧ (report_state_min_report_time w).tracker.model = w.tracker.model
    ∧ (report_state_min_report_time w).tracker.report_ignore_start_cnt
        = w.tracker.report_ignore_start_cnt
    ∧ (report_state_min_report_time w).tracker.report_ignore_start = w.tracker.report_ignore_start
    ∧ (report_state_min_report_time w).tracker.stats = w.tracker.stats
    ∧ (report_state_min_report_time w).tracker.state = w.tracker.state
    ∧ (report_state_min_report_time w).log = w.log := by
  unfold report_state_min_report_time
  split_ifs <;> exact ⟨rfl, rfl, rfl, rfl, rfl, rfl, rfl⟩

theorem report_state_reported_fields {F : Type} [LinearOrderedField F] (env : Collaborators F)
    (pd : PoserData) (t : F) (pose : SurvivePose F) (var_diag : Nat → F) (p : F) (w : World F) :
    (report_state_reported env pd t pose var_diag p w).tracker.stats.dropped_poses
        = w.tracker.stats.dropped_poses
    ∧ (report_state_reported env pd t pose var_diag p w).tracker.stats.reported_poses
        = w.tracker.stats.reported_poses + 1 := by
  unfold report_state_reported
  dsimp only
  split_ifs <;> exact ⟨rfl, rfl⟩

/-- C22 (amended): for a call of `survive_kalman_tracker_report_state` that passes the cadence
and validity checks, the report is suppressed if and only if (`report_threshold_var > 0` and the
sum of squares of the first `error_state_size` diagonal entries of `P` is greater than or equal
to `report_threshold_var`) or `report_ignore_start_cnt < report_ignore_start`: in that case
`dropped_poses` and `report_ignore_start_cnt` grow by one, no hook is invoked, the call does not
get to the reporting tail, `x` is the state that `normalize_model` leaves, and `P`, the filter
time and `last_report_time` are unchanged; otherwise the call gets to the reporting tail,
`reported_poses` grows by one and `dropped_poses` is unchanged. -/
theorem report_state_suppression {F : Type} [LinearOrderedField F] (env : Collaborators F)
    (pd : PoserData) (w : World F) (hconf : (w.objmem w.tracker.so).conf = true)
    (hcad : ¬ (report_state_time pd w
        - (report_state_min_report_time
            { w with tracker := normalize_model env.sqrt w.tracker }).tracker.last_report_time
      < (report_state_min_report_time
            { w with tracker := normalize_model env.sqrt w.tracker }).tracker.min_report_time))
    (hvalid : (survive_kalman_tracker_check_valid env (report_state_min_report_time
        { w with tracker := normalize_model env.sqrt w.tracker })).1 = true) :
    (((0 < w.tracker.report_threshold_var
          ∧ w.tracker.report_threshold_var
            ≤ ((List.range w.tracker.model.error_state_size).map
                (fun i => cnMatrixGet w.tracker.model.P i i
                  * cnMatrixGet w.tracker.model.P i i)).sum)
        ∨ w.tracker.report_ignore_start_cnt < w.tracker.report_ignore_start) →
      report_state_reaches env pd w = false
      ∧ (survive_kalman_tracker_report_state env pd w).tracker.stats.dropped_poses
          = w.tracker.stats.dropped_poses + 1
      ∧ (survive_kalman_tracker_report_state env pd w).tracker.report_ignore_start_cnt
          = w.tracker.report_ignore_start_cnt + 1
      ∧ (survive_kalman_tracker_report_state env pd w).log = w.log
      ∧ (survive_kalman_tracker_report_state env pd w).tracker.state
          = (normalize_model env.sqrt w.tracker).state
      ∧ (survive_kalman_tracker_report_state env pd w).tracker.model = w.tracker.model
      ∧ (survive_kalman_tracker_report_state env pd w).tracker.last_report_time
          = w.tracker.last_report_time)
    ∧ (¬ ((0 < w.tracker.report_threshold_var
          ∧ w.tracker.report_threshold_var
            ≤ ((List.range w.tracker.model.error_state_size).map
                (fun i => cnMatrixGet w.tracker.model.P i i
                  * cnMatrixGet w.tracker.model.P i i)).sum)
        ∨ w.tracker.report_ignore_start_cnt < w.tracker.report_ignore_start) →
      report_state_reaches env pd w = true
      ∧ (survive_kalman_tracker_report_state env pd w).tracker.stats.reported_poses
          = w.tracker.stats.reported_poses + 1
      ∧ (survive_kalman_tracker_report_state env pd w).tracker.stats.dropped_poses
          = w.tracker.stats.dropped_poses) := by
  have hM := min_report_time_fields { w with tracker := normalize_model env.sqrt w.tracker }
  have hML := min_report_time_times { w with tracker := normalize_model env.sqrt w.tracker }
  have hV := check_valid_true env _ hvalid
  have hc : ¬ (w.objmem w.tracker.so).conf = false := by
    rw [hconf]
    simp
  have hv : ¬ (!(survive_kalman_tracker_check_valid env (report_state_min_report_time
      { w with tracker := normalize_model env.sqrt w.tracker })).1) = true := by
    rw [hvalid]
    simp
  have hiff := report_state_suppress_iff
    (report_state_min_report_time { w with tracker := normalize_model env.sqrt w.tracker })
  rw [hM.1, hM.2.1, hM.2.2.1, hM.2.2.2.1] at hiff
  rw [report_state_eq, report_state_reaches_eq, if_neg hc, if_neg hc, if_neg hcad, if_neg hcad,
    if_neg hv, if_neg hv, report_state_valid_eq, hV]
  constructor
  · intro hS
    have hs := hiff.2 hS
    rw [hs, if_pos rfl]
    refine ⟨rfl, ?_, ?_, ?_, ?_, ?_, ?_⟩
    · exact congrArg (fun s => s.dropped_poses + 1) hM.2.2.2.2.1
    · exact congrArg (fun c => c + 1) hM.2.2.1
    · exact hM.2.2.2.2.2.2
    · exact hM.2.2.2.2.2.1
    · exact hM.2.1
    · exact hML.1
  · intro hS
    have hs : report_state_suppress (report_state_min_report_time
        { w with tracker := normalize_model env.sqrt w.tracker }) = false := by
      rw [← Bool.not_eq_true]
      exact fun h => hS (hiff.1 h)
    rw [hs, if_neg (by simp)]
    have hR := report_state_reported_fields env pd (report_state_time pd w)
      (survive_kalman_tracker_predict env (report_state_min_report_time
        { w with tracker := normalize_model env.sqrt w.tracker })
        (report_state_time pd w) SurvivePose.zero)
      (survive_kalman_tracker_position_var2 (report_state_min_report_time
        { w with tracker := normalize_model env.sqrt w.tracker }).tracker (fun _ => 0)
        (report_state_min_report_time
          { w with tracker := normalize_model env.sqrt w.tracker }).tracker.model.error_state_size).1
      (survive_kalman_tracker_position_var2 (report_state_min_report_time
        { w with tracker := normalize_model env.sqrt w.tracker }).tracker (fun _ => 0)
        (report_state_min_report_time
          { w with tracker := normalize_model env.sqrt w.tracker }).tracker.model.error_state_size).2
      (report_state_min_report_time { w with tracker := normalize_model env.sqrt w.tracker })
    refine ⟨rfl, hR.2.trans ?_, hR.1.trans ?_⟩
    · exact congrArg (fun s => s.reported_poses + 1) hM.2.2.2.2.1
    · exact congrArg (fun s => s.dropped_poses) hM.2.2.2.2.1

theorem report_state_suppressed_result {F : Type} [LinearOrderedField F]
    (env : Collaborators F) (pd : PoserData) (w : World F)
    (hconf : (w.objmem w.tracker.so).conf = true)
    (hcad : ¬ (report_state_time pd w
        - (report_state_min_report_time
            { w with tracker := normalize_model env.sqrt w.tracker }).tracker.last_report_time
      < (report_state_min_report_time
            { w with tracker := normalize_model env.sqrt w.tracker }).tracker.min_report_time))
    (hvalid : (survive_kalman_tracker_check_valid env (report_state_min_report_time
        { w with tracker := normalize_model env.sqrt w.tracker })).1 = true)
    (hs : report_state_suppress (report_state_min_report_time
        { w with tracker := normalize_model env.sqrt w.tracker }) = true) :
    report_state_reaches env pd w = false
    ∧ (survive_kalman_tracker_report_state env pd w).tracker.stats.dropped_poses
        = w.tracker.stats.dropped_poses + 1
    ∧ (survive_kalman_tracker_report_state env pd w).log = w.log := by
  have hM := min_report_time_fields { w with tracker := normalize_model env.sqrt w.tracker }
  have hV := check_valid_true env _ hvalid
  have hc : ¬ (w.objmem w.tracker.so).conf = false := by
    rw [hconf]
    simp
  have hv : ¬ (!(survive_kalman_tracker_check_valid env (report_state_min_report_time
      { w with tracker := normalize_model env.sqrt w.tracker })).1) = true := by
    rw [hvalid]
    simp
  rw [report_state_eq, report_state_reaches_eq, if_neg hc, if_neg hc, if_neg hcad, if_neg hcad,
    if_neg hv, if_neg hv, report_state_valid_eq, hV, hs, if_pos rfl]
  exact ⟨rfl, congrArg (fun s => s.dropped_poses + 1) hM.2.2.2.2.1, hM.2.2.2.2.2.2⟩

theorem threshold_world_passes :
    ¬ (report_state_time ⟨PoserType.POSERDATA_IMU, 9950⟩ threshold_world
        - (report_state_min_report_time
            { threshold_world with
              tracker := normalize_model (Collaborators.inert (fun v : ℚ => v) 3).sqrt
                threshold_world.tracker }).tracker.last_report_time
      < (report_state_min_report_time
            { threshold_world with
              tracker := normalize_model (Collaborators.inert (fun v : ℚ => v) 3).sqrt
                threshold_world.tracker }).tracker.min_report_time)
    ∧ (survive_kalman_tracker_check_valid (Collaborators.inert (fun v : ℚ => v) 3)
        (report_state_min_report_time
          { threshold_world with
            tracker := normalize_model (Collaborators.inert (fun v : ℚ => v) 3).sqrt
              threshold_world.tracker })).1 = true := by
  constructor
  · norm_num [threshold_world, example_world, example_object, default_config,
      Collaborators.inert, report_state_time, report_state_min_report_time, normalize_model]
  · rw [check_valid_eq]
    norm_num [threshold_world, example_world, example_object, default_config,
      Collaborators.inert, report_state_min_report_time, normalize_model]

theorem threshold_world_sum (n : Nat) (hn : 1 ≤ n) :
    ((List.range n).map
      (fun i => cnMatrixGet threshold_world.tracker.model.P i i
        * cnMatrixGet threshold_world.tracker.model.P i i)).sum = 1 := by
  obtain ⟨m, rfl⟩ : ∃ m, n = m + 1 := ⟨n - 1, by omega⟩
  clear hn
  induction m with
  | zero => norm_num [threshold_world, example_world, cnMatrixGet, cn_set_diag, List.range_succ]
  | succ m ih =>
    rw [List.range_succ, List.map_append, List.sum_append, ih]
    norm_num [threshold_world, example_world, cnMatrixGet, cn_set_diag]

/-- Witness for C22: `report_threshold_var = 1` and a covariance whose diagonal has the squared
norm 1: the report is suppressed and `dropped_poses` grows by one. -/
theorem report_state_suppression_witness :
    (survive_kalman_tracker_report_state (Collaborators.inert (fun v : ℚ => v) 3)
        ⟨PoserType.POSERDATA_IMU, 9950⟩ threshold_world).tracker.stats.dropped_poses
      = threshold_world.tracker.stats.dropped_poses + 1 :=
  ((report_state_suppression (Collaborators.inert (fun v : ℚ => v) 3)
      ⟨PoserType.POSERDATA_IMU, 9950⟩ threshold_world rfl threshold_world_passes.1
      threshold_world_passes.2).1
    (Or.inl ⟨by norm_num [threshold_world, example_world],
      by rw [threshold_world_sum _ (by norm_num [threshold_world, example_world])]
         norm_num [threshold_world, example_world]⟩)).2.1

/-- C22 as stated fails: with `report_threshold_var = 1` and a covariance whose first seven
diagonal entries `(1, 0, 0, 0, 0, 0, 0)` have the sum of squares 1, a call that passes the
cadence and validity checks is suppressed (`dropped_poses` grows by one and the call does not
get to the reporting tail), although the variance is not strictly greater than
`report_threshold_var` and `report_ignore_start_cnt < report_ignore_start` is false. -/
theorem report_state_suppressed_at_threshold :
    (threshold_world.objmem threshold_world.tracker.so).conf = true
    ∧ ¬ (report_state_time ⟨PoserType.POSERDATA_IMU, 9950⟩ threshold_world
        - (report_state_min_report_time
            { threshold_world with
              tracker := normalize_model (Collaborators.inert (fun v : ℚ => v) 3).sqrt
                threshold_world.tracker }).tracker.last_report_time
      < (report_state_min_report_time
            { threshold_world with
              tracker := normalize_model (Collaborators.inert (fun v : ℚ => v) 3).sqrt
                threshold_world.tracker }).tracker.min_report_time)
    ∧ (survive_kalman_tracker_check_valid (Collaborators.inert (fun v : ℚ => v) 3)
        (report_state_min_report_time
          { threshold_world with
            tracker := normalize_model (Collaborators.inert (fun v : ℚ => v) 3).sqrt
              threshold_world.tracker })).1 = true
    ∧ ¬ ((0 < threshold_world.tracker.report_threshold_var
          ∧ threshold_world.tracker.report_threshold_var
            < ((List.range 7).map
                (fun i => cnMatrixGet threshold_world.tracker.model.P i i
                  * cnMatrixGet threshold_world.tracker.model.P i i)).sum)
        ∨ threshold_world.tracker.report_ignore_start_cnt
            < threshold_world.tracker.report_ignore_start)
    ∧ report_state_reaches (Collaborators.inert (fun v : ℚ => v) 3)
        ⟨PoserType.POSERDATA_IMU, 9950⟩ threshold_world = false
    ∧ (survive_kalman_tracker_report_state (Collaborators.inert (fun v : ℚ => v) 3)
        ⟨PoserType.POSERDATA_IMU, 9950⟩ threshold_world).tracker.stats.dropped_poses
        = threshold_world.tracker.stats.dropped_poses + 1
    ∧ (survive_kalman_tracker_report_state (Collaborators.inert (fun v : ℚ => v) 3)
        ⟨PoserType.POSERDATA_IMU, 9950⟩ threshold_world).log = threshold_world.log := by
  have hsup : report_state_suppress (report_state_min_report_time
      { threshold_world with
        tracker := normalize_model (Collaborators.inert (fun v : ℚ => v) 3).sqrt
          threshold_world.tracker }) = true := by
    have hM := min_report_time_fields
      { threshold_world with
        tracker := normalize_model (Collaborators.inert (fun v : ℚ => v) 3).sqrt
          threshold_world.tracker }
    have hiff := report_state_suppress_iff (report_state_min_report_time
      { threshold_world with
        tracker := normalize_model (Collaborators.inert (fun v : ℚ => v) 3).sqrt
          threshold_world.tracker })
    rw [hM.1, hM.2.1, hM.2.2.1, hM.2.2.2.1] at hiff
    refine hiff.2 (Or.inl ⟨?_, ?_⟩)
    · show (0 : ℚ) < threshold_world.tracker.report_threshold_var
      norm_num [threshold_world, example_world]
    · show threshold_world.tracker.report_threshold_var
        ≤ ((List.range threshold_world.tracker.model.error_state_size).map
            (fun i => cnMatrixGet threshold_world.tracker.model.P i i
              * cnMatrixGet threshold_world.tracker.model.P i i)).sum
      rw [threshold_world_sum _ (by norm_num [threshold_world, example_world])]
      norm_num [threshold_world, example_world]
  have hres := report_state_suppressed_result (Collaborators.inert (fun v : ℚ => v) 3)
    ⟨PoserType.POSERDATA_IMU, 9950⟩ threshold_world rfl threshold_world_passes.1
    threshold_world_passes.2 hsup
  refine ⟨rfl, threshold_world_passes.1, threshold_world_passes.2, ?_, hres.1, hres.2.1,
    hres.2.2⟩
  rw [threshold_world_sum 7 (by norm_num)]
  norm_num [threshold_world, example_world, default_config]

theorem quat_sum_of_magnitude {F : Type} [LinearOrderedField F] (sqrt : F → F)
    (hs : ∀ x, 0 ≤ x → 0 ≤ sqrt x ∧ sqrt x * sqrt x = x) (q : Fin 4 → F)
    (h : quatmagnitude sqrt q = 1) :
    q 0 * q 0 + q 1 * q 1 + q 2 * q 2 + q 3 * q 3 = 1 := by
  have h0 : 0 ≤ q 0 * q 0 + q 1 * q 1 + q 2 * q 2 + q 3 * q 3 := by
    nlinarith [mul_self_nonneg (q 0), mul_self_nonneg (q 1), mul_self_nonneg (q 2),
      mul_self_nonneg (q 3)]
  have h1 := (hs _ h0).2
  unfold quatmagnitude at h
  rw [h] at h1
  linarith

theorem quatnormalize_twice {F : Type} [LinearOrderedField F] (sqrt : F → F)
    (hs : ∀ x, 0 ≤ x → 0 ≤ sqrt x ∧ sqrt x * sqrt x = x) (q : Fin 4 → F)
    (hq : ∃ i, q i ≠ 0) :
    quatnormalize sqrt (quatnormalize sqrt q) = quatnormalize sqrt q :=
  quatnormalize_of_unit sqrt hs _
    (quat_sum_of_magnitude sqrt hs _ (quatnormalize_unit sqrt hs q hq))

theorem copy_model_fields {F : Type} [LinearOrderedField F] (sqrt : F → F) (src : Nat → F)
    (n : Nat) (h21 : 21 ≤ n) :
    (copy_model sqrt src n).Pose.Rot = quatnormalize sqrt ![src 3, src 4, src 5, src 6]
    ∧ (copy_model sqrt src n).IMUCorrection = ![src 17, src 18, src 19, src 20]
    ∧ (copy_model sqrt src n).Pose.Pos = ![src 0, src 1, src 2]
    ∧ (copy_model sqrt src n).Velocity
        = { Pos := ![src 7, src 8, src 9], AxisAngleRot := ![src 10, src 11, src 12] }
    ∧ (copy_model sqrt src n).Acc = ![src 13, src 14, src 15]
    ∧ (copy_model sqrt src n).AccScale = src 16 := by
  have e : ∀ i, i < 21 → (if i < n then src i else
      ({ (SurviveKalmanModel.zero : SurviveKalmanModel F) with
        IMUCorrection := ![1, 0, 0, 0], AccScale := 1 } : SurviveKalmanModel F).toFlat i)
      = src i := fun i hi => if_pos (by omega)
  unfold copy_model SurviveKalmanModel.ofFlat
  dsimp only
  rw [e 0 (by norm_num), e 1 (by norm_num), e 2 (by norm_num), e 3 (by norm_num),
    e 4 (by norm_num), e 5 (by norm_num), e 6 (by norm_num), e 7 (by norm_num),
    e 8 (by norm_num), e 9 (by norm_num), e 10 (by norm_num), e 11 (by norm_num),
    e 12 (by norm_num), e 13 (by norm_num), e 14 (by norm_num), e 15 (by norm_num),
    e 16 (by norm_num), e 17 (by norm_num), e 18 (by norm_num), e 19 (by norm_num),
    e 20 (by norm_num)]
  exact ⟨rfl, rfl, rfl, rfl, rfl, rfl⟩

theorem toFlat_rot_imu {F : Type} [LinearOrderedField F] (m : SurviveKalmanModel F)
    (r q : Fin 4 → F) (i : Nat) (hi : i < 27) (h : i < 3 ∨ (7 ≤ i ∧ i < 17) ∨ 21 ≤ i) :
    ({ m with Pose := { m.Pose with Rot := r }, IMUCorrection := q } :
      SurviveKalmanModel F).toFlat i = m.toFlat i := by
  interval_cases i <;> first | rfl | omega

theorem kalman_model_normalize_other {F : Type} [LinearOrderedField F] (sqrt : F → F)
    (x : CnMat F) (i : Nat) (hi : i < 27) (h : i < 3 ∨ (7 ≤ i ∧ i < 17) ∨ 21 ≤ i) :
    (kalman_model_normalize sqrt x).data i 0 = x.data i 0 := by
  unfold kalman_model_normalize
  dsimp only
  by_cases hr : i < x.rows
  · rw [if_pos ⟨hr, rfl⟩]
    have h1 := toFlat_rot_imu (copy_model sqrt (cn_as_const_vector x) x.rows)
      (quatnormalize sqrt (copy_model sqrt (cn_as_const_vector x) x.rows).Pose.Rot)
      (quatnormalize sqrt (copy_model sqrt (cn_as_const_vector x) x.rows).IMUCorrection) i hi h
    have h2 : (copy_model sqrt (cn_as_const_vector x) x.rows).toFlat i
        = cn_as_const_vector x i := by
      unfold copy_model
      dsimp only
      have h3 := toFlat_rot_imu (SurviveKalmanModel.ofFlat (fun i =>
          if i < x.rows then cn_as_const_vector x i
          else ({ (SurviveKalmanModel.zero : SurviveKalmanModel F) with
            IMUCorrection := ![1, 0, 0, 0], AccScale := 1 } : SurviveKalmanModel F).toFlat i))
        (quatnormalize sqrt (SurviveKalmanModel.ofFlat (fun i =>
          if i < x.rows then cn_as_const_vector x i
          else ({ (SurviveKalmanModel.zero : SurviveKalmanModel F) with
            IMUCorrection := ![1, 0, 0, 0], AccScale := 1 } :
              SurviveKalmanModel F).toFlat i)).Pose.Rot)
        (SurviveKalmanModel.ofFlat (fun i =>
          if i < x.rows then cn_as_const_vector x i
          else ({ (SurviveKalmanModel.zero : SurviveKalmanModel F) with
            IMUCorrection := ![1, 0, 0, 0], AccScale := 1 } :
              SurviveKalmanModel F).toFlat i)).IMUCorrection i hi h
      exact h3.trans ((toFlat_ofFlat _ i hi).trans (if_pos hr))
    exact h1.trans h2
  · rw [if_neg (fun hh => hr hh.1)]

theorem kalman_model_normalize_quats {F : Type} [LinearOrderedField F] (sqrt : F → F)
    (x : CnMat F) (h21 : 21 ≤ x.rows) :
    (SurviveKalmanModel.ofFlat (cn_as_const_vector (kalman_model_normalize sqrt x))).Pose.Rot
      = quatnormalize sqrt (quatnormalize sqrt
          (SurviveKalmanModel.ofFlat (cn_as_const_vector x)).Pose.Rot)
    ∧ (SurviveKalmanModel.ofFlat
        (cn_as_const_vector (kalman_model_normalize sqrt x))).IMUCorrection
      = quatnormalize sqrt (SurviveKalmanModel.ofFlat (cn_as_const_vector x)).IMUCorrection := by
  have hc := copy_model_fields sqrt (cn_as_const_vector x) x.rows h21
  have hd : ∀ i, i < 21 → cn_as_const_vector (kalman_model_normalize sqrt x) i
      = ({ copy_model sqrt (cn_as_const_vector x) x.rows with
            Pose := { (copy_model sqrt (cn_as_const_vector x) x.rows).Pose with
              Rot := quatnormalize sqrt (copy_model sqrt (cn_as_const_vector x) x.rows).Pose.Rot }
            IMUCorrection :=
              quatnormalize sqrt (copy_model sqrt (cn_as_const_vector x) x.rows).IMUCorrection } :
          SurviveKalmanModel F).toFlat i := by
    intro i hi
    unfold cn_as_const_vector kalman_model_normalize
    dsimp only
    rw [if_pos ⟨by omega, rfl⟩]
    rfl
  constructor
  · have e0 : (SurviveKalmanModel.ofFlat (cn_as_const_vector x)).Pose.Rot
        = ![cn_as_const_vector x 3, cn_as_const_vector x 4, cn_as_const_vector x 5,
            cn_as_const_vector x 6] := rfl
    rw [e0, ← hc.1]
    funext k
    fin_cases k
    · exact hd 3 (by norm_num)
    · exact hd 4 (by norm_num)
    · exact hd 5 (by norm_num)
    · exact hd 6 (by norm_num)
  · have e : (SurviveKalmanModel.ofFlat (cn_as_const_vector x)).IMUCorrection
        = (copy_model sqrt (cn_as_const_vector x) x.rows).IMUCorrection := hc.2.1.symm
    rw [e]
    funext k
    fin_cases k
    · exact hd 17 (by norm_num)
    · exact hd 18 (by norm_num)
    · exact hd 19 (by norm_num)
    · exact hd 20 (by norm_num)

/-- C24: evaluation of the hook `kalman_model_normalize` on the state vector of 27 scalars with
unit quaternions, `AccScale = 2` and the accelerometer bias `(1, 0, 0)`: the hook leaves
`AccScale = 2`, outside `[0.95, 1.05]`, and the bias component 1, outside `[-0.1, 0.1]`, whereas
`normalize_model`, which the tracker runs after each predict and update, takes the same state to
`AccScale = 1.05` and the bias component `0.1`. -/
theorem kalman_model_normalize_no_clamp :
    (SurviveKalmanModel.ofFlat (cn_as_const_vector unclamped_state)).Pose.Rot = ![1, 0, 0, 0]
    ∧ (SurviveKalmanModel.ofFlat (cn_as_const_vector unclamped_state)).IMUCorrection
        = ![1, 0, 0, 0]
    ∧ (SurviveKalmanModel.ofFlat (cn_as_const_vector
        (kalman_model_normalize (fun v : ℚ => v) unclamped_state))).AccScale = 2
    ∧ ¬ ((SurviveKalmanModel.ofFlat (cn_as_const_vector
        (kalman_model_normalize (fun v : ℚ => v) unclamped_state))).AccScale ≤ 105 / 100)
    ∧ (SurviveKalmanModel.ofFlat (cn_as_const_vector
        (kalman_model_normalize (fun v : ℚ => v) unclamped_state))).AccBias 0 = 1
    ∧ ¬ ((SurviveKalmanModel.ofFlat (cn_as_const_vector
        (kalman_model_normalize (fun v : ℚ => v) unclamped_state))).AccBias 0 ≤ 1 / 10)
    ∧ (normalize_model (fun v : ℚ => v)
        { (default_config : SurviveKalmanTracker ℚ) with
          state := SurviveKalmanModel.ofFlat (cn_as_const_vector unclamped_state) }).state.AccScale
        = 105 / 100
    ∧ (normalize_model (fun v : ℚ => v)
        { (default_config : SurviveKalmanTracker ℚ) with
          state := SurviveKalmanModel.ofFlat (cn_as_const_vector unclamped_state) }).state.AccBias 0
        = 1 / 10 := by
  have h16 := kalman_model_normalize_other (fun v : ℚ => v) unclamped_state 16 (by norm_num)
    (by norm_num)
  have h21 := kalman_model_normalize_other (fun v : ℚ => v) unclamped_state 21 (by norm_num)
    (by norm_num)
  have e16 : (SurviveKalmanModel.ofFlat (cn_as_const_vector
      (kalman_model_normalize (fun v : ℚ => v) unclamped_state))).AccScale = 2 := by
    refine Eq.trans h16 ?_
    simp [unclamped_state, cnVec]
  have e21 : (SurviveKalmanModel.ofFlat (cn_as_const_vector
      (kalman_model_normalize (fun v : ℚ => v) unclamped_state))).AccBias 0 = 1 := by
    refine Eq.trans h21 ?_
    simp [unclamped_state, cnVec]
  refine ⟨?_, ?_, e16, ?_, e21, ?_, ?_, ?_⟩
  · simp [SurviveKalmanModel.ofFlat, cn_as_const_vector, unclamped_state, cnVec]
  · simp [SurviveKalmanModel.ofFlat, cn_as_const_vector, unclamped_state, cnVec]
  · rw [e16]
    norm_num
  · rw [e21]
    norm_num
  · norm_num [normalize_model, linmath_enforce_range, SurviveKalmanModel.ofFlat,
      cn_as_const_vector, unclamped_state, cnVec]
  · norm_num [normalize_model, linmath_enforce_range, SurviveKalmanModel.ofFlat,
      cn_as_const_vector, unclamped_state, cnVec]

theorem objects_valid_fold {α : Type} (Z : α → Bool) (l : List α) :
    ∀ b : Bool, l.foldl (fun valid p => if !valid then valid || !Z p else valid) b
      = (b || l.any (fun p => !Z p)) := by
  induction l with
  | nil => intro b; simp
  | cons a l ih =>
    intro b
    rw [List.foldl_cons, ih]
    cases b <;> simp

theorem quatiszero_iff {F : Type} [LinearOrderedField F] (q : Fin 4 → F) :
    quatiszero q = true ↔ ∀ i, q i = 0 := by
  unfold quatiszero
  simp only [Bool.and_eq_true, decide_eq_true_eq]
  constructor
  · rintro ⟨⟨⟨h0, h1⟩, h2⟩, h3⟩ i
    fin_cases i <;> assumption
  · intro h
    exact ⟨⟨⟨h 0, h 1⟩, h 2⟩, h 3⟩

theorem lost_tracking_eq {F : Type} [LinearOrderedField F] (env : Collaborators F) (w : World F)
    (allowLHReset : Bool) :
    survive_kalman_tracker_lost_tracking env w allowLHReset
      = if (!allowLHReset) = true then
          { w with
            tracker := survive_kalman_tracker_reinit env { w.tracker with light_residuals_all := 0 }
            objmem := (survive_kalman_tracker_lost_tracking env w false).objmem }
        else if (!(w.ctx.objs.foldl
            (fun valid p =>
              if !valid then
                valid || !quatiszero
                  ((survive_kalman_tracker_lost_tracking env w false).objmem p).OutPoseIMU.Rot
              else valid) false)) = true then
          { w with
            tracker := survive_kalman_tracker_reinit env { w.tracker with light_residuals_all := 0 }
            objmem := (survive_kalman_tracker_lost_tracking env w false).objmem
            ctx := { w.ctx with
              PositionSet := fun lh => if lh < w.ctx.activeLighthouses then false
                else w.ctx.PositionSet lh } }
        else
          { w with
            tracker := survive_kalman_tracker_reinit env { w.tracker with light_residuals_all := 0 }
            objmem := (survive_kalman_tracker_lost_tracking env w false).objmem } :=
  rfl

theorem lost_tracking_objmem {F : Type} [LinearOrderedField F] (env : Collaborators F)
    (w : World F) :
    ((survive_kalman_tracker_lost_tracking env w false).objmem w.tracker.so).OutPoseIMU
        = SurvivePose.zero
    ∧ ((survive_kalman_tracker_lost_tracking env w false).objmem w.tracker.so).OutPose
        = SurvivePose.zero
    ∧ ∀ p, p ≠ w.tracker.so →
        (survive_kalman_tracker_lost_tracking env w false).objmem p = w.objmem p := by
  unfold survive_kalman_tracker_lost_tracking
  simp only [Bool.not_false, if_true]
  refine ⟨by simp, by simp, fun p hp => ?_⟩
  simp [Function.update, hp]

/-- C25: for `survive_kalman_tracker_lost_tracking` on a non-null tracker: the tracker's own
`OutPoseIMU` is zeroed and the other objects are left as they were; when `allowLHReset` is false
the context (every `PositionSet` flag) is unchanged; when it is true and, after that zeroing,
every object of the context has an all-zero `OutPoseIMU` rotation quaternion, the flag of every
active base station is cleared and the other flags are unchanged; when it is true and some
object has a non-zero quaternion, no flag changes. -/
theorem lost_tracking_lighthouses {F : Type} [LinearOrderedField F] (env : Collaborators F)
    (w : World F) (allowLHReset : Bool) :
    ((survive_kalman_tracker_lost_tracking env w allowLHReset).objmem w.tracker.so).OutPoseIMU
        = SurvivePose.zero
    ∧ (∀ p, p ≠ w.tracker.so →
        (survive_kalman_tracker_lost_tracking env w allowLHReset).objmem p = w.objmem p)
    ∧ (allowLHReset = false →
        (survive_kalman_tracker_lost_tracking env w allowLHReset).ctx = w.ctx)
    ∧ (allowLHReset = true →
        (∀ p ∈ w.ctx.objs, ∀ i,
          ((survive_kalman_tracker_lost_tracking env w allowLHReset).objmem p).OutPoseIMU.Rot i
            = 0) →
        ∀ lh, (survive_kalman_tracker_lost_tracking env w allowLHReset).ctx.PositionSet lh
          = if lh < w.ctx.activeLighthouses then false else w.ctx.PositionSet lh)
    ∧ (allowLHReset = true →
        ¬ (∀ p ∈ w.ctx.objs, ∀ i,
          ((survive_kalman_tracker_lost_tracking env w allowLHReset).objmem p).OutPoseIMU.Rot i
            = 0) →
        (survive_kalman_tracker_lost_tracking env w allowLHReset).ctx = w.ctx) := by
  have hobj : (survive_kalman_tracker_lost_tracking env w allowLHReset).objmem
      = (survive_kalman_tracker_lost_tracking env w false).objmem := by
    rw [lost_tracking_eq env w allowLHReset]
    split_ifs <;> rfl
  have hom := lost_tracking_objmem env w
  have hvalid : (w.ctx.objs.foldl
      (fun valid p =>
        if !valid then
          valid || !quatiszero
            ((survive_kalman_tracker_lost_tracking env w false).objmem p).OutPoseIMU.Rot
        else valid) false) = false
      ↔ ∀ p ∈ w.ctx.objs, ∀ i,
          ((survive_kalman_tracker_lost_tracking env w false).objmem p).OutPoseIMU.Rot i = 0 := by
    rw [objects_valid_fold (fun p => quatiszero
      ((survive_kalman_tracker_lost_tracking env w false).objmem p).OutPoseIMU.Rot)]
    simp only [Bool.false_or, List.any_eq_false, Bool.not_eq_true', Bool.not_eq_false,
      quatiszero_iff]
  rw [hobj]
  refine ⟨hom.1, hom.2.2, ?_, ?_, ?_⟩
  · intro ha
    rw [lost_tracking_eq, ha]
    rfl
  · intro ha hall lh
    rw [lost_tracking_eq, ha, if_neg (by simp), if_pos (by rw [hvalid.2 hall]; rfl)]
  · intro ha hall
    rw [lost_tracking_eq, ha, if_neg (by simp), if_neg]
    intro h
    apply hall
    apply hvalid.1
    rw [Bool.not_eq_true'] at h
    exact h

/-- Witness for C25: a context with one object, the tracker's own: with `allowLHReset` the flag of
the active base station 0 is cleared. -/
theorem lost_tracking_lighthouses_witness :
    (survive_kalman_tracker_lost_tracking (Collaborators.inert (fun v : ℚ => v) 3)
        single_object_world true).ctx.PositionSet 0
      = if 0 < single_object_world.ctx.activeLighthouses then false
        else single_object_world.ctx.PositionSet 0 :=
  (lost_tracking_lighthouses (Collaborators.inert (fun v : ℚ => v) 3) single_object_world
    true).2.2.2.1 rfl
    (by
      intro p hp i
      have hp2 : p = single_object_world.tracker.so := by
        simpa [single_object_world, example_world] using hp
      rw [hp2, (lost_tracking_lighthouses (Collaborators.inert (fun v : ℚ => v) 3)
        single_object_world true).1]
      rfl) 0

theorem foldl_set_rows {F : Type} [LinearOrderedField F] (a b : Nat → Nat)
    (v : CnMat F → Nat → F) (l : List Nat) :
    ∀ P : CnMat F, (l.foldl (fun P i => cnMatrixSet P (a i) (b i) (v P i)) P).rows = P.rows := by
  induction l with
  | nil => intro P; rfl
  | cons x l ih =>
    intro P
    rw [List.foldl_cons, ih]
    rfl

theorem reinit_P_rows {F : Type} [LinearOrderedField F] (env : Collaborators F)
    (tracker : SurviveKalmanTracker F) :
    (survive_kalman_tracker_reinit env tracker).model.P.rows
      = (env.cnkalman_state_reset tracker.model).P.rows := by
  have h1 := foldl_set_rows (F := F) (fun i => i) (fun i => i)
    (fun P i => cnMatrixGet P i i + 10) (List.range 7)
    (env.cnkalman_state_reset tracker.model).P
  have h2 := foldl_set_rows (F := F) (fun i => model_IMUCorrection_offset + i)
    (fun i => model_IMUCorrection_offset + i)
    (fun _ _ => tracker.params.initial_variance_imu_correction) (List.range 4)
    ((List.range 7).foldl (fun P i => cnMatrixSet P i i (cnMatrixGet P i i + 10))
      (env.cnkalman_state_reset tracker.model).P)
  unfold survive_kalman_tracker_reinit
  dsimp only
  by_cases ha : tracker.params.initial_acc_scale_variance ≠ 0
  · rw [if_pos ha]
    by_cases hb : tracker.params.initial_variance_imu_correction ≠ 0
    · rw [if_pos hb]
      exact h2.trans h1
    · rw [if_neg hb]
      exact h1
  · rw [if_neg ha]
    by_cases hb : tracker.params.initial_variance_imu_correction ≠ 0
    · rw [if_pos hb]
      exact h2.trans h1
    · rw [if_neg hb]
      exact h1

theorem reinit_P_acc_scale {F : Type} [LinearOrderedField F] (env : Collaborators F)
    (tracker : SurviveKalmanTracker F) (h : tracker.params.initial_acc_scale_variance ≠ 0) :
    cnMatrixGet (survive_kalman_tracker_reinit env tracker).model.P model_AccScale_offset
      model_AccScale_offset = tracker.params.initial_acc_scale_variance := by
  unfold survive_kalman_tracker_reinit
  dsimp only
  rw [if_pos h]
  simp [cnMatrixSet, cnMatrixGet]

theorem reinit_model_dims {F : Type} [LinearOrderedField F] (env : Collaborators F)
    (tracker : SurviveKalmanTracker F) :
    (survive_kalman_tracker_reinit env tracker).model.state_cnt
        = (env.cnkalman_state_reset tracker.model).state_cnt
    ∧ (survive_kalman_tracker_reinit env tracker).model.error_state_size
        = (env.cnkalman_state_reset tracker.model).error_state_size :=
  ⟨rfl, rfl⟩

/-- C27: evaluation of `survive_kalman_tracker_init` (which ends in
`survive_kalman_tracker_reinit`) on the default configuration with
`initial_acc_scale_variance = 1`, in error-state mode with the truncation on: the state count is
17, the error-state dimension and the dimension of `P` are 16, and the value 1 is written to `P`
at the index 16 of `AccScale` in the nominal state, which is not smaller than the dimension of
`P`. -/
theorem reinit_writes_past_P :
    acc_scale_config.use_error_state = true
    ∧ acc_scale_config.minimize_state_space = 1
    ∧ acc_scale_config.params.initial_acc_scale_variance = 1
    ∧ (survive_kalman_tracker_init (Collaborators.inert (fun v : ℚ => v) 3) acc_scale_config 0
        true true).model.state_cnt = 17
    ∧ (survive_kalman_tracker_init (Collaborators.inert (fun v : ℚ => v) 3) acc_scale_config 0
        true true).model.error_state_size = 16
    ∧ (survive_kalman_tracker_init (Collaborators.inert (fun v : ℚ => v) 3) acc_scale_config 0
        true true).model.P.rows = 16
    ∧ cnMatrixGet (survive_kalman_tracker_init (Collaborators.inert (fun v : ℚ => v) 3)
        acc_scale_config 0 true true).model.P model_AccScale_offset model_AccScale_offset = 1
    ∧ ¬ (model_AccScale_offset
        < (survive_kalman_tracker_init (Collaborators.inert (fun v : ℚ => v) 3) acc_scale_config 0
            true true).model.P.rows) := by
  have hcnt : (survive_kalman_tracker_init (Collaborators.inert (fun v : ℚ => v) 3)
      acc_scale_config 0 true true).model.state_cnt = 17 := by
    unfold survive_kalman_tracker_init
    dsimp only
    rw [(reinit_model_dims _ _).1]
    norm_num [Collaborators.inert, init_filter, init_state_cnt, cnkalman_error_state_init,
      cnkalman_state_init, acc_scale_config, default_config, SURVIVE_MODEL_MAX_STATE_CNT]
  have herr : (survive_kalman_tracker_init (Collaborators.inert (fun v : ℚ => v) 3)
      acc_scale_config 0 true true).model.error_state_size = 16 := by
    unfold survive_kalman_tracker_init
    dsimp only
    rw [(reinit_model_dims _ _).2]
    norm_num [Collaborators.inert, init_filter, init_state_cnt, cnkalman_error_state_init,
      cnkalman_state_init, acc_scale_config, default_config, SURVIVE_MODEL_MAX_STATE_CNT]
  have hrows : (survive_kalman_tracker_init (Collaborators.inert (fun v : ℚ => v) 3)
      acc_scale_config 0 true true).model.P.rows = 16 := by
    unfold survive_kalman_tracker_init
    dsimp only
    rw [reinit_P_rows]
    norm_num [Collaborators.inert, init_filter, init_state_cnt, cnkalman_error_state_init,
      cnkalman_state_init, acc_scale_config, default_config, SURVIVE_MODEL_MAX_STATE_CNT,
      cn_set_zero, cn_zero]
  have hval : cnMatrixGet (survive_kalman_tracker_init (Collaborators.inert (fun v : ℚ => v) 3)
      acc_scale_config 0 true true).model.P model_AccScale_offset model_AccScale_offset = 1 := by
    unfold survive_kalman_tracker_init
    dsimp only
    rw [reinit_P_acc_scale _ _ (by norm_num [acc_scale_config, default_config])]
    norm_num [acc_scale_config, default_config]
  refine ⟨rfl, rfl, rfl, hcnt, herr, hrows, hval, ?_⟩
  rw [hrows]
  norm_num [model_AccScale_offset]

/-- C28: evaluation of the assembly of the zero-velocity matrix `H` for the state count 13, which
`survive_kalman_tracker_init` produces for the default configuration with
`process_weight_jerk = 0`, with `disable_ang_vel` false: `H` has `min(9, 13 - 7) = 6` rows and 13
columns, and the first acceleration row is written at row 6 and column 13, neither of which is
inside `H`. -/
theorem zvu_H_writes_outside :
    no_acc_config.minimize_state_space = 1
    ∧ init_state_cnt no_acc_config = 13
    ∧ (integrate_imu_zvu_H (F := ℚ) 13 false).rows = 6
    ∧ (integrate_imu_zvu_H (F := ℚ) 13 false).cols = 13
    ∧ cnMatrixGet (integrate_imu_zvu_H (F := ℚ) 13 false) 6 13 = 1
    ∧ ¬ (6 < (integrate_imu_zvu_H (F := ℚ) 13 false).rows)
    ∧ ¬ (13 < (integrate_imu_zvu_H (F := ℚ) 13 false).cols) := by
  have h3 : List.range 3 = [0, 1, 2] := by decide
  have hr : (integrate_imu_zvu_H (F := ℚ) 13 false).rows = 6 := by
    unfold integrate_imu_zvu_H
    simp only [h3, List.foldl_cons, List.foldl_nil]
    norm_num [cnMatrixSet, cn_zero]
    rfl
  have hc : (integrate_imu_zvu_H (F := ℚ) 13 false).cols = 13 := by
    unfold integrate_imu_zvu_H
    simp only [h3, List.foldl_cons, List.foldl_nil]
    norm_num [cnMatrixSet, cn_zero]
  refine ⟨rfl, ?_, hr, hc, ?_, ?_, ?_⟩
  · norm_num [init_state_cnt, no_acc_config, default_config, SURVIVE_MODEL_MAX_STATE_CNT]
  · unfold integrate_imu_zvu_H
    simp only [h3, List.foldl_cons, List.foldl_nil]
    norm_num [cnMatrixSet, cnMatrixGet, cn_zero]
  · rw [hr]
    norm_num
  · rw [hc]
    norm_num

theorem pos_noise_form_nonneg {F : Type} [LinearOrderedField F]
    (params : SurviveKalmanTracker_Params F) (t : F) (ht : 0 ≤ t)
    (hj : 0 ≤ params.process_weight_jerk) (ha : 0 ≤ params.process_weight_acc)
    (hv : 0 ≤ params.process_weight_vel) (hp : 0 ≤ params.process_weight_pos) (x y z : F) :
    0 ≤ x * (process_noise_positional params t).p_p * x
        + x * (process_noise_positional params t).p_v * y
        + x * (process_noise_positional params t).p_a * z
        + y * (process_noise_positional params t).p_v * x
        + y * (process_noise_positional params t).v_v * y
        + y * (process_noise_positional params t).v_a * z
        + z * (process_noise_positional params t).p_a * x
        + z * (process_noise_positional params t).v_a * y
        + z * (process_noise_positional params t).a_a * z := by
  have e : x * (process_noise_positional params t).p_p * x
        + x * (process_noise_positional params t).p_v * y
        + x * (process_noise_positional params t).p_a * z
        + y * (process_noise_positional params t).p_v * x
        + y * (process_noise_positional params t).v_v * y
        + y * (process_noise_positional params t).v_a * z
        + z * (process_noise_positional params t).p_a * x
        + z * (process_noise_positional params t).v_a * y
        + z * (process_noise_positional params t).a_a * z
      = params.process_weight_jerk
          * (t ^ 3 / 3 * (z + 3 * t * y / 8 + t ^ 2 * x / 10) ^ 2
              + t ^ 5 / 320 * (y + 4 * t * x / 9) ^ 2 + t ^ 7 / 56700 * x ^ 2)
        + params.process_weight_acc
          * (t * (z + t * y / 2 + t ^ 2 * x / 6) ^ 2 + t ^ 3 / 12 * (y + t * x / 2) ^ 2
              + t ^ 5 / 720 * x ^ 2)
        + params.process_weight_vel * (t * (y + t * x / 2) ^ 2 + t ^ 3 / 12 * x ^ 2)
        + params.process_weight_pos * (t ^ 2 * x ^ 2) := by
    simp only [process_noise_positional, List.getD_cons_zero, List.getD_cons_succ]
    ring
  rw [e]
  positivity

theorem rot_noise_form_nonneg {F : Type} [LinearOrderedField F] (s r t : F) (ht : 0 ≤ t)
    (hs : 0 ≤ s) (hr : 0 ≤ r) (u w : F) :
    0 ≤ u * (s * (t * t * t / 3) + r * t) * u + u * (s * (t * t / 2)) * w
        + w * (s * (t * t / 2)) * u + w * (s * t) * w := by
  have e : u * (s * (t * t * t / 3) + r * t) * u + u * (s * (t * t / 2)) * w
        + w * (s * (t * t / 2)) * u + w * (s * t) * w
      = s * (t * (w + t * u / 2) ^ 2 + t ^ 3 / 12 * u ^ 2) + r * (t * u ^ 2) := by ring
  rw [e]
  positivity

theorem rot_noise_det_nonneg {F : Type} [LinearOrderedField F] (s r t : F)
    (hs : 0 ≤ s) (hr : 0 ≤ r) :
    0 ≤ (s * (t * t * t / 3) + r * t) * (s * t) - s * (t * t / 2) * (s * (t * t / 2)) := by
  have e : (s * (t * t * t / 3) + r * t) * (s * t) - s * (t * t / 2) * (s * (t * t / 2))
      = s ^ 2 * t ^ 4 / 12 + r * s * t ^ 2 := by ring
  rw [e]
  positivity

theorem Q_POSE_BLOCK_error_rot {F : Type} [LinearOrderedField F] (n : PosNoise F)
    (rv r_av s_w t : F) (k : Nat) (hk : k < 3) :
    (Q_POSE_BLOCK_error n rv r_av s_w t).getD (3 + k + (3 + k) * 15) 0 = rv
    ∧ (Q_POSE_BLOCK_error n rv r_av s_w t).getD (9 + k + (3 + k) * 15) 0 = r_av
    ∧ (Q_POSE_BLOCK_error n rv r_av s_w t).getD (3 + k + (9 + k) * 15) 0 = r_av
    ∧ (Q_POSE_BLOCK_error n rv r_av s_w t).getD (9 + k + (9 + k) * 15) 0 = s_w * t := by
  interval_cases k <;> exact ⟨rfl, rfl, rfl, rfl⟩

theorem Q_POSE_BLOCK_error_diag {F : Type} [LinearOrderedField F] (n : PosNoise F)
    (rv r_av s_w t : F) (a : Nat) (ha : a < 15) :
    (Q_POSE_BLOCK_error n rv r_av s_w t).getD (a + a * 15) 0
      = [n.p_p, n.p_p, n.p_p, rv, rv, rv, n.v_v, n.v_v, n.v_v, s_w * t, s_w * t, s_w * t,
          n.a_a, n.a_a, n.a_a].getD a 0 := by
  interval_cases a <;> rfl

theorem getD_nonneg_of_forall {F : Type} [LinearOrderedField F] (l : List F)
    (h : ∀ e ∈ l, 0 ≤ e) (i : Nat) : 0 ≤ l.getD i 0 := by
  induction l generalizing i with
  | nil => simp
  | cons x l ih =>
    cases i with
    | zero => exact h x (List.mem_cons_self _ _)
    | succ i => exact ih (fun e he => h e (List.mem_cons_of_mem _ he)) i

theorem bias_step_diag_nonneg {F : Type} [LinearOrderedField F] (errorState : Bool) (ga gb : F)
    (hga : 0 ≤ ga) (hgb : 0 ≤ gb) (q : CnMat F) (k : Nat) (h : ∀ a, 0 ≤ q.data a a) :
    ∀ a, 0 ≤ (process_noise_bias_step errorState ga gb q k).data a a := by
  intro a
  unfold process_noise_bias_step
  dsimp only
  split_ifs <;> (try simp only [cnMatrixSet]) <;> (try split_ifs) <;>
    first | exact hga | exact hgb | exact h a

theorem bias_fold_diag_nonneg {F : Type} [LinearOrderedField F] (errorState : Bool) (ga gb : F)
    (hga : 0 ≤ ga) (hgb : 0 ≤ gb) (l : List Nat) :
    ∀ q : CnMat F, (∀ a, 0 ≤ q.data a a) →
      ∀ a, 0 ≤ (l.foldl (process_noise_bias_step errorState ga gb) q).data a a := by
  induction l with
  | nil => intro q h; exact h
  | cons k l ih =>
    intro q h
    rw [List.foldl_cons]
    exact ih _ (bias_step_diag_nonneg errorState ga gb hga hgb q k h)

theorem Q_POSE_BLOCK_error_quadratic {F : Type} [LinearOrderedField F] (n : PosNoise F)
    (rv r_av s_w t : F) (w : Nat → F) :
    ∑ a in Finset.range 15, ∑ b in Finset.range 15,
        w a * (Q_POSE_BLOCK_error n rv r_av s_w t).getD (b + a * 15) 0 * w b
      = (w 0 * n.p_p * w 0 + w 0 * n.p_v * w 6 + w 0 * n.p_a * w 12
          + w 6 * n.p_v * w 0 + w 6 * n.v_v * w 6 + w 6 * n.v_a * w 12
          + w 12 * n.p_a * w 0 + w 12 * n.v_a * w 6 + w 12 * n.a_a * w 12)
        + (w 1 * n.p_p * w 1 + w 1 * n.p_v * w 7 + w 1 * n.p_a * w 13
          + w 7 * n.p_v * w 1 + w 7 * n.v_v * w 7 + w 7 * n.v_a * w 13
          + w 13 * n.p_a * w 1 + w 13 * n.v_a * w 7 + w 13 * n.a_a * w 13)
        + (w 2 * n.p_p * w 2 + w 2 * n.p_v * w 8 + w 2 * n.p_a * w 14
          + w 8 * n.p_v * w 2 + w 8 * n.v_v * w 8 + w 8 * n.v_a * w 14
          + w 14 * n.p_a * w 2 + w 14 * n.v_a * w 8 + w 14 * n.a_a * w 14)
        + (w 3 * rv * w 3 + w 3 * r_av * w 9 + w 9 * r_av * w 3 + w 9 * (s_w * t) * w 9)
        + (w 4 * rv * w 4 + w 4 * r_av * w 10 + w 10 * r_av * w 4 + w 10 * (s_w * t) * w 10)
        + (w 5 * rv * w 5 + w 5 * r_av * w 11 + w 11 * r_av * w 5 + w 11 * (s_w * t) * w 11) := by
  simp only [Finset.sum_range_succ, Finset.sum_range_zero, Q_POSE_BLOCK_error,
    List.getD_cons_succ, List.getD_cons_zero, Nat.reduceAdd, Nat.reduceMul, zero_add, zero_mul,
    mul_zero, add_zero]
  ring

/-- The quadratic form of the 15 x 15 array `Q_POSE_BLOCK` of the error-state branch is
non-negative for `t >= 0` and non-negative weights. -/
theorem Q_POSE_BLOCK_error_form_nonneg {F : Type} [LinearOrderedField F]
    (params : SurviveKalmanTracker_Params F) (t : F) (ht : 0 ≤ t)
    (hj : 0 ≤ params.process_weight_jerk) (ha : 0 ≤ params.process_weight_acc)
    (hv : 0 ≤ params.process_weight_vel) (hp : 0 ≤ params.process_weight_pos)
    (hw : 0 ≤ params.process_weight_ang_velocity) (hr : 0 ≤ params.process_weight_rotation)
    (w : Nat → F) :
    0 ≤ ∑ a in Finset.range 15, ∑ b in Finset.range 15,
        w a * (Q_POSE_BLOCK_error (process_noise_positional params t)
            (params.process_weight_ang_velocity * (t * t * t / 3)
              + params.process_weight_rotation * t)
            (params.process_weight_ang_velocity * (t * t / 2))
            params.process_weight_ang_velocity t).getD (b + a * 15) 0 * w b := by
  rw [Q_POSE_BLOCK_error_quadratic]
  have p0 := pos_noise_form_nonneg params t ht hj ha hv hp (w 0) (w 6) (w 12)
  have p1 := pos_noise_form_nonneg params t ht hj ha hv hp (w 1) (w 7) (w 13)
  have p2 := pos_noise_form_nonneg params t ht hj ha hv hp (w 2) (w 8) (w 14)
  have r0 := rot_noise_form_nonneg params.process_weight_ang_velocity
    params.process_weight_rotation t ht hw hr (w 3) (w 9)
  have r1 := rot_noise_form_nonneg params.process_weight_ang_velocity
    params.process_weight_rotation t ht hw hr (w 4) (w 10)
  have r2 := rot_noise_form_nonneg params.process_weight_ang_velocity
    params.process_weight_rotation t ht hw hr (w 5) (w 11)
  linarith

theorem Q_POSE_BLOCK_error_off_axis {F : Type} [LinearOrderedField F] (n : PosNoise F)
    (rv r_av s_w t : F) (a b : Nat) (ha : a < 15) (hb : b < 15)
    (h : a % 3 ≠ b % 3 ∨ (a / 3) % 2 ≠ (b / 3) % 2) :
    (Q_POSE_BLOCK_error n rv r_av s_w t).getD (b + a * 15) 0 = 0 := by
  interval_cases a <;> interval_cases b <;> first | rfl | (exfalso; revert h; decide)

theorem process_noise_bias_step_offdiag {F : Type} (errorState : Bool) (ga gb : F)
    (q : CnMat F) (k a b : Nat) (hab : a ≠ b) :
    (process_noise_bias_step errorState ga gb q k).data a b = q.data a b := by
  have key : ∀ (m : CnMat F) (i : Nat) (v : F), (cnMatrixSet m i i v).data a b = m.data a b := by
    intro m i v
    simp only [cnMatrixSet]
    rw [if_neg]
    rintro ⟨h1, h2⟩
    exact hab (h1.trans h2.symm)
  unfold process_noise_bias_step
  dsimp only
  split_ifs <;> simp only [key]

theorem process_noise_bias_fold_offdiag {F : Type} (errorState : Bool) (ga gb : F)
    (l : List Nat) (a b : Nat) (hab : a ≠ b) :
    ∀ q : CnMat F, (l.foldl (process_noise_bias_step errorState ga gb) q).data a b
      = q.data a b := by
  induction l with
  | nil => intro q; rfl
  | cons k l ih =>
    intro q
    rw [List.foldl_cons, ih, process_noise_bias_step_offdiag errorState ga gb q k a b hab]

theorem process_noise_bias_step_diag_at {F : Type} [LinearOrderedField F] (errorState : Bool)
    (ga gb : F) (hga : 0 ≤ ga) (hgb : 0 ≤ gb) (q : CnMat F) (k a : Nat) (h : 0 ≤ q.data a a) :
    0 ≤ (process_noise_bias_step errorState ga gb q k).data a a := by
  unfold process_noise_bias_step
  dsimp only
  split_ifs <;> (try simp only [cnMatrixSet]) <;> (try split_ifs) <;>
    first | exact hga | exact hgb | exact h

theorem process_noise_bias_fold_diag_at {F : Type} [LinearOrderedField F] (errorState : Bool)
    (ga gb : F) (hga : 0 ≤ ga) (hgb : 0 ≤ gb) (l : List Nat) (a : Nat) :
    ∀ q : CnMat F, 0 ≤ q.data a a →
      0 ≤ (l.foldl (process_noise_bias_step errorState ga gb) q).data a a := by
  induction l with
  | nil => intro q h; exact h
  | cons k l ih =>
    intro q h
    rw [List.foldl_cons]
    exact ih _ (process_noise_bias_step_diag_at errorState ga gb hga hgb q k a h)

theorem process_noise_bias_step_dims {F : Type} (errorState : Bool) (ga gb : F)
    (q : CnMat F) (k : Nat) :
    (process_noise_bias_step errorState ga gb q k).rows = q.rows
    ∧ (process_noise_bias_step errorState ga gb q k).cols = q.cols := by
  unfold process_noise_bias_step
  dsimp only
  split_ifs <;> exact ⟨rfl, rfl⟩

theorem process_noise_bias_fold_dims {F : Type} (errorState : Bool) (ga gb : F)
    (l : List Nat) :
    ∀ q : CnMat F, (l.foldl (process_noise_bias_step errorState ga gb) q).rows = q.rows
      ∧ (l.foldl (process_noise_bias_step errorState ga gb) q).cols = q.cols := by
  induction l with
  | nil => intro q; exact ⟨rfl, rfl⟩
  | cons k l ih =>
    intro q
    rw [List.foldl_cons]
    exact ⟨(ih _).1.trans (process_noise_bias_step_dims errorState ga gb q k).1,
      (ih _).2.trans (process_noise_bias_step_dims errorState ga gb q k).2⟩

/-- The matrix that `survive_kalman_tracker_process_noise` leaves has the extent of `q_out`. -/
theorem process_noise_dims {F : Type} [LinearOrderedField F] (sqrt : F → F)
    (params : SurviveKalmanTracker_Params F) (errorState : Bool) (t : F) (x q_out : CnMat F) :
    (survive_kalman_tracker_process_noise sqrt params errorState t x q_out).rows = q_out.rows
    ∧ (survive_kalman_tracker_process_noise sqrt params errorState t x q_out).cols
        = q_out.cols := by
  unfold survive_kalman_tracker_process_noise
  simp only
  constructor
  · rw [(process_noise_bias_fold_dims _ _ _ _ _).1]
    split_ifs <;> rfl
  · rw [(process_noise_bias_fold_dims _ _ _ _ _).2]
    split_ifs <;> rfl

/-- Outside the 15 x 15 block the error-state process noise keeps the off-diagonal entries of
the matrix it writes into. -/
theorem process_noise_error_outside {F : Type} [LinearOrderedField F] (sqrt : F → F)
    (params : SurviveKalmanTracker_Params F) (t : F) (x q_out : CnMat F) (a b : Nat)
    (hab : a ≠ b) (h15 : 15 ≤ a ∨ 15 ≤ b) :
    cnMatrixGet (survive_kalman_tracker_process_noise sqrt params true t x q_out) a b
      = cnMatrixGet q_out a b := by
  unfold survive_kalman_tracker_process_noise cnMatrixGet
  simp only [Bool.not_true, Bool.false_eq_true, if_false]
  rw [process_noise_bias_fold_offdiag _ _ _ _ a b hab]
  unfold cn_copy_in_row_major_roi
  dsimp only
  rw [if_neg]
  rintro ⟨-, h1, -, h2⟩
  have h1' := lt_of_lt_of_le h1 (min_le_right _ _)
  have h2' := lt_of_lt_of_le h2 (min_le_left _ _)
  omega

/-- Outside the 15 x 15 block the error-state process noise has a non-negative diagonal entry
wherever the matrix it writes into has one. -/
theorem process_noise_error_diag_outside {F : Type} [LinearOrderedField F] (sqrt : F → F)
    (params : SurviveKalmanTracker_Params F) (t : F) (x q_out : CnMat F) (ht : 0 ≤ t)
    (hab : 0 ≤ params.process_weight_acc_bias) (hgb : 0 ≤ params.process_weight_gyro_bias)
    (a : Nat) (h15 : 15 ≤ a) (h : 0 ≤ cnMatrixGet q_out a a) :
    0 ≤ cnMatrixGet (survive_kalman_tracker_process_noise sqrt params true t x q_out) a a := by
  unfold survive_kalman_tracker_process_noise cnMatrixGet
  simp only [Bool.not_true, Bool.false_eq_true, if_false]
  apply process_noise_bias_fold_diag_at true _ _ (mul_nonneg hab ht) (mul_nonneg hgb ht)
  unfold cn_copy_in_row_major_roi
  dsimp only
  rw [if_neg]
  · exact h
  · rintro ⟨-, h1, -, -⟩
    have h1' := lt_of_lt_of_le h1 (min_le_right _ _)
    omega

/-- A quadratic form whose matrix is a positive semidefinite 15 x 15 block `B` in the upper left
corner, a non-negative diagonal below it and zero elsewhere is non-negative, over any extent
`n`. -/
theorem block_diag_form_nonneg {F : Type} [LinearOrderedField F] (n : Nat) (M B : Nat → Nat → F)
    (hin : ∀ a b, a < 15 → b < 15 → a < n → b < n → M a b = B a b)
    (hout : ∀ a b, a < n → b < n → a ≠ b → (15 ≤ a ∨ 15 ≤ b) → M a b = 0)
    (hd : ∀ a, a < n → 15 ≤ a → 0 ≤ M a a)
    (hB : ∀ w : Nat → F, 0 ≤ ∑ a in Finset.range 15, ∑ b in Finset.range 15, w a * B a b * w b)
    (v : Nat → F) :
    0 ≤ ∑ a in Finset.range n, ∑ b in Finset.range n, v a * M a b * v b := by
  obtain ⟨w, hw, hw0⟩ : ∃ w : Nat → F, (∀ a, a < n → w a = v a) ∧ (∀ a, ¬ a < n → w a = 0) :=
    ⟨fun a => if a < n then v a else 0, fun a h => if_pos h, fun a h => if_neg h⟩
  have hsub : Finset.range n ⊆ Finset.range (n + 15) :=
    Finset.range_subset.2 (Nat.le_add_right n 15)
  have hsub15 : Finset.range 15 ⊆ Finset.range (n + 15) :=
    Finset.range_subset.2 (Nat.le_add_left 15 n)
  have e1 : ∑ a in Finset.range n, ∑ b in Finset.range n, v a * M a b * v b
      = ∑ a in Finset.range (n + 15), ∑ b in Finset.range (n + 15), w a * M a b * w b := by
    rw [← Finset.sum_subset hsub]
    · apply Finset.sum_congr rfl
      intro a ha
      rw [← Finset.sum_subset hsub]
      · apply Finset.sum_congr rfl
        intro b hb
        rw [hw a (Finset.mem_range.1 ha), hw b (Finset.mem_range.1 hb)]
      · intro b _ hb
        rw [hw0 b (fun c => hb (Finset.mem_range.2 c)), mul_zero]
    · intro a _ ha
      apply Finset.sum_eq_zero
      intro b _
      rw [hw0 a (fun c => ha (Finset.mem_range.2 c)), zero_mul, zero_mul]
  have e2 : ∀ a b, w a * M a b * w b
      = (if a < 15 ∧ b < 15 then w a * B a b * w b else 0)
        + (if a = b ∧ 15 ≤ a then M a a * (w a * w a) else 0) := by
    intro a b
    by_cases han : a < n
    · by_cases hbn : b < n
      · by_cases hblk : a < 15 ∧ b < 15
        · have h2 : ¬ (a = b ∧ 15 ≤ a) := fun c => absurd c.2 (not_le.mpr hblk.1)
          rw [if_pos hblk, if_neg h2, hin a b hblk.1 hblk.2 han hbn, add_zero]
        · rw [if_neg hblk]
          have h15 : 15 ≤ a ∨ 15 ≤ b := by
            by_contra hc
            push_neg at hc
            exact hblk ⟨hc.1, hc.2⟩
          by_cases hab : a = b
          · subst hab
            have ha15 : 15 ≤ a := by
              rcases h15 with h | h <;> exact h
            have h2 : a = a ∧ 15 ≤ a := ⟨rfl, ha15⟩
            rw [if_pos h2]
            ring
          · have h2 : ¬ (a = b ∧ 15 ≤ a) := fun c => hab c.1
            rw [if_neg h2, hout a b han hbn hab h15]
            ring
      · rw [hw0 b hbn]
        by_cases hab : a = b
        · subst hab
          exact absurd han hbn
        · have h2 : ¬ (a = b ∧ 15 ≤ a) := fun c => hab c.1
          rw [if_neg h2]
          split_ifs <;> ring
    · rw [hw0 a han]
      split_ifs <;> ring
  rw [e1]
  simp only [e2, Finset.sum_add_distrib]
  apply add_nonneg
  · have e3 : ∑ a in Finset.range (n + 15), ∑ b in Finset.range (n + 15),
          (if a < 15 ∧ b < 15 then w a * B a b * w b else 0)
        = ∑ a in Finset.range 15, ∑ b in Finset.range 15, w a * B a b * w b := by
      rw [← Finset.sum_subset hsub15]
      · apply Finset.sum_congr rfl
        intro a ha
        rw [← Finset.sum_subset hsub15]
        · apply Finset.sum_congr rfl
          intro b hb
          rw [if_pos ⟨Finset.mem_range.1 ha, Finset.mem_range.1 hb⟩]
        · intro b _ hb
          have h2 : ¬ (a < 15 ∧ b < 15) := fun c => hb (Finset.mem_range.2 c.2)
          rw [if_neg h2]
      · intro a _ ha
        apply Finset.sum_eq_zero
        intro b _
        have h2 : ¬ (a < 15 ∧ b < 15) := fun c => ha (Finset.mem_range.2 c.1)
        rw [if_neg h2]
    rw [e3]
    exact hB _
  · apply Finset.sum_nonneg
    intro a _
    apply Finset.sum_nonneg
    intro b _
    split_ifs with h
    · by_cases han : a < n
      · exact mul_nonneg (hd a han h.2) (mul_self_nonneg _)
      · rw [hw0 a han, mul_zero, mul_zero]
    · exact le_refl _

/-- C29: for every `t >= 0` and non-negative tuning weights, the error-state process noise that
`survive_kalman_tracker_process_noise` writes is positive semidefinite.  Into a matrix of at
least 15 x 15: the diagonal entries of the 15 x 15 block are non-negative, and so is the whole
diagonal when the diagonal of the matrix written into is non-negative; each per-axis 3 x 3
positional block `[p_p p_v p_a; p_v v_v v_a; p_a v_a a_a]` is positive semidefinite; each
per-axis 2 x 2 rotational block `[rv r_av; r_av s_w*t]` is symmetric, has a non-negative
determinant and is positive semidefinite; every entry of the block that couples two different
axes, or a positional with a rotational component, is zero; the block is symmetric and its
quadratic form is non-negative on every vector.  Into a square matrix of any extent whose
entries outside the 15 x 15 block are zero off the diagonal and non-negative on it (a cleared
matrix, for one): the matrix left is symmetric and its quadratic form is non-negative on every
vector, so it is positive semidefinite. -/
theorem process_noise_error_psd {F : Type} [LinearOrderedField F] (sqrt : F → F)
    (params : SurviveKalmanTracker_Params F) (t : F) (x q_out : CnMat F) (ht : 0 ≤ t)
    (hj : 0 ≤ params.process_weight_jerk) (ha : 0 ≤ params.process_weight_acc)
    (hv : 0 ≤ params.process_weight_vel) (hp : 0 ≤ params.process_weight_pos)
    (hw : 0 ≤ params.process_weight_ang_velocity) (hr : 0 ≤ params.process_weight_rotation)
    (hab : 0 ≤ params.process_weight_acc_bias) (hgb : 0 ≤ params.process_weight_gyro_bias) :
    (15 ≤ q_out.rows → 15 ≤ q_out.cols →
      (∀ a, a < 15 → 0 ≤ cnMatrixGet (survive_kalman_tracker_process_noise sqrt params true t x q_out) a a)
      ∧ ((∀ a, 0 ≤ cnMatrixGet q_out a a) → ∀ a, 0 ≤ cnMatrixGet (survive_kalman_tracker_process_noise sqrt params true t x q_out) a a)
      ∧ (∀ k, k < 3 → ∀ u : Fin 3 → F,
          0 ≤ ∑ r : Fin 3, ∑ c : Fin 3,
            u r * cnMatrixGet (survive_kalman_tracker_process_noise sqrt params true t x q_out) (pos_group_offset true r + k) (pos_group_offset true c + k) * u c)
      ∧ (∀ k, k < 3 →
          cnMatrixGet (survive_kalman_tracker_process_noise sqrt params true t x q_out) (3 + k) (9 + k) = cnMatrixGet (survive_kalman_tracker_process_noise sqrt params true t x q_out) (9 + k) (3 + k)
          ∧ 0 ≤ cnMatrixGet (survive_kalman_tracker_process_noise sqrt params true t x q_out) (3 + k) (3 + k) * cnMatrixGet (survive_kalman_tracker_process_noise sqrt params true t x q_out) (9 + k) (9 + k)
                - cnMatrixGet (survive_kalman_tracker_process_noise sqrt params true t x q_out) (3 + k) (9 + k) * cnMatrixGet (survive_kalman_tracker_process_noise sqrt params true t x q_out) (9 + k) (3 + k)
          ∧ ∀ u w : F,
              0 ≤ u * cnMatrixGet (survive_kalman_tracker_process_noise sqrt params true t x q_out) (3 + k) (3 + k) * u + u * cnMatrixGet (survive_kalman_tracker_process_noise sqrt params true t x q_out) (3 + k) (9 + k) * w
                + w * cnMatrixGet (survive_kalman_tracker_process_noise sqrt params true t x q_out) (9 + k) (3 + k) * u
                + w * cnMatrixGet (survive_kalman_tracker_process_noise sqrt params true t x q_out) (9 + k) (9 + k) * w)
      ∧ (∀ a b, a < 15 → b < 15 → (a % 3 ≠ b % 3 ∨ (a / 3) % 2 ≠ (b / 3) % 2) →
          cnMatrixGet (survive_kalman_tracker_process_noise sqrt params true t x q_out) a b = 0)
      ∧ (∀ a b, a < 15 → b < 15 →
          cnMatrixGet (survive_kalman_tracker_process_noise sqrt params true t x q_out) a b
            = cnMatrixGet (survive_kalman_tracker_process_noise sqrt params true t x q_out) b a)
      ∧ (∀ v : Nat → F, 0 ≤ ∑ a in Finset.range 15, ∑ b in Finset.range 15,
          v a * cnMatrixGet (survive_kalman_tracker_process_noise sqrt params true t x q_out) a b * v b))
    ∧ (q_out.cols = q_out.rows →
        (∀ a b, a < q_out.rows → b < q_out.rows → a ≠ b → (15 ≤ a ∨ 15 ≤ b) →
          cnMatrixGet q_out a b = 0) →
        (∀ a, a < q_out.rows → 15 ≤ a → 0 ≤ cnMatrixGet q_out a a) →
        (∀ a b, a < (survive_kalman_tracker_process_noise sqrt params true t x q_out).rows →
          b < (survive_kalman_tracker_process_noise sqrt params true t x q_out).cols →
          cnMatrixGet (survive_kalman_tracker_process_noise sqrt params true t x q_out) a b
            = cnMatrixGet (survive_kalman_tracker_process_noise sqrt params true t x q_out) b a)
        ∧ ∀ v : Nat → F,
            0 ≤ ∑ a in Finset.range (survive_kalman_tracker_process_noise sqrt params true t x q_out).rows,
              ∑ b in Finset.range (survive_kalman_tracker_process_noise sqrt params true t x q_out).cols,
                v a * cnMatrixGet (survive_kalman_tracker_process_noise sqrt params true t x q_out) a b * v b) := by
  have hentry : ∀ a b, a < 15 → b < 15 → a < q_out.rows → b < q_out.cols →
      cnMatrixGet (survive_kalman_tracker_process_noise sqrt params true t x q_out) a b
        = (Q_POSE_BLOCK_error (process_noise_positional params t)
            (params.process_weight_ang_velocity * (t * t * t / 3)
              + params.process_weight_rotation * t)
            (params.process_weight_ang_velocity * (t * t / 2))
            params.process_weight_ang_velocity t).getD (b + a * 15) 0 := by
    intro a b ha15 hb15 har hbc
    have h := process_noise_entry sqrt params true t x q_out a b (by simpa using ha15)
      (by simpa using hb15) har hbc
    simpa using h
  refine ⟨fun hrows hcols => ?_, fun hsq hoff hd => ?_⟩
  · have hent : ∀ a b, a < 15 → b < 15 →
        cnMatrixGet (survive_kalman_tracker_process_noise sqrt params true t x q_out) a b
          = (Q_POSE_BLOCK_error (process_noise_positional params t)
              (params.process_weight_ang_velocity * (t * t * t / 3)
                + params.process_weight_rotation * t)
              (params.process_weight_ang_velocity * (t * t / 2))
              params.process_weight_ang_velocity t).getD (b + a * 15) 0 :=
      fun a b ha15 hb15 => hentry a b ha15 hb15 (by omega) (by omega)
    have hpp := pos_noise_form_nonneg params t ht hj ha hv hp 1 0 0
    have hvv := pos_noise_form_nonneg params t ht hj ha hv hp 0 1 0
    have haa := pos_noise_form_nonneg params t ht hj ha hv hp 0 0 1
    have hrv := rot_noise_form_nonneg params.process_weight_ang_velocity
      params.process_weight_rotation t ht hw hr 1 0
    have hst := rot_noise_form_nonneg params.process_weight_ang_velocity
      params.process_weight_rotation t ht hw hr 0 1
    simp only [mul_zero, zero_mul, add_zero, zero_add, one_mul, mul_one] at hpp hvv haa hrv hst
    have hdiag : ∀ a, a < 15 → 0 ≤ cnMatrixGet (survive_kalman_tracker_process_noise sqrt params true t x q_out) a a := by
      intro a ha15
      rw [hent a a ha15 ha15, Q_POSE_BLOCK_error_diag _ _ _ _ _ a ha15]
      apply getD_nonneg_of_forall
      intro e he
      simp only [List.mem_cons, List.mem_singleton, List.not_mem_nil, or_false] at he
      rcases he with h | h | h | h | h | h | h | h | h | h | h | h | h | h | h <;> rw [h] <;>
        assumption
    refine ⟨hdiag, ?_, ?_, ?_, ?_, ?_, ?_⟩
    · intro hq a
      by_cases ha15 : a < 15
      · exact hdiag a ha15
      · exact process_noise_error_diag_outside sqrt params t x q_out ht hab hgb a (by omega)
          (hq a)
    · intro k hk u
      have hoff : ∀ r : Fin 3, pos_group_offset true r + k < 15 := by
        intro r
        fin_cases r <;> simp [pos_group_offset] <;> omega
      have hblock : ∀ r c : Fin 3,
          cnMatrixGet (survive_kalman_tracker_process_noise sqrt params true t x q_out) (pos_group_offset true r + k) (pos_group_offset true c + k)
            = (process_noise_positional params t).entry r c := by
        intro r c
        rw [hent _ _ (hoff r) (hoff c)]
        exact Q_POSE_BLOCK_error_entry _ _ _ _ _ r c k hk
      simp only [hblock, Fin.sum_univ_three]
      have h := pos_noise_form_nonneg params t ht hj ha hv hp (u 0) (u 1) (u 2)
      refine le_of_le_of_eq h ?_
      simp only [PosNoise.entry, Matrix.cons_val_zero, Matrix.cons_val_one, Matrix.head_cons,
        Matrix.cons_val_two, Matrix.tail_cons]
      ring
    · intro k hk
      have hb := Q_POSE_BLOCK_error_rot (process_noise_positional params t)
        (params.process_weight_ang_velocity * (t * t * t / 3) + params.process_weight_rotation * t)
        (params.process_weight_ang_velocity * (t * t / 2)) params.process_weight_ang_velocity t k hk
      rw [hent (3 + k) (3 + k) (by omega) (by omega), hent (3 + k) (9 + k) (by omega) (by omega),
        hent (9 + k) (3 + k) (by omega) (by omega), hent (9 + k) (9 + k) (by omega) (by omega),
        hb.1, hb.2.1, hb.2.2.1, hb.2.2.2]
      exact ⟨rfl, rot_noise_det_nonneg _ _ t hw hr, rot_noise_form_nonneg _ _ t ht hw hr⟩
    · intro a b ha15 hb15 h
      rw [hent a b ha15 hb15]
      exact Q_POSE_BLOCK_error_off_axis _ _ _ _ _ a b ha15 hb15 h
    · intro a b ha15 hb15
      rw [hent a b ha15 hb15, hent b a hb15 ha15]
      exact Q_POSE_BLOCK_error_symm _ _ _ _ _ a b ha15 hb15
    · intro v
      have h := Q_POSE_BLOCK_error_form_nonneg params t ht hj ha hv hp hw hr v
      refine le_of_le_of_eq h ?_
      apply Finset.sum_congr rfl
      intro a ha'
      apply Finset.sum_congr rfl
      intro b hb'
      rw [hent a b (Finset.mem_range.1 ha') (Finset.mem_range.1 hb')]
  · obtain ⟨hR, hC⟩ := process_noise_dims sqrt params true t x q_out
    have hout : ∀ a b, a < q_out.rows → b < q_out.rows → a ≠ b → (15 ≤ a ∨ 15 ≤ b) →
        cnMatrixGet (survive_kalman_tracker_process_noise sqrt params true t x q_out) a b = 0 := by
      intro a b har hbr hne h15
      rw [process_noise_error_outside sqrt params t x q_out a b hne h15]
      exact hoff a b har hbr hne h15
    rw [hR, hC, hsq]
    constructor
    · intro a b har hbr
      by_cases hblk : a < 15 ∧ b < 15
      · rw [hentry a b hblk.1 hblk.2 har (by rw [hsq]; exact hbr),
          hentry b a hblk.2 hblk.1 hbr (by rw [hsq]; exact har)]
        exact Q_POSE_BLOCK_error_symm _ _ _ _ _ a b hblk.1 hblk.2
      · have h15 : 15 ≤ a ∨ 15 ≤ b := by
          by_contra hc
          push_neg at hc
          exact hblk ⟨hc.1, hc.2⟩
        by_cases hne : a = b
        · rw [hne]
        · rw [hout a b har hbr hne h15, hout b a hbr har (fun c => hne c.symm) h15.symm]
    · intro v
      exact block_diag_form_nonneg q_out.rows
        (fun a b => cnMatrixGet (survive_kalman_tracker_process_noise sqrt params true t x q_out) a b)
        (fun a b => (Q_POSE_BLOCK_error (process_noise_positional params t)
            (params.process_weight_ang_velocity * (t * t * t / 3)
              + params.process_weight_rotation * t)
            (params.process_weight_ang_velocity * (t * t / 2))
            params.process_weight_ang_velocity t).getD (b + a * 15) 0)
        (fun a b ha15 hb15 har hbr => hentry a b ha15 hb15 har (by rw [hsq]; exact hbr))
        hout
        (fun a har h15 => process_noise_error_diag_outside sqrt params t x q_out ht hab hgb a h15
          (hd a har h15))
        (fun w => Q_POSE_BLOCK_error_form_nonneg params t ht hj ha hv hp hw hr w) v

/-- Witness for C29: the default tuning weights, `t = 1/1000`, a cleared 15 x 15 matrix and the
vector of ones. -/
theorem process_noise_error_psd_witness :
    0 ≤ ∑ a in Finset.range (survive_kalman_tracker_process_noise (fun v : ℚ => v)
          (default_config : SurviveKalmanTracker ℚ).params true (1 / 1000) moving_state
          (cn_zero 15 15)).rows,
        ∑ b in Finset.range (survive_kalman_tracker_process_noise (fun v : ℚ => v)
          (default_config : SurviveKalmanTracker ℚ).params true (1 / 1000) moving_state
          (cn_zero 15 15)).cols,
          1 * cnMatrixGet (survive_kalman_tracker_process_noise (fun v : ℚ => v)
            (default_config : SurviveKalmanTracker ℚ).params true (1 / 1000) moving_state
            (cn_zero 15 15)) a b * 1 :=
  ((process_noise_error_psd (fun v : ℚ => v) (default_config : SurviveKalmanTracker ℚ).params
    (1 / 1000) moving_state (cn_zero 15 15) (by norm_num)
    (by norm_num [default_config]) (by norm_num [default_config]) (by norm_num [default_config])
    (by norm_num [default_config]) (by norm_num [default_config]) (by norm_num [default_config])
    (by norm_num [default_config]) (by norm_num [default_config])).2 rfl
    (fun _ _ _ _ _ _ => rfl) (fun _ _ _ => le_refl _)).2 (fun _ => 1)

/-- C30: for every configuration the state count that `survive_kalman_tracker_init` computes is
one of 27, 24, 21, 17, 16, 13, 10, 7, hence at least 7, and it is the state dimension of the
filter that is created (so the assertion `state_size >= 7` of `copy_model` holds on the filter
state); it is 27 whenever `minimize_state_space` is not 1; and with `minimize_state_space = 1`,
`process_weight_jerk = 1874161`, `process_weight_ang_velocity = 60` and every other weight and
both initial variances 0 it is 16. -/
theorem init_state_cnt_values {F : Type} [LinearOrderedField F]
    (tracker : SurviveKalmanTracker F) :
    init_state_cnt tracker ∈ [27, 24, 21, 17, 16, 13, 10, 7]
    ∧ 7 ≤ init_state_cnt tracker
    ∧ (init_filter tracker).state_cnt = init_state_cnt tracker
    ∧ 7 ≤ (init_filter tracker).state_cnt
    ∧ (tracker.minimize_state_space ≠ 1 → init_state_cnt tracker = 27)
    ∧ (tracker.minimize_state_space = 1 →
        tracker.params.process_weight_jerk = 1874161 →
        tracker.params.process_weight_ang_velocity = 60 →
        tracker.params.process_weight_acc = 0 →
        tracker.params.process_weight_vel = 0 →
        tracker.params.process_weight_pos = 0 →
        tracker.params.process_weight_rotation = 0 →
        tracker.params.process_weight_acc_bias = 0 →
        tracker.params.process_weight_gyro_bias = 0 →
        tracker.params.initial_variance_imu_correction = 0 →
        tracker.params.initial_acc_scale_variance = 0 →
        init_state_cnt tracker = 16) := by
  have hfilter : (init_filter tracker).state_cnt = init_state_cnt tracker := by
    unfold init_filter
    dsimp only
    split_ifs <;> rfl
  have hge : 7 ≤ init_state_cnt tracker := by
    unfold init_state_cnt
    dsimp only [SURVIVE_MODEL_MAX_STATE_CNT]
    split_ifs <;> norm_num
  refine ⟨?_, hge, hfilter, by rw [hfilter]; exact hge, ?_, ?_⟩
  · unfold init_state_cnt
    dsimp only [SURVIVE_MODEL_MAX_STATE_CNT]
    split_ifs <;> simp
  · intro h
    unfold init_state_cnt
    dsimp only [SURVIVE_MODEL_MAX_STATE_CNT]
    rw [if_neg h]
  · intro hm hj _ ha _ _ _ hab hgb himu hsc
    unfold init_state_cnt
    dsimp only [SURVIVE_MODEL_MAX_STATE_CNT]
    rw [if_pos hm, if_neg (by rw [hgb]; simp), if_neg (by rw [hab]; simp),
      if_neg (by rw [himu]; simp), if_neg (by rw [hsc]; simp),
      if_pos (Or.inr (by rw [hj]; norm_num))]

/-- Witness for C30: the default configuration has the state count 16. -/
theorem init_state_cnt_values_witness :
    init_state_cnt (default_config : SurviveKalmanTracker ℚ) = 16 :=
  (init_state_cnt_values (default_config : SurviveKalmanTracker ℚ)).2.2.2.2.2 rfl rfl rfl rfl rfl
    rfl rfl rfl rfl rfl rfl

/-- C6: evaluation of `survive_kalman_tracker_init` (which ends in
`survive_kalman_tracker_reinit`) on the default configuration with every tuning weight zero, in
error-state mode with the truncation on: the state count is 7, the error-state dimension and the
number of rows of `P` are 6, and the loop over the first seven diagonal entries adds 10 at the
index `(6, 6)`, which is not inside `P`: a tracker for which `P` has no seventh diagonal
entry. -/
theorem reinit_diag_past_P :
    pose_only_config.minimize_state_space = 1
    ∧ pose_only_config.use_error_state = true
    ∧ (survive_kalman_tracker_init (Collaborators.inert (fun v : ℚ => v) 3) pose_only_config 0
        true true).model.state_cnt = 7
    ∧ (survive_kalman_tracker_init (Collaborators.inert (fun v : ℚ => v) 3) pose_only_config 0
        true true).model.error_state_size = 6
    ∧ (survive_kalman_tracker_init (Collaborators.inert (fun v : ℚ => v) 3) pose_only_config 0
        true true).model.P.rows = 6
    ∧ cnMatrixGet (survive_kalman_tracker_init (Collaborators.inert (fun v : ℚ => v) 3)
        pose_only_config 0 true true).model.P 6 6 = 10
    ∧ ¬ (6 < (survive_kalman_tracker_init (Collaborators.inert (fun v : ℚ => v) 3)
        pose_only_config 0 true true).model.P.rows) := by
  have hcnt : (survive_kalman_tracker_init (Collaborators.inert (fun v : ℚ => v) 3)
      pose_only_config 0 true true).model.state_cnt = 7 := by
    unfold survive_kalman_tracker_init
    dsimp only
    rw [(reinit_model_dims _ _).1]
    norm_num [Collaborators.inert, init_filter, init_state_cnt, cnkalman_error_state_init,
      cnkalman_state_init, pose_only_config, zero_params, default_config,
      SURVIVE_MODEL_MAX_STATE_CNT]
  have herr : (survive_kalman_tracker_init (Collaborators.inert (fun v : ℚ => v) 3)
      pose_only_config 0 true true).model.error_state_size = 6 := by
    unfold survive_kalman_tracker_init
    dsimp only
    rw [(reinit_model_dims _ _).2]
    norm_num [Collaborators.inert, init_filter, init_state_cnt, cnkalman_error_state_init,
      cnkalman_state_init, pose_only_config, zero_params, default_config,
      SURVIVE_MODEL_MAX_STATE_CNT]
  have hrows : (survive_kalman_tracker_init (Collaborators.inert (fun v : ℚ => v) 3)
      pose_only_config 0 true true).model.P.rows = 6 := by
    unfold survive_kalman_tracker_init
    dsimp only
    rw [reinit_P_rows]
    norm_num [Collaborators.inert, init_filter, init_state_cnt, cnkalman_error_state_init,
      cnkalman_state_init, pose_only_config, zero_params, default_config,
      SURVIVE_MODEL_MAX_STATE_CNT, cn_set_zero, cn_zero]
  have hval : cnMatrixGet (survive_kalman_tracker_init (Collaborators.inert (fun v : ℚ => v) 3)
      pose_only_config 0 true true).model.P 6 6 = 10 := by
    unfold survive_kalman_tracker_init
    dsimp only
    rw [reinit_P_diag _ _ 6 (by norm_num)]
    norm_num [Collaborators.inert, cn_set_zero, cnMatrixGet]
  refine ⟨rfl, rfl, hcnt, herr, hrows, hval, ?_⟩
  rw [hrows]
  norm_num

theorem round_to_precision_neg (p : ℕ) (x : ℚ) :
    round_to_precision p (-x) = -round_to_precision p x := by
  unfold round_to_precision
  by_cases h : x = 0
  · simp [h]
  · have h' : -x ≠ 0 := neg_ne_zero.mpr h
    rw [if_neg h, if_neg h', abs_neg]
    dsimp only
    rcases lt_or_gt_of_ne h with hl | hg
    · rw [if_pos hl, if_neg (by linarith : ¬ -x < 0)]
      ring
    · rw [if_neg (by linarith : ¬ x < 0), if_pos (by linarith : -x < 0)]

/-- The double nearest to 1/10, the value of the literal `.1`. -/
theorem binary64_tenth : binary64 (1 / 10) = 3602879701896397 / 36028797018963968 := by
  unfold binary64
  rw [round_to_precision_eq 53 _ (-4) 7205759403792794 (by norm_num) (by norm_num) (by norm_num)
    (by norm_num [abs_lt])]
  norm_num

/-- The double nearest to 9900/1000 lies above it. -/
theorem binary64_9900 : binary64 (9900 / 1000) = 5573204538870989 / 562949953421312 := by
  unfold binary64
  rw [round_to_precision_eq 53 _ 3 5573204538870989 (by norm_num) (by norm_num) (by norm_num)
    (by norm_num [abs_lt])]
  norm_num

/-- The difference of the doubles 9.9 and 10 is a double. -/
theorem binary64_9900_diff :
    binary64 (5573204538870989 / 562949953421312 - 10)
      = -(56294995342131 / 562949953421312) := by
  have e : (5573204538870989 / 562949953421312 - 10 : ℚ)
      = -(56294995342131 / 562949953421312) := by norm_num
  unfold binary64
  rw [e, round_to_precision_neg,
    round_to_precision_eq 53 _ (-4) 7205759403792768 (by norm_num) (by norm_num) (by norm_num)
      (by norm_num [abs_lt])]
  norm_num

/-- An observation exactly 0.1 s behind the filter time (filter time 10 s, time code 9900 on a
1 kHz time base) is not dropped as late by the compiled code: the doubles give
`time - model.t = -0.09999999999999964`, which is above the double `.1` negated, so the
observation is accepted with its time clamped. -/
theorem integrate_observation_kept_at_boundary :
    (10 : ℚ) - ((9900 : ℕ) : ℚ) / ((1000 : ℕ) : ℚ) = 1 / 10
    ∧ binary64 (binary64 (((9900 : ℕ) : ℚ) / ((1000 : ℕ) : ℚ)) - 10)
        = -(56294995342131 / 562949953421312)
    ∧ integrate_observation_late_double 9900 1000 10 = false := by
  have h1 : binary64 (((9900 : ℕ) : ℚ) / ((1000 : ℕ) : ℚ))
      = 5573204538870989 / 562949953421312 := by
    have e : (((9900 : ℕ) : ℚ) / ((1000 : ℕ) : ℚ)) = 9900 / 1000 := by norm_num
    rw [e]
    exact binary64_9900
  have h2 : binary64 (binary64 (((9900 : ℕ) : ℚ) / ((1000 : ℕ) : ℚ)) - 10)
      = -(56294995342131 / 562949953421312) := by
    rw [h1]
    exact binary64_9900_diff
  refine ⟨by norm_num, h2, ?_⟩
  unfold integrate_observation_late_double
  dsimp only
  rw [h2, binary64_tenth]
  norm_num

end Theorems

end Survive
